import Mathlib

/-!
# gstreamer-imx: format negotiation and physical memory allocator

A shallow embedding of

* `src/ipu/videotransform/videotransform.c` (caps fixation and pixel format scoring), and
* `src/common/phys_mem_allocator.c` (copy / share of physically contiguous blocks),

followed by theorems about the embedded functions.

The two C files call into GLib / GStreamer.  Those library functions are not part of the
repository; each one that the embedded code calls is given below as a definition that follows
the library's documented behaviour, and is marked as a library function in its doc comment.
Machine integers are `Int` / `Nat`; conversions between C integer types are explicit.
-/

namespace GstImx

/-! ## GLib / GStreamer values -/

/-- Largest `gint` (32 bit signed). -/
def G_MAXINT : Int := 2147483647

/-- Largest `guint64`. -/
def G_MAXUINT64 : Nat := 18446744073709551615

/-- A `GValue` as it occurs in video caps.  `other` stands for every GType the embedded code does
not inspect (boolean, double, bitmask, ...). -/
inductive GValue where
  | int (v : Int)
  | intRange (min max : Int)
  | fraction (n d : Int)
  | fractionRange (min_n min_d max_n max_d : Int)
  | string (s : String)
  | list (vs : List GValue)
  | other (tag : Nat)

/-- Library function `gst_value_is_fixed`: ranges and lists are not fixed, plain values are. -/
def gst_value_is_fixed : GValue → Bool
  | .int _ => true
  | .fraction _ _ => true
  | .string _ => true
  | .other _ => true
  | .intRange _ _ => false
  | .fractionRange _ _ _ _ => false
  | .list _ => false

/-- Library function `gst_value_get_fraction_numerator`; its `g_return_val_if_fail` yields 0 on a
value that holds no fraction. -/
def gst_value_get_fraction_numerator : GValue → Int
  | .fraction n _ => n
  | _ => 0

/-- Library function `gst_value_get_fraction_denominator`; its `g_return_val_if_fail` yields 1 on
a value that holds no fraction. -/
def gst_value_get_fraction_denominator : GValue → Int
  | .fraction _ d => d
  | _ => 1

/-- Library function `gst_util_greatest_common_divisor`: Euclid's loop followed by `ABS`, that is
the greatest common divisor of the absolute values (and `|a|` when `b = 0`). -/
def gst_util_greatest_common_divisor (a b : Int) : Int := (Int.gcd a b : Int)

/-- Library function `gst_util_fraction_multiply`: multiplies `a_n/a_d` by `b_n/b_d`, returns the
reduced product, or fails (`none`) on a zero denominator or when a product would not fit a
`gint`.  Divisions are C divisions (truncating); all of them are exact. -/
def gst_util_fraction_multiply (a_n a_d b_n b_d : Int) : Option (Int × Int) :=
  if a_d = 0 ∨ b_d = 0 then none
  else if a_n = 0 ∨ b_n = 0 then some (0, 1)
  else
    let g1 := gst_util_greatest_common_divisor a_n a_d
    let a_n1 := Int.tdiv a_n g1
    let a_d1 := Int.tdiv a_d g1
    let g2 := gst_util_greatest_common_divisor b_n b_d
    let b_n1 := Int.tdiv b_n g2
    let b_d1 := Int.tdiv b_d g2
    let g3 := gst_util_greatest_common_divisor a_n1 b_d1
    let a_n2 := Int.tdiv a_n1 g3
    let b_d2 := Int.tdiv b_d1 g3
    let g4 := gst_util_greatest_common_divisor a_d1 b_n1
    let a_d2 := Int.tdiv a_d1 g4
    let b_n2 := Int.tdiv b_n1 g4
    if a_n2 ≠ 0 ∧ Int.tdiv G_MAXINT |a_n2| < |b_n2| then none
    else if Int.tdiv G_MAXINT |a_d2| < |b_d2| then none
    else
      let res_n := a_n2 * b_n2
      let res_d := a_d2 * b_d2
      let g5 := gst_util_greatest_common_divisor res_n res_d
      some (Int.tdiv res_n g5, Int.tdiv res_d g5)

/-- Library function `gst_util_uint64_scale_int`: `val * num / denom`, truncated, computed without
intermediate overflow; `G_MAXUINT64` when the result does not fit 64 bits or when an argument
check (`num >= 0`, `denom > 0`) fails. -/
def gst_util_uint64_scale_int (val : Nat) (num denom : Int) : Nat :=
  if denom ≤ 0 ∨ num < 0 then G_MAXUINT64
  else
    let r := val * num.toNat / denom.toNat
    if r > G_MAXUINT64 then G_MAXUINT64 else r

/-- Conversion of a `gint` argument to the `guint64` parameter of `gst_util_uint64_scale_int`. -/
def gint_to_guint64 (x : Int) : Nat := (x % 18446744073709551616).toNat

/-- The cast `(guint)` of a `guint64`, stored into a `gint` variable: the low 32 bits, read as a
two's complement number. -/
def guint64_to_gint (x : Nat) : Int :=
  let lo := x % 4294967296
  if lo < 2147483648 then (lo : Int) else (lo : Int) - 4294967296

/-- The expression `(guint) gst_util_uint64_scale_int(v, num, den)` assigned to a `gint`, as it
occurs at lines 592, 638, 668, 715, 744, 766, 829 and 844 of `videotransform.c`. -/
def scale_gint (v num den : Int) : Int :=
  guint64_to_gint (gst_util_uint64_scale_int (gint_to_guint64 v) num den)

/-- Library function `gst_video_calculate_display_ratio`: the reduced fraction
`(video_width * video_par_n * display_par_d) / (video_height * video_par_d * display_par_n)`,
or failure when a multiplication overflows or the result is not positive. -/
def gst_video_calculate_display_ratio (video_width video_height video_par_n video_par_d
    display_par_n display_par_d : Int) : Option (Int × Int) :=
  match gst_util_fraction_multiply video_width video_height video_par_n video_par_d with
  | none => none
  | some (tmp_n, tmp_d) =>
    match gst_util_fraction_multiply tmp_n tmp_d display_par_d display_par_n with
    | none => none
    | some (num, den) => if num > 0 ∧ den > 0 then some (num, den) else none

/-! ## GstStructure -/

/-- A `GstStructure`: an ordered list of named fields. -/
structure GstStructure where
  fields : List (String × GValue)

/-- Field lookup in a field list. -/
def lookup_field : List (String × GValue) → String → Option GValue
  | [], _ => none
  | (k, v) :: rest, f => if k = f then some v else lookup_field rest f

/-- Field update in a field list: an existing field keeps its position and gets the new value, a
new field is appended. -/
def update_field : List (String × GValue) → String → GValue → List (String × GValue)
  | [], f, v => [(f, v)]
  | (k, x) :: rest, f, v => if k = f then (k, v) :: rest else (k, x) :: update_field rest f v

/-- Library function `gst_structure_get_value`. -/
def gst_structure_get_value (s : GstStructure) (f : String) : Option GValue :=
  lookup_field s.fields f

/-- Library function `gst_structure_has_field`. -/
def gst_structure_has_field (s : GstStructure) (f : String) : Bool :=
  (gst_structure_get_value s f).isSome

/-- Library function `gst_structure_set_value`. -/
def gst_structure_set_value (s : GstStructure) (f : String) (v : GValue) : GstStructure :=
  ⟨update_field s.fields f v⟩

/-- Library function `gst_structure_get_int`: the value of a field of type `G_TYPE_INT`; `none`
stands for the return value `FALSE`, in which case the output variable is not written. -/
def gst_structure_get_int (s : GstStructure) (f : String) : Option Int :=
  match gst_structure_get_value s f with
  | some (.int v) => some v
  | _ => none

/-- Library function `gst_structure_get_fraction`; `none` stands for `FALSE`. -/
def gst_structure_get_fraction (s : GstStructure) (f : String) : Option (Int × Int) :=
  match gst_structure_get_value s f with
  | some (.fraction n d) => some (n, d)
  | _ => none

/-- Library function `gst_structure_get_string`; `none` stands for `NULL`. -/
def gst_structure_get_string (s : GstStructure) (f : String) : Option String :=
  match gst_structure_get_value s f with
  | some (.string x) => some x
  | _ => none

/-- The call `gst_structure_set(s, f, G_TYPE_INT, v, NULL)`. -/
def gst_structure_set_int (s : GstStructure) (f : String) (v : Int) : GstStructure :=
  gst_structure_set_value s f (.int v)

/-- The call `gst_structure_set(s, f, G_TYPE_STRING, v, NULL)`. -/
def gst_structure_set_string (s : GstStructure) (f : String) (v : String) : GstStructure :=
  gst_structure_set_value s f (.string v)

/-- The call `gst_structure_set(s, f, GST_TYPE_FRACTION, n, d, NULL)`: the library refuses a zero
denominator (the field is then not written) and stores the fraction with a positive denominator
in lowest terms. -/
def gst_structure_set_fraction (s : GstStructure) (f : String) (n d : Int) : GstStructure :=
  if d = 0 then s
  else
    let n1 := if d < 0 then -n else n
    let d1 := if d < 0 then -d else d
    let g := gst_util_greatest_common_divisor n1 d1
    gst_structure_set_value s f (.fraction (Int.tdiv n1 g) (Int.tdiv d1 g))

/-- The list branch of `gst_structure_fixate_field_nearest_int`: the first integer of the list
with the least distance to the target. -/
def nearest_int_in_list (target : Int) : List GValue → Option Int → Option Int
  | [], best => best
  | .int x :: rest, none => nearest_int_in_list target rest (some x)
  | .int x :: rest, some b =>
    nearest_int_in_list target rest (if |target - x| < |target - b| then some x else some b)
  | _ :: rest, best => nearest_int_in_list target rest best

/-- Library function `gst_structure_fixate_field_nearest_int`: a range is replaced by the target
clamped into it, a list by its nearest integer; an integer field, a missing field and every other
type are left alone. -/
def gst_structure_fixate_field_nearest_int (s : GstStructure) (f : String) (target : Int) :
    GstStructure :=
  match gst_structure_get_value s f with
  | some (.intRange lo hi) =>
    let t1 := if target < lo then lo else target
    let t2 := if t1 > hi then hi else t1
    gst_structure_set_int s f t2
  | some (.list vs) =>
    match nearest_int_in_list target vs none with
    | some best => gst_structure_set_int s f best
    | none => s
  | _ => s

/-- Library function `gst_structure_fixate_field_nearest_fraction`.  A fraction range is replaced
by the (reduced) target clamped into it, fractions being compared exactly.  For a list the library
picks the entry nearest to the target in double precision; that choice is the parameter `pick`.
A fraction field, a missing field, a zero target denominator and every other type leave the
structure alone. -/
def gst_structure_fixate_field_nearest_fraction (pick : List GValue → Int → Int → Option GValue)
    (s : GstStructure) (f : String) (target_n target_d : Int) : GstStructure :=
  if target_d = 0 then s
  else
    match gst_structure_get_value s f with
    | some (.fractionRange min_n min_d max_n max_d) =>
      let n1 := if target_d < 0 then -target_n else target_n
      let d1 := if target_d < 0 then -target_d else target_d
      let g := gst_util_greatest_common_divisor n1 d1
      let tn := Int.tdiv n1 g
      let td := Int.tdiv d1 g
      let v1 : Int × Int := if tn * min_d < min_n * td then (min_n, min_d) else (tn, td)
      let v2 : Int × Int := if tn * max_d > max_n * td then (max_n, max_d) else v1
      gst_structure_set_value s f (.fraction v2.1 v2.2)
    | some (.list vs) =>
      match pick vs target_n target_d with
      | some best => gst_structure_set_value s f best
      | none => s
    | _ => s

/-- `GstCaps`: a list of structures. -/
abbrev GstCaps := List GstStructure

/-- Library function `gst_caps_truncate`: keeps the first structure only. -/
def gst_caps_truncate (caps : GstCaps) : GstCaps := caps.take 1

/-- `GstPadDirection`. -/
inductive GstPadDirection where
  | GST_PAD_UNKNOWN
  | GST_PAD_SRC
  | GST_PAD_SINK
  deriving DecidableEq, Repr

/-! ## videotransform.c: pixel format scoring (lines 880-1013) -/

/-- The fields of `GstVideoFormatInfo` that `score_value` reads, together with the format id and
name that identify the descriptor.  The library keeps one descriptor per format in a static
table, so the pointer comparison `in_info == t_info` is equality of descriptors. -/
structure GstVideoFormatInfo where
  format : Nat
  name : String
  flags : Nat
  bits : Nat
  w_sub : List Nat
  h_sub : List Nat
  deriving DecidableEq, Repr

/-- `GstVideoFormatFlags` bits (GStreamer `video-format.h`). -/
def GST_VIDEO_FORMAT_FLAG_YUV : Nat := 1
def GST_VIDEO_FORMAT_FLAG_RGB : Nat := 2
def GST_VIDEO_FORMAT_FLAG_GRAY : Nat := 4
def GST_VIDEO_FORMAT_FLAG_ALPHA : Nat := 8
def GST_VIDEO_FORMAT_FLAG_LE : Nat := 16
def GST_VIDEO_FORMAT_FLAG_PALETTE : Nat := 32
def GST_VIDEO_FORMAT_FLAG_COMPLEX : Nat := 64
def GST_VIDEO_FORMAT_FLAG_UNPACK : Nat := 128

def SCORE_PALETTE_LOSS : Int := 1
def SCORE_COLOR_LOSS : Int := 2
def SCORE_ALPHA_LOSS : Int := 4
def SCORE_CHROMA_W_LOSS : Int := 8
def SCORE_CHROMA_H_LOSS : Int := 16
def SCORE_DEPTH_LOSS : Int := 32

def COLOR_MASK : Nat :=
  GST_VIDEO_FORMAT_FLAG_YUV ||| GST_VIDEO_FORMAT_FLAG_RGB ||| GST_VIDEO_FORMAT_FLAG_GRAY
def ALPHA_MASK : Nat := GST_VIDEO_FORMAT_FLAG_ALPHA
def PALETTE_MASK : Nat := GST_VIDEO_FORMAT_FLAG_PALETTE

/-- The statement `flags &= ~bit` on a 32 bit flags word. -/
def clear_flag (flags bit : Nat) : Nat := flags &&& (4294967295 ^^^ bit)

/-- Element 1 of a `w_sub` / `h_sub` array. -/
def sub1 (a : List Nat) : Nat := a.getD 1 0

/-- The local `loss` of `score_value` (lines 914-941) for a candidate that is not the input
format. -/
def score_loss (in_info t_info : GstVideoFormatInfo) : Int :=
  let loss : Int := 1
  let in_flags := clear_flag (clear_flag (clear_flag in_info.flags GST_VIDEO_FORMAT_FLAG_LE)
    GST_VIDEO_FORMAT_FLAG_COMPLEX) GST_VIDEO_FORMAT_FLAG_UNPACK
  let t_flags := clear_flag (clear_flag (clear_flag t_info.flags GST_VIDEO_FORMAT_FLAG_LE)
    GST_VIDEO_FORMAT_FLAG_COMPLEX) GST_VIDEO_FORMAT_FLAG_UNPACK
  let loss := if (t_flags &&& PALETTE_MASK) ≠ (in_flags &&& PALETTE_MASK)
    then loss + SCORE_PALETTE_LOSS else loss
  let loss := if (t_flags &&& COLOR_MASK) ≠ (in_flags &&& COLOR_MASK)
    then loss + SCORE_COLOR_LOSS else loss
  let loss := if (t_flags &&& ALPHA_MASK) ≠ (in_flags &&& ALPHA_MASK)
    then loss + SCORE_ALPHA_LOSS else loss
  let loss := if sub1 in_info.h_sub < sub1 t_info.h_sub then loss + SCORE_CHROMA_H_LOSS else loss
  let loss := if sub1 in_info.w_sub < sub1 t_info.w_sub then loss + SCORE_CHROMA_W_LOSS else loss
  let loss := if in_info.bits > t_info.bits then loss + SCORE_DEPTH_LOSS else loss
  loss

/-- The pair of in/out parameters `(*min_loss, *out_info)` of `score_value`. -/
abbrev ScoreState := Int × Option GstVideoFormatInfo

/-- The function `score_value` (lines 894-953).  `fname` is `g_value_get_string(val)`; both call
sites pass a value that holds a string.  `get_info` is the library lookup
`gst_video_format_get_info(gst_video_format_from_string(fname))`, `none` being `NULL`. -/
def score_value (get_info : String → Option GstVideoFormatInfo) (in_info : GstVideoFormatInfo)
    (fname : String) (st : ScoreState) : ScoreState :=
  match get_info fname with
  | none => st
  | some t_info =>
    if in_info = t_info then (0, some t_info)
    else
      let loss := score_loss in_info t_info
      if loss < st.1 then (loss, some t_info) else st

/-- The inner loop of `fixate_format_caps` over a format list (lines 996-1007), with its `break`
once `min_loss` is 0. -/
def score_list (get_info : String → Option GstVideoFormatInfo) (in_info : GstVideoFormatInfo) :
    List GValue → ScoreState → ScoreState
  | [], st => st
  | .string fname :: rest, st =>
    let st1 := score_value get_info in_info fname st
    if st1.1 = 0 then st1 else score_list get_info in_info rest st1
  | _ :: rest, st => score_list get_info in_info rest st

/-- One iteration of the loop over the structures of `othercaps` (lines 981-1009). -/
def score_structure (get_info : String → Option GstVideoFormatInfo)
    (in_info : GstVideoFormatInfo) (tests : GstStructure) (st : ScoreState) : ScoreState :=
  match gst_structure_get_value tests "format" with
  | some (.list vs) => score_list get_info in_info vs st
  | some (.string fname) => score_value get_info in_info fname st
  | _ => st

/-- The loop over the structures of `othercaps` (lines 979-1010). -/
def score_caps (get_info : String → Option GstVideoFormatInfo) (in_info : GstVideoFormatInfo) :
    GstCaps → ScoreState → ScoreState
  | [], st => st
  | tests :: rest, st =>
    score_caps get_info in_info rest (score_structure get_info in_info tests st)

/-- The input format descriptor looked up at lines 964-973; `none` on either early return. -/
def input_format_info (get_info : String → Option GstVideoFormatInfo) (caps : GstCaps) :
    Option GstVideoFormatInfo :=
  match caps.head? with
  | none => none
  | some ins =>
    match gst_structure_get_string ins "format" with
    | none => none
    | some in_format => get_info in_format

/-- The function `gst_imx_ipu_video_transform_fixate_format_caps` (lines 956-1013); the result is
`othercaps` after the call. -/
def gst_imx_ipu_video_transform_fixate_format_caps
    (get_info : String → Option GstVideoFormatInfo) (caps othercaps : GstCaps) : GstCaps :=
  match input_format_info get_info caps with
  | none => othercaps
  | some in_info =>
    match (score_caps get_info in_info othercaps (G_MAXINT, none)).2, othercaps with
    | some out_info, outs :: rest => gst_structure_set_string outs "format" out_info.name :: rest
    | _, _ => othercaps

/-- The valid candidate descriptors of a format list, in the order in which the inner loop of
`fixate_format_caps` visits them (entries that hold no string, or name no format, are skipped by
the code). -/
def list_candidates (get_info : String → Option GstVideoFormatInfo) :
    List GValue → List GstVideoFormatInfo
  | [] => []
  | .string fname :: rest => (get_info fname).toList ++ list_candidates get_info rest
  | _ :: rest => list_candidates get_info rest

/-- The valid candidate descriptors of one structure, in scan order. -/
def structure_candidates (get_info : String → Option GstVideoFormatInfo) (tests : GstStructure) :
    List GstVideoFormatInfo :=
  match gst_structure_get_value tests "format" with
  | some (.list vs) => list_candidates get_info vs
  | some (.string fname) => (get_info fname).toList
  | _ => []

/-- The valid candidate descriptors of all structures of `othercaps`, in scan order. -/
def caps_candidates (get_info : String → Option GstVideoFormatInfo) :
    GstCaps → List GstVideoFormatInfo
  | [] => []
  | tests :: rest => structure_candidates get_info tests ++ caps_candidates get_info rest

/-- The loss that `score_value` assigns to a candidate: 0 for the input format itself (lines
907-912), the computed `loss` otherwise. -/
def candidate_loss (in_info t_info : GstVideoFormatInfo) : Int :=
  if in_info = t_info then 0 else score_loss in_info t_info

/-- A candidate structure offers the format named `fname`: its `format` field is that string, or
a list that contains it. -/
def structure_offers (tests : GstStructure) (fname : String) : Prop :=
  gst_structure_get_value tests "format" = some (.string fname) ∨
    ∃ vs, gst_structure_get_value tests "format" = some (.list vs) ∧ GValue.string fname ∈ vs

/-- Indicator of a condition, as an integer. -/
def ind (p : Prop) [Decidable p] : Int := if p then 1 else 0

/-! ### Example descriptors -/

/-- Descriptor of planar 4:4:4 YUV, 8 bit, no alpha. -/
def fmt_Y444 : GstVideoFormatInfo :=
  { format := 20, name := "Y444", flags := 1, bits := 8, w_sub := [0, 0, 0, 0],
    h_sub := [0, 0, 0, 0] }

/-- Descriptor of packed RGB with alpha, 8 bit. -/
def fmt_RGBA : GstVideoFormatInfo :=
  { format := 11, name := "RGBA", flags := 10, bits := 8, w_sub := [0, 0, 0, 0],
    h_sub := [0, 0, 0, 0] }

/-- Descriptor of planar 4:2:0 YUV, 8 bit, no alpha. -/
def fmt_I420 : GstVideoFormatInfo :=
  { format := 2, name := "I420", flags := 1, bits := 8, w_sub := [0, 1, 1, 0],
    h_sub := [0, 1, 1, 0] }

/-- A three entry format table, looked up by name. -/
def example_get_info (fname : String) : Option GstVideoFormatInfo :=
  if fname = "Y444" then some fmt_Y444
  else if fname = "RGBA" then some fmt_RGBA
  else if fname = "I420" then some fmt_I420
  else none

/-! ## videotransform.c: size fixation (lines 454-877) -/

/-- The values of the locals that `fixate_size_caps` declares without an initialiser and hands
to a `gst_structure_get_*` call as output location.  When such a call fails the local keeps its
indeterminate value; the embedding takes those values as an input. -/
structure Uninit where
  from_w : Int
  from_h : Int
  set_w : Int
  set_h : Int
  set_par_n : Int
  set_par_d : Int
  tmp2 : Int

/-- Outcome of the body of `fixate_size_caps` on the first output structure: the structure after
the body, whether `GST_ELEMENT_ERROR` (negotiation error) was raised, and whether control reached
the label `done` (it does not when `g_return_val_if_fail` returns early at line 524). -/
structure SizeOutcome where
  outs : GstStructure
  error : Bool
  done : Bool

/-- The statement `if (has_field(outs, "pixel-aspect-ratio") || set_par_n != set_par_d)
gst_structure_set(outs, "pixel-aspect-ratio", GST_TYPE_FRACTION, set_par_n, set_par_d, NULL)`
(lines 640, 717, 816, 838, 853, 861). -/
def set_par_if_needed (outs : GstStructure) (set_par_n set_par_d : Int) : GstStructure :=
  if gst_structure_has_field outs "pixel-aspect-ratio" ∨ set_par_n ≠ set_par_d then
    gst_structure_set_fraction outs "pixel-aspect-ratio" set_par_n set_par_d
  else outs

/-- The temporary structure `tmp` after lines 615-617 (692-693, 806-808): the PAR field is added
when missing and then fixated nearest to `to_par_n/to_par_d`. -/
def tmp_with_par (pick : List GValue → Int → Int → Option GValue) (tmp : GstStructure)
    (to_par : GValue) (to_par_n to_par_d : Int) : GstStructure :=
  let tmp1 := if !gst_structure_has_field tmp "pixel-aspect-ratio"
    then gst_structure_set_value tmp "pixel-aspect-ratio" to_par else tmp
  gst_structure_fixate_field_nearest_fraction pick tmp1 "pixel-aspect-ratio" to_par_n to_par_d

/-- Lines 569-644: the output height `h` is fixed.  Returns the output structure and whether a
negotiation error was raised. -/
def fixate_height_fixed (pick : List GValue → Int → Int → Option GValue) (u : Uninit)
    (from_w from_dar_n from_dar_d h : Int) (to_par : GValue) (outs : GstStructure) :
    GstStructure × Bool :=
  if gst_value_is_fixed to_par then
    let to_par_n := gst_value_get_fraction_numerator to_par
    let to_par_d := gst_value_get_fraction_denominator to_par
    match gst_util_fraction_multiply from_dar_n from_dar_d to_par_d to_par_n with
    | none => (outs, true)
    | some (num, den) =>
      let w := scale_gint h num den
      (gst_structure_fixate_field_nearest_int outs "width" w, false)
  else
    let tmp := gst_structure_fixate_field_nearest_int outs "width" from_w
    let set_w := (gst_structure_get_int tmp "width").getD u.set_w
    match gst_util_fraction_multiply from_dar_n from_dar_d h set_w with
    | none => (outs, true)
    | some (to_par_n, to_par_d) =>
      let tmp1 := tmp_with_par pick tmp to_par to_par_n to_par_d
      let set_par := (gst_structure_get_fraction tmp1 "pixel-aspect-ratio").getD
        (u.set_par_n, u.set_par_d)
      if set_par.1 = to_par_n ∧ set_par.2 = to_par_d then
        if gst_structure_has_field outs "pixel-aspect-ratio" ∨ set_par.1 ≠ set_par.2 then
          (gst_structure_set_fraction (gst_structure_set_int outs "width" set_w)
            "pixel-aspect-ratio" set_par.1 set_par.2, false)
        else (outs, false)
      else
        match gst_util_fraction_multiply from_dar_n from_dar_d set_par.2 set_par.1 with
        | none => (outs, true)
        | some (num, den) =>
          let w := scale_gint h num den
          let outs1 := gst_structure_fixate_field_nearest_int outs "width" w
          (set_par_if_needed outs1 set_par.1 set_par.2, false)

/-- Lines 645-721: the output width `w` is fixed (and the height is not). -/
def fixate_width_fixed (pick : List GValue → Int → Int → Option GValue) (u : Uninit)
    (from_h from_dar_n from_dar_d w : Int) (to_par : GValue) (outs : GstStructure) :
    GstStructure × Bool :=
  if gst_value_is_fixed to_par then
    let to_par_n := gst_value_get_fraction_numerator to_par
    let to_par_d := gst_value_get_fraction_denominator to_par
    match gst_util_fraction_multiply from_dar_n from_dar_d to_par_d to_par_n with
    | none => (outs, true)
    | some (num, den) =>
      let h := scale_gint w den num
      (gst_structure_fixate_field_nearest_int outs "height" h, false)
  else
    let tmp := gst_structure_fixate_field_nearest_int outs "height" from_h
    let set_h := (gst_structure_get_int tmp "height").getD u.set_h
    match gst_util_fraction_multiply from_dar_n from_dar_d set_h w with
    | none => (outs, true)
    | some (to_par_n, to_par_d) =>
      let tmp1 := tmp_with_par pick tmp to_par to_par_n to_par_d
      let set_par := (gst_structure_get_fraction tmp1 "pixel-aspect-ratio").getD
        (u.set_par_n, u.set_par_d)
      if set_par.1 = to_par_n ∧ set_par.2 = to_par_d then
        if gst_structure_has_field outs "pixel-aspect-ratio" ∨ set_par.1 ≠ set_par.2 then
          (gst_structure_set_fraction (gst_structure_set_int outs "height" set_h)
            "pixel-aspect-ratio" set_par.1 set_par.2, false)
        else (outs, false)
      else
        match gst_util_fraction_multiply from_dar_n from_dar_d set_par.2 set_par.1 with
        | none => (outs, true)
        | some (num, den) =>
          let h := scale_gint w den num
          let outs1 := gst_structure_fixate_field_nearest_int outs "height" h
          (set_par_if_needed outs1 set_par.1 set_par.2, false)

/-- The call `gst_structure_set(outs, "width", G_TYPE_INT, w, "height", G_TYPE_INT, h, NULL)`. -/
def set_width_height (outs : GstStructure) (w h : Int) : GstStructure :=
  gst_structure_set_int (gst_structure_set_int outs "width" w) "height" h

/-- Lines 722-784: the output PAR is fixed, width and height are not. -/
def fixate_par_fixed (u : Uninit) (from_w from_h from_dar_n from_dar_d : Int) (to_par : GValue)
    (outs : GstStructure) : GstStructure × Bool :=
  let to_par_n := gst_value_get_fraction_numerator to_par
  let to_par_d := gst_value_get_fraction_denominator to_par
  match gst_util_fraction_multiply from_dar_n from_dar_d to_par_n to_par_d with
  | none => (outs, true)
  | some (num, den) =>
    let tmp := gst_structure_fixate_field_nearest_int outs "height" from_h
    let set_h := (gst_structure_get_int tmp "height").getD u.set_h
    let w := scale_gint set_h num den
    let tmp1 := gst_structure_fixate_field_nearest_int tmp "width" w
    let set_w := (gst_structure_get_int tmp1 "width").getD u.set_w
    if set_w = w then (set_width_height outs set_w set_h, false)
    else
      let f_h := set_h
      let f_w := set_w
      let tmp2 := gst_structure_fixate_field_nearest_int outs "width" from_w
      let set_w2 := (gst_structure_get_int tmp2 "width").getD set_w
      let h := scale_gint set_w2 den num
      let tmp3 := gst_structure_fixate_field_nearest_int tmp2 "height" h
      let set_h2 := (gst_structure_get_int tmp3 "height").getD set_h
      if set_h2 = h then (set_width_height outs set_w2 set_h2, false)
      else (set_width_height outs f_w f_h, false)

/-- Lines 785-863: neither width, height nor PAR of the output is fixed. -/
def fixate_nothing_fixed (pick : List GValue → Int → Int → Option GValue) (u : Uninit)
    (from_w from_h from_dar_n from_dar_d : Int) (to_par : GValue) (outs : GstStructure) :
    GstStructure × Bool :=
  let tmp := gst_structure_fixate_field_nearest_int outs "height" from_h
  let set_h := (gst_structure_get_int tmp "height").getD u.set_h
  let tmp1 := gst_structure_fixate_field_nearest_int tmp "width" from_w
  let set_w := (gst_structure_get_int tmp1 "width").getD u.set_w
  match gst_util_fraction_multiply from_dar_n from_dar_d set_h set_w with
  | none => (outs, true)
  | some (to_par_n, to_par_d) =>
    let tmp2 := tmp_with_par pick tmp1 to_par to_par_n to_par_d
    let set_par := (gst_structure_get_fraction tmp2 "pixel-aspect-ratio").getD
      (u.set_par_n, u.set_par_d)
    if set_par.1 = to_par_n ∧ set_par.2 = to_par_d then
      (set_par_if_needed (set_width_height outs set_w set_h) set_par.1 set_par.2, false)
    else
      match gst_util_fraction_multiply from_dar_n from_dar_d set_par.2 set_par.1 with
      | none => (outs, true)
      | some (num, den) =>
        let w := scale_gint set_h num den
        let tmp3 := gst_structure_fixate_field_nearest_int outs "width" w
        let t2 := (gst_structure_get_int tmp3 "width").getD u.tmp2
        if t2 = w then
          (set_par_if_needed (set_width_height outs t2 set_h) set_par.1 set_par.2, false)
        else
          let h := scale_gint set_w den num
          let tmp4 := gst_structure_fixate_field_nearest_int outs "height" h
          let t3 := (gst_structure_get_int tmp4 "height").getD t2
          if t3 = h then
            (set_par_if_needed (set_width_height outs set_w t3) set_par.1 set_par.2, false)
          else
            (set_par_if_needed (set_width_height outs set_w set_h) set_par.1 set_par.2, false)

/-- The value `to_par` after lines 477-514: the PAR field of the output, or the default that the
direction prescribes when the field is missing. -/
def to_par_value (direction : GstPadDirection) (outs : GstStructure) : GValue :=
  if direction = .GST_PAD_SINK then
    (gst_structure_get_value outs "pixel-aspect-ratio").getD
      (.fractionRange 1 G_MAXINT G_MAXINT 1)
  else (gst_structure_get_value outs "pixel-aspect-ratio").getD (.fraction 1 1)

/-- The output structure after lines 484-514: when the direction is not `GST_PAD_SINK` and the
output has no PAR field, line 506 sets it to 1/1. -/
def outs_with_default_par (direction : GstPadDirection) (outs : GstStructure) : GstStructure :=
  if direction ≠ .GST_PAD_SINK ∧ (gst_structure_get_value outs "pixel-aspect-ratio").isNone
  then gst_structure_set_fraction outs "pixel-aspect-ratio" 1 1 else outs

/-- Lines 535-863: the case distinction on the output width `w` and height `h` (0 when not
fixed), and the four fixation branches. -/
def fixate_size_dims (pick : List GValue → Int → Int → Option GValue) (u : Uninit)
    (from_w from_h from_par_n from_par_d w h : Int) (to_par : GValue) (outs : GstStructure) :
    SizeOutcome :=
  if w ≠ 0 ∧ h ≠ 0 then
    if !gst_value_is_fixed to_par then
      match gst_video_calculate_display_ratio from_w from_h from_par_n from_par_d w h with
      | some (n, d) =>
        if gst_structure_has_field outs "pixel-aspect-ratio" then
          ⟨gst_structure_fixate_field_nearest_fraction pick outs "pixel-aspect-ratio" n d,
            false, true⟩
        else if n ≠ d then
          ⟨gst_structure_set_fraction outs "pixel-aspect-ratio" n d, false, true⟩
        else ⟨outs, false, true⟩
      | none => ⟨outs, false, true⟩
    else ⟨outs, false, true⟩
  else
    match gst_util_fraction_multiply from_w from_h from_par_n from_par_d with
    | none => ⟨outs, true, true⟩
    | some (from_dar_n, from_dar_d) =>
      if h ≠ 0 then
        ⟨(fixate_height_fixed pick u from_w from_dar_n from_dar_d h to_par outs).1,
          (fixate_height_fixed pick u from_w from_dar_n from_dar_d h to_par outs).2, true⟩
      else if w ≠ 0 then
        ⟨(fixate_width_fixed pick u from_h from_dar_n from_dar_d w to_par outs).1,
          (fixate_width_fixed pick u from_h from_dar_n from_dar_d w to_par outs).2, true⟩
      else if gst_value_is_fixed to_par then
        ⟨(fixate_par_fixed u from_w from_h from_dar_n from_dar_d to_par outs).1,
          (fixate_par_fixed u from_w from_h from_dar_n from_dar_d to_par outs).2, true⟩
      else
        ⟨(fixate_nothing_fixed pick u from_w from_h from_dar_n from_dar_d to_par outs).1,
          (fixate_nothing_fixed pick u from_w from_h from_dar_n from_dar_d to_par outs).2, true⟩

/-- Lines 474-864 of `gst_imx_ipu_video_transform_fixate_size_caps`, on the first structure `ins`
of `caps` and the first structure `outs` of `othercaps`. -/
def fixate_size_structure (pick : List GValue → Int → Int → Option GValue) (u : Uninit)
    (direction : GstPadDirection) (ins outs : GstStructure) : SizeOutcome :=
  if !gst_value_is_fixed ((gst_structure_get_value ins "pixel-aspect-ratio").getD (.fraction 1 1))
  then ⟨outs_with_default_par direction outs, false, false⟩
  else
    fixate_size_dims pick u
      ((gst_structure_get_int ins "width").getD u.from_w)
      ((gst_structure_get_int ins "height").getD u.from_h)
      (gst_value_get_fraction_numerator
        ((gst_structure_get_value ins "pixel-aspect-ratio").getD (.fraction 1 1)))
      (gst_value_get_fraction_denominator
        ((gst_structure_get_value ins "pixel-aspect-ratio").getD (.fraction 1 1)))
      ((gst_structure_get_int (outs_with_default_par direction outs) "width").getD 0)
      ((gst_structure_get_int (outs_with_default_par direction outs) "height").getD 0)
      (to_par_value direction outs)
      (outs_with_default_par direction outs)

/-- Result of a fixation function: the caps it returns and whether a negotiation error was
posted. -/
structure FixateResult where
  caps : GstCaps
  error : Bool

/-- The function `gst_imx_ipu_video_transform_fixate_size_caps` (lines 468-877).  `othercaps` is
not empty when the base class calls the fixation (it gives up on empty caps before); on empty
`othercaps` the embedding returns it as it is.  A missing first structure of `caps` reads as a
structure without fields, as the library's `NULL` checks make it. -/
def gst_imx_ipu_video_transform_fixate_size_caps (get_info : String → Option GstVideoFormatInfo)
    (pick : List GValue → Int → Int → Option GValue) (u : Uninit) (direction : GstPadDirection)
    (caps othercaps : GstCaps) : FixateResult :=
  match othercaps with
  | [] => ⟨[], false⟩
  | outs :: rest =>
    let r := fixate_size_structure pick u direction (caps.headD ⟨[]⟩) outs
    if r.done then
      ⟨gst_imx_ipu_video_transform_fixate_format_caps get_info caps (r.outs :: rest), r.error⟩
    else ⟨r.outs :: rest, r.error⟩

/-- The function `gst_imx_ipu_video_transform_fixate_caps` (lines 454-465). -/
def gst_imx_ipu_video_transform_fixate_caps (get_info : String → Option GstVideoFormatInfo)
    (pick : List GValue → Int → Int → Option GValue) (u : Uninit) (direction : GstPadDirection)
    (caps othercaps : GstCaps) : FixateResult :=
  let othercaps1 := gst_caps_truncate othercaps
  let r := gst_imx_ipu_video_transform_fixate_size_caps get_info pick u direction caps othercaps1
  ⟨gst_imx_ipu_video_transform_fixate_format_caps get_info caps r.caps, r.error⟩

/-! ## phys_mem_allocator.c -/

/-- `GST_MINI_OBJECT_FLAG_LOCKABLE`, or-ed into the flags by the library's `gst_memory_init`. -/
def GST_MINI_OBJECT_FLAG_LOCKABLE : Nat := 1
def GST_MINI_OBJECT_FLAG_LOCK_READONLY : Nat := 2
def GST_MEMORY_FLAG_ZERO_PREFIXED : Nat := 32
def GST_MAP_READ : Nat := 1
def GST_MAP_WRITE : Nat := 2

/-- Conversion of an integer expression to `gsize`.  The allocator targets the 32 bit i.MX SoCs
(the file prints `gsize` values with `%u`), so `gsize` is a 32 bit unsigned integer. -/
def to_gsize (x : Int) : Nat := (x % 4294967296).toNat

/-- The cast `(gssize)` of a `gsize`. -/
def to_gssize (x : Nat) : Int :=
  if x % 4294967296 < 2147483648 then ((x % 4294967296 : Nat) : Int)
  else ((x % 4294967296 : Nat) : Int) - 4294967296

/-- A block header: the fields of `GstMemory` that `gst_memory_init` writes, followed by the
fields of `GstImxPhysMemory`.  Pointers to blocks are indices into the header heap; `none` is
`NULL`.  The reference count and lock state of the mini object are not represented. -/
structure GstImxPhysMemory where
  flags : Nat
  parent : Option Nat
  maxsize : Nat
  align : Nat
  offset : Nat
  size : Nat
  mapped_virt_addr : Option Nat
  phys_addr : Nat
  cpu_addr : Nat
  deriving DecidableEq, Repr

/-- What the backend hands out on a successful allocation: the CPU address it records and the
bytes found in the fresh region. -/
structure AllocGrant where
  cpu_addr : Nat
  contents : List Nat
  deriving DecidableEq, Repr

/-- The calls that the base layer makes into the backend and into `memset` / `memcpy`, in the
order in which they are made. -/
inductive Event where
  | alloc_phys_mem (block : Nat) (maxsize : Nat)
  | free_phys_mem (block : Nat)
  | map_phys_mem (block : Option Nat) (maxsize : Nat) (flags : Nat)
  | unmap_phys_mem (block : Option Nat)
  | memset (ptr : Option Nat) (n : Nat)
  | memcpy (dest src : Option Nat) (n : Nat)
  deriving DecidableEq, Repr

/-- State of the allocator and its backend.  `blocks` is the heap of block headers (`none` is a
released header).  `regions` are the physical regions handed out so far; the region with index
`i` has physical address `i + 1`.  `alloc_oracle` lists the outcomes of the coming
`alloc_phys_mem` calls (`none`, or an exhausted list, is a failure).  `calls` is the log of
backend and memory calls.  `faulted` records that `NULL` or a dangling pointer was used. -/
structure PhysMemState where
  blocks : List (Option GstImxPhysMemory)
  regions : List (List Nat)
  alloc_oracle : List (Option AllocGrant)
  calls : List Event
  faulted : Bool

/-- The live header that a block pointer refers to. -/
def block_at (w : PhysMemState) (p : Nat) : Option GstImxPhysMemory :=
  (w.blocks[p]?).join

/-- A write through a block pointer: the live header at `p` is replaced by `f` of it. -/
def update_block (w : PhysMemState) (p : Nat) (f : GstImxPhysMemory → GstImxPhysMemory) :
    PhysMemState :=
  match block_at w p with
  | some b => { w with blocks := w.blocks.set p (some (f b)) }
  | none => w

/-- The region at a physical address. -/
def region_at (w : PhysMemState) (phys_addr : Nat) : Option (List Nat) :=
  if phys_addr = 0 then none else w.regions[phys_addr - 1]?

/-- The virtual address that mapping a physical address yields: the region itself, `none`
(`NULL`) when there is no such region. -/
def virt_of_phys (w : PhysMemState) (phys_addr : Nat) : Option Nat :=
  if phys_addr = 0 ∨ w.regions.length < phys_addr then none else some (phys_addr - 1)

/-- Appends an event to the call log. -/
def log_call (w : PhysMemState) (e : Event) : PhysMemState :=
  { w with calls := w.calls ++ [e] }

/-- Records a fault. -/
def fault (w : PhysMemState) : PhysMemState := { w with faulted := true }

/-- The function `gst_imx_phys_mem_new_internal` (lines 79-90): a fresh header with zeroed
addresses, initialised by `gst_memory_init`.  Returns the new state and the pointer. -/
def gst_imx_phys_mem_new_internal (w : PhysMemState) (parent : Option Nat)
    (maxsize flags align offset size : Nat) : PhysMemState × Nat :=
  ({ w with blocks := w.blocks ++ [some
      { flags := flags ||| GST_MINI_OBJECT_FLAG_LOCKABLE, parent := parent, maxsize := maxsize,
        align := align, offset := offset, size := size, mapped_virt_addr := none,
        phys_addr := 0, cpu_addr := 0 }] },
    w.blocks.length)

/-- Modelled from the spec: the backend primitive `alloc_phys_mem` ("allocate raw physical
memory"; "physicalAddress is assigned exactly once, at allocation"; it fails when "the backend
cannot satisfy the request").  On success a fresh region of `maxsize` bytes is handed out and its
physical and CPU address are stored in the block. -/
def alloc_phys_mem (w : PhysMemState) (phys_mem : Nat) (maxsize : Nat) : PhysMemState × Bool :=
  let w1 := log_call { w with alloc_oracle := w.alloc_oracle.tail }
    (Event.alloc_phys_mem phys_mem maxsize)
  match w.alloc_oracle.head? with
  | some (some g) =>
    let w2 := update_block w1 phys_mem
      (fun b => { b with phys_addr := w.regions.length + 1, cpu_addr := g.cpu_addr })
    ({ w2 with regions := w.regions ++ [(g.contents ++ List.replicate maxsize 0).take maxsize] },
      true)
  | _ => (w1, false)

/-- Modelled from the spec: the backend primitive `map_phys_mem` ("map it to a CPU-visible
address").  The virtual address is recorded in the block and returned; a `NULL` or dangling block
pointer is a fault. -/
def map_phys_mem (w : PhysMemState) (phys_mem : Option Nat) (maxsize flags : Nat) :
    PhysMemState × Option Nat :=
  let w1 := log_call w (Event.map_phys_mem phys_mem maxsize flags)
  match phys_mem with
  | none => (fault w1, none)
  | some p =>
    match block_at w p with
    | none => (fault w1, none)
    | some b =>
      (update_block w1 p (fun b => { b with mapped_virt_addr := virt_of_phys w b.phys_addr }),
        virt_of_phys w b.phys_addr)

/-- Modelled from the spec: the backend primitive `unmap_phys_mem` ("invalidates the virtual
address obtained from the most recent map"); a `NULL` or dangling block pointer is a fault. -/
def unmap_phys_mem (w : PhysMemState) (phys_mem : Option Nat) : PhysMemState :=
  let w1 := log_call w (Event.unmap_phys_mem phys_mem)
  match phys_mem with
  | none => fault w1
  | some p =>
    match block_at w p with
    | none => fault w1
    | some _ => update_block w1 p (fun b => { b with mapped_virt_addr := none })

/-- C library `memset(ptr, 0, n)` on a mapped region; `NULL` or a region shorter than `n` is a
fault. -/
def memset_zero (w : PhysMemState) (ptr : Option Nat) (n : Nat) : PhysMemState :=
  let w1 := log_call w (Event.memset ptr n)
  match ptr with
  | none => fault w1
  | some d =>
    match w.regions[d]? with
    | none => fault w1
    | some rd =>
      if n ≤ rd.length then
        { w1 with regions := w.regions.set d (List.replicate n 0 ++ rd.drop n) }
      else fault w1

/-- C library `memcpy(dest, src, n)` between mapped regions; `NULL` or a region shorter than `n`
is a fault. -/
def memcpy_regions (w : PhysMemState) (dest src : Option Nat) (n : Nat) : PhysMemState :=
  let w1 := log_call w (Event.memcpy dest src n)
  match dest, src with
  | some d, some s =>
    match w.regions[d]?, w.regions[s]? with
    | some rd, some rs =>
      if n ≤ rd.length ∧ n ≤ rs.length then
        { w1 with regions := w.regions.set d (rs.take n ++ rd.drop n) }
      else fault w1
    | _, _ => fault w1
  | _, _ => fault w1

/-- The function `gst_imx_phys_mem_allocator_alloc_internal` (lines 93-126).  Returns the new
state and the block pointer (`none` is `NULL`).  On failure of the backend the header is released
with `g_slice_free1`. -/
def gst_imx_phys_mem_allocator_alloc_internal (w : PhysMemState) (parent : Option Nat)
    (maxsize flags align offset size : Nat) : PhysMemState × Option Nat :=
  let r1 := gst_imx_phys_mem_new_internal w parent maxsize flags align offset size
  let r2 := alloc_phys_mem r1.1 r1.2 maxsize
  if !r2.2 then ({ r2.1 with blocks := r2.1.blocks.set r1.2 none }, none)
  else if offset > 0 ∧ flags &&& GST_MEMORY_FLAG_ZERO_PREFIXED ≠ 0 then
    let r3 := map_phys_mem r2.1 (some r1.2) maxsize GST_MAP_WRITE
    let w4 := memset_zero r3.1 r3.2 offset
    (unmap_phys_mem w4 (some r1.2), some r1.2)
  else (r2.1, some r1.2)

/-- The size that `copy` and `share` pass on (lines 186-187, 229-230): the given size, or for -1
the rest of the block behind `offset`, computed in `gsize` and `gssize` arithmetic. -/
def resolve_size (mem_size : Nat) (offset size : Int) : Nat :=
  if size = -1 then
    (if to_gssize mem_size > offset then to_gsize ((mem_size : Int) - offset) else 0)
  else to_gsize size

/-- The function `gst_imx_phys_mem_allocator_copy` (lines 182-218).  A pointer `mem` that refers
to no live block is a fault. -/
def gst_imx_phys_mem_allocator_copy (w : PhysMemState) (mem : Nat) (offset size : Int) :
    PhysMemState × Option Nat :=
  match block_at w mem with
  | none => (fault w, none)
  | some m =>
    let size1 := resolve_size m.size offset size
    let r1 := gst_imx_phys_mem_allocator_alloc_internal w none m.maxsize 0 m.align
      (to_gsize ((m.offset : Int) + offset)) size1
    let r2 := map_phys_mem r1.1 (some mem) m.maxsize GST_MAP_READ
    let r3 := map_phys_mem r2.1 r1.2 m.maxsize GST_MAP_WRITE
    let w4 := memcpy_regions r3.1 r3.2 r2.2 m.maxsize
    let w5 := unmap_phys_mem w4 r1.2
    let w6 := unmap_phys_mem w5 (some mem)
    (w6, r1.2)

/-- The function `gst_imx_phys_mem_allocator_share` (lines 221-260).  A pointer `mem`, or a parent
pointer, that refers to no live block is a fault. -/
def gst_imx_phys_mem_allocator_share (w : PhysMemState) (mem : Nat) (offset size : Int) :
    PhysMemState × Option Nat :=
  match block_at w mem with
  | none => (fault w, none)
  | some phys_mem =>
    let size1 := resolve_size phys_mem.size offset size
    let parent := phys_mem.parent.getD mem
    match block_at w parent with
    | none => (fault w, none)
    | some parent_block =>
      let r1 := gst_imx_phys_mem_new_internal w (some parent) phys_mem.maxsize
        (parent_block.flags ||| GST_MINI_OBJECT_FLAG_LOCK_READONLY) phys_mem.align
        (to_gsize ((phys_mem.offset : Int) + offset)) size1
      (update_block r1.1 r1.2
          (fun sub => { sub with phys_addr := phys_mem.phys_addr,
                                 cpu_addr := phys_mem.cpu_addr }),
        some r1.2)

/-- A sequence of `share` calls, each on any block pointer (also one returned by an earlier
call), with the returned pointers dropped. -/
def share_chain (w : PhysMemState) : List (Nat × Int × Int) → PhysMemState
  | [] => w
  | (mem, offset, size) :: rest =>
    share_chain (gst_imx_phys_mem_allocator_share w mem offset size).1 rest

/-- The top-level ancestor of a block: the end of its chain of parent pointers (followed for at
most `fuel` steps). -/
def top_ancestor (w : PhysMemState) : Nat → Nat → Nat
  | 0, p => p
  | fuel + 1, p =>
    match block_at w p with
    | some b =>
      match b.parent with
      | some q => top_ancestor w fuel q
      | none => p
    | none => p

/-- Invariant of the header heap: every recorded parent is a live block without a parent that has
the same physical and CPU address as the child. -/
def ParentsFlat (w : PhysMemState) : Prop :=
  ∀ p b, block_at w p = some b → ∀ q, b.parent = some q →
    ∃ pb, block_at w q = some pb ∧ pb.parent = none ∧
      b.phys_addr = pb.phys_addr ∧ b.cpu_addr = pb.cpu_addr

/-- `GstAllocationParams`.  The field `prefix_bytes` is the field `prefix` of the library
structure. -/
structure GstAllocationParams where
  flags : Nat
  align : Nat
  prefix_bytes : Nat
  padding : Nat
  deriving DecidableEq, Repr

/-- The function `gst_imx_phys_mem_allocator_alloc` (lines 129-143): `maxsize` is the sum of size,
prefix and padding in `gsize` arithmetic; the prefix becomes the offset of the block. -/
def gst_imx_phys_mem_allocator_alloc (w : PhysMemState) (size : Nat)
    (params : GstAllocationParams) : PhysMemState × Option Nat :=
  let maxsize := to_gsize ((size : Int) + params.prefix_bytes + params.padding)
  gst_imx_phys_mem_allocator_alloc_internal w none maxsize params.flags params.align
    params.prefix_bytes size

/-! ## videotransform.c: per-frame passthrough decision (lines 1099-1217) -/

/-- Library enumeration `GstVideoInterlaceMode`. -/
inductive GstVideoInterlaceMode where
  | GST_VIDEO_INTERLACE_MODE_PROGRESSIVE
  | GST_VIDEO_INTERLACE_MODE_INTERLEAVED
  | GST_VIDEO_INTERLACE_MODE_MIXED
  | GST_VIDEO_INTERLACE_MODE_FIELDS
  | GST_VIDEO_INTERLACE_MODE_ALTERNATE
  deriving DecidableEq, Repr

/-- Library flag `GST_VIDEO_FRAME_FLAG_INTERLACED`. -/
def GST_VIDEO_FRAME_FLAG_INTERLACED : Nat := 1

/-- The fields of the library structure `GstVideoInfo` that the element reads, with the
pixel-aspect-ratio and a code for the colorimetry. -/
structure GstVideoInfo where
  finfo : GstVideoFormatInfo
  interlace_mode : GstVideoInterlaceMode
  width : Int
  height : Int
  par_n : Int
  par_d : Int
  colorimetry : Nat
  deriving DecidableEq, Repr

/-- Library structure `GstVideoMeta`: the fields read at lines 1157 and 1194-1195. -/
structure GstVideoMeta where
  flags : Nat
  width : Nat
  height : Nat
  deriving DecidableEq, Repr

/-- Library structure `GstVideoCropMeta`. -/
structure GstVideoCropMeta where
  x : Nat
  y : Nat
  width : Nat
  height : Nat
  deriving DecidableEq, Repr

/-- A `GstBuffer` as far as the decision looks at it: the result of `gst_buffer_get_video_meta`
and of `gst_buffer_get_video_crop_meta` (`none` is `NULL`). -/
structure GstBuffer where
  video_meta : Option GstVideoMeta
  video_crop_meta : Option GstVideoCropMeta
  deriving DecidableEq, Repr

/-- Modelled from the spec: the rotation modes of the blitter, declared in `blitter.h` ("output
rotation (none/90/180/270/flip variants)"). -/
inductive GstImxIpuBlitterRotationMode where
  | GST_IMX_IPU_BLITTER_ROTATION_NONE
  | GST_IMX_IPU_BLITTER_ROTATION_HFLIP
  | GST_IMX_IPU_BLITTER_ROTATION_VFLIP
  | GST_IMX_IPU_BLITTER_ROTATION_180
  | GST_IMX_IPU_BLITTER_ROTATION_90CW
  | GST_IMX_IPU_BLITTER_ROTATION_90CW_HFLIP
  | GST_IMX_IPU_BLITTER_ROTATION_90CW_VFLIP
  | GST_IMX_IPU_BLITTER_ROTATION_90CCW
  deriving DecidableEq, Repr

/-- Modelled from the spec: the deinterlace modes of the blitter, declared in `blitter.h`
("deinterlace mode (none / mode-specific)"). -/
inductive GstImxIpuBlitterDeinterlaceMode where
  | GST_IMX_IPU_BLITTER_DEINTERLACE_NONE
  | GST_IMX_IPU_BLITTER_DEINTERLACE_SLOW_MOTION
  | GST_IMX_IPU_BLITTER_DEINTERLACE_FAST_MOTION
  deriving DecidableEq, Repr

/-- Modelled from the spec: the state of the blitter (`blitter.h`, `blitter.c`) that the element
sets and reads back: rotation, crop enable, deinterlace mode, and the input video info, whose
field `input_video_info.interlace_mode` line 1149 reads. -/
structure GstImxIpuBlitter where
  output_rotation_mode : GstImxIpuBlitterRotationMode
  crop_enabled : Bool
  deinterlace_mode : GstImxIpuBlitterDeinterlaceMode
  input_video_info : GstVideoInfo
  deriving DecidableEq, Repr

/-- Modelled from the spec: `gst_imx_ipu_blitter_get_output_rotation_mode`
("getOutputRotation()"), a pure accessor. -/
def gst_imx_ipu_blitter_get_output_rotation_mode (b : GstImxIpuBlitter) :
    GstImxIpuBlitterRotationMode := b.output_rotation_mode

/-- Modelled from the spec: `gst_imx_ipu_blitter_is_crop_enabled` ("isCropEnabled() -> bool"). -/
def gst_imx_ipu_blitter_is_crop_enabled (b : GstImxIpuBlitter) : Bool := b.crop_enabled

/-- Modelled from the spec: `gst_imx_ipu_blitter_get_deinterlace_mode`
("getDeinterlaceMode()"). -/
def gst_imx_ipu_blitter_get_deinterlace_mode (b : GstImxIpuBlitter) :
    GstImxIpuBlitterDeinterlaceMode := b.deinterlace_mode

/-- Modelled from the spec: `gst_imx_ipu_blitter_are_transforms_enabled`
("areTransformsEnabled() -> bool"): some transform - rotation, crop or deinterlacing - is
switched on.  The spec applies each revocation rule of the per-frame decision whenever its
transform is enabled, so this gate holds as soon as one of the three is. -/
def gst_imx_ipu_blitter_are_transforms_enabled (b : GstImxIpuBlitter) : Bool :=
  decide (b.output_rotation_mode ≠ .GST_IMX_IPU_BLITTER_ROTATION_NONE) || b.crop_enabled ||
    decide (b.deinterlace_mode ≠ .GST_IMX_IPU_BLITTER_DEINTERLACE_NONE)

/-- Modelled from the spec: `gst_imx_ipu_blitter_set_input_info`
("setInputFormatInfo(description)"): the blitter keeps the input video info. -/
def gst_imx_ipu_blitter_set_input_info (b : GstImxIpuBlitter) (info : GstVideoInfo) :
    GstImxIpuBlitter := { b with input_video_info := info }

/-- `struct _GstImxIpuVideoTransformPrivate` (lines 66-74), without the mutex. -/
structure GstImxIpuVideoTransformPrivate where
  blitter : Option GstImxIpuBlitter
  output_rotation : GstImxIpuBlitterRotationMode
  input_crop : Bool
  deinterlace_mode : GstImxIpuBlitterDeinterlaceMode
  deriving DecidableEq, Repr

/-- The element: its private part, the field `inout_caps_equal`, and the passthrough flag that
`gst_base_transform_set_passthrough` sets in the base class. -/
structure GstImxIpuVideoTransform where
  priv : GstImxIpuVideoTransformPrivate
  inout_caps_equal : Bool
  passthrough : Bool
  deriving DecidableEq, Repr

/-- The function `gst_imx_ipu_video_transform_set_info` (lines 1099-1118).  The blitter exists
whenever caps are negotiated; without one the embedding leaves the missing blitter alone. -/
def gst_imx_ipu_video_transform_set_info (t : GstImxIpuVideoTransform)
    (in_info out_info : GstVideoInfo) : GstImxIpuVideoTransform :=
  { t with
    inout_caps_equal :=
      decide (in_info.width = out_info.width) && decide (in_info.height = out_info.height) &&
        decide (in_info.finfo.format = out_info.finfo.format),
    priv := { t.priv with
      blitter := t.priv.blitter.map (fun b => gst_imx_ipu_blitter_set_input_info b in_info) } }

/-- Lines 1147-1167: the deinterlacing exception, for a frame that carries video metadata.
Returns the new value of `passthrough`. -/
def deinterlace_exception (blitter : GstImxIpuBlitter) (video_meta : GstVideoMeta)
    (passthrough : Bool) : Bool :=
  if gst_imx_ipu_blitter_get_deinterlace_mode blitter ≠ .GST_IMX_IPU_BLITTER_DEINTERLACE_NONE then
    match blitter.input_video_info.interlace_mode with
    | .GST_VIDEO_INTERLACE_MODE_INTERLEAVED => false
    | .GST_VIDEO_INTERLACE_MODE_MIXED =>
      let flag_found : Bool :=
        decide ((video_meta.flags &&& GST_VIDEO_FRAME_FLAG_INTERLACED) = 0)
      passthrough && !flag_found
    | _ => passthrough
  else passthrough

/-- Lines 1184-1202: the crop exception.  Returns the new value of `passthrough`. -/
def crop_exception (blitter : GstImxIpuBlitter) (input : GstBuffer) (passthrough : Bool) : Bool :=
  if gst_imx_ipu_blitter_is_crop_enabled blitter then
    match input.video_crop_meta with
    | some video_crop_meta =>
      match input.video_meta with
      | some video_meta =>
        if video_crop_meta.x ≠ 0 ∨ video_crop_meta.y ≠ 0 ∨
            video_crop_meta.width ≠ video_meta.width ∨
            video_crop_meta.height ≠ video_meta.height then false
        else passthrough
      | none => passthrough
    | none => passthrough
  else passthrough

/-- Lines 1139-1203: the exceptions tested once transforms are enabled, starting from
`passthrough = TRUE`.  Returns the value of `passthrough` after them. -/
def passthrough_exceptions (blitter : GstImxIpuBlitter) (buf : GstBuffer) : Bool :=
  let p1 := match buf.video_meta with
    | some video_meta => deinterlace_exception blitter video_meta true
    | none => true
  let p2 := if gst_imx_ipu_blitter_get_output_rotation_mode blitter ≠
      .GST_IMX_IPU_BLITTER_ROTATION_NONE then false else p1
  crop_exception blitter buf p2

/-- Lines 1123-1209: the value of the local `passthrough` at line 1211, for an existing
blitter. -/
def decide_passthrough (blitter : GstImxIpuBlitter) (inout_caps_equal : Bool)
    (input : Option GstBuffer) : Bool :=
  match input with
  | some buf =>
    if inout_caps_equal then
      if gst_imx_ipu_blitter_are_transforms_enabled blitter then
        passthrough_exceptions blitter buf
      else true
    else false
  | none => false

/-- The function `gst_imx_ipu_video_transform_prepare_output_buffer` (lines 1121-1217) up to the
call of `gst_base_transform_set_passthrough`; the base class then prepares the buffer.  The
blitter is dereferenced only at lines 1137-1202; `none` stands for a dereference of a `NULL`
blitter. -/
def gst_imx_ipu_video_transform_prepare_output_buffer (t : GstImxIpuVideoTransform)
    (input : Option GstBuffer) : Option GstImxIpuVideoTransform :=
  match t.priv.blitter with
  | some blitter =>
    some { t with passthrough := decide_passthrough blitter t.inout_caps_equal input }
  | none =>
    if input.isSome ∧ t.inout_caps_equal then none else some { t with passthrough := false }

/-! ## videotransform.c: transform_frame (lines 1220-1236) -/

/-- Library enumeration `GstFlowReturn`: the two values that `transform_frame` returns. -/
inductive GstFlowReturn where
  | GST_FLOW_OK
  | GST_FLOW_ERROR
  deriving DecidableEq, Repr

/-- Library structure `GstVideoFrame`: the field `buffer`. -/
structure GstVideoFrame where
  buffer : GstBuffer
  deriving DecidableEq, Repr

/-- The calls that `transform_frame` makes into the blitter, in the order in which they are
made. -/
inductive BlitterCall where
  | set_input_buffer (buffer : GstBuffer)
  | set_output_buffer (buffer : GstBuffer)
  | blit
  deriving DecidableEq, Repr

/-- Modelled from the spec: the three operations of the blitter (`blitter.c`) that
`transform_frame` calls ("configure the opaque hardware transform with the input buffer, the
output buffer, then invoke execution; any step failing aborts the frame").  Each operation takes
the state of the hardware transform and returns the new state and its `gboolean` result; the
type of the state is arbitrary. -/
structure BlitterOps (σ : Type) where
  gst_imx_ipu_blitter_set_input_buffer : σ → GstBuffer → σ × Bool
  gst_imx_ipu_blitter_set_output_buffer : σ → GstBuffer → σ × Bool
  gst_imx_ipu_blitter_blit : σ → σ × Bool

/-- Outcome of `transform_frame`: the state of the blitter, the calls made into it, and the
return value. -/
structure FrameOutcome (σ : Type) where
  blitter : σ
  calls : List BlitterCall
  ret : GstFlowReturn

/-- One statement `ret = ret && call(...)` of `transform_frame`: the call is made only when `ret`
is still true. -/
def and_then_call {σ : Type} (st : σ × List BlitterCall × Bool) (call : σ → σ × Bool)
    (name : BlitterCall) : σ × List BlitterCall × Bool :=
  if st.2.2 then ((call st.1).1, st.2.1 ++ [name], (call st.1).2) else st

/-- The function `gst_imx_ipu_video_transform_transform_frame` (lines 1220-1236), without the
mutex. -/
def gst_imx_ipu_video_transform_transform_frame {σ : Type} (ops : BlitterOps σ) (blitter : σ)
    (in_frame out_frame : GstVideoFrame) : FrameOutcome σ :=
  let r0 : σ × List BlitterCall × Bool := (blitter, [], true)
  let r1 := and_then_call r0
    (fun b => ops.gst_imx_ipu_blitter_set_input_buffer b in_frame.buffer)
    (.set_input_buffer in_frame.buffer)
  let r2 := and_then_call r1
    (fun b => ops.gst_imx_ipu_blitter_set_output_buffer b out_frame.buffer)
    (.set_output_buffer out_frame.buffer)
  let r3 := and_then_call r2 ops.gst_imx_ipu_blitter_blit .blit
  ⟨r3.1, r3.2.1, if r3.2.2 then .GST_FLOW_OK else .GST_FLOW_ERROR⟩

/-! ## videotransform.c: transform_caps (lines 399-451) -/

/-- An aspect-ratio computation of the branch "height fixed" (lines 569-644) overflows: the
multiplication of line 586 when the output PAR is fixed; otherwise that of line 608, or, when
the PAR that can be set differs from the PAR computed, that of line 632. -/
def height_fixed_overflows (pick : List GValue → Int → Int → Option GValue) (u : Uninit)
    (from_w from_dar_n from_dar_d h : Int) (to_par : GValue) (outs : GstStructure) : Prop :=
  if gst_value_is_fixed to_par then
    gst_util_fraction_multiply from_dar_n from_dar_d
      (gst_value_get_fraction_denominator to_par) (gst_value_get_fraction_numerator to_par) = none
  else
    gst_util_fraction_multiply from_dar_n from_dar_d h
      ((gst_structure_get_int (gst_structure_fixate_field_nearest_int outs "width" from_w)
        "width").getD u.set_w) = none ∨
    ∃ to_par_n to_par_d set_par_n set_par_d,
      gst_util_fraction_multiply from_dar_n from_dar_d h
        ((gst_structure_get_int (gst_structure_fixate_field_nearest_int outs "width" from_w)
          "width").getD u.set_w) = some (to_par_n, to_par_d) ∧
      (gst_structure_get_fraction
        (tmp_with_par pick (gst_structure_fixate_field_nearest_int outs "width" from_w) to_par
          to_par_n to_par_d) "pixel-aspect-ratio").getD (u.set_par_n, u.set_par_d) =
        (set_par_n, set_par_d) ∧
      ¬ (set_par_n = to_par_n ∧ set_par_d = to_par_d) ∧
      gst_util_fraction_multiply from_dar_n from_dar_d set_par_d set_par_n = none

/-- An aspect-ratio computation of the branch "width fixed" (lines 645-721) overflows: the
multiplication of line 662 when the output PAR is fixed; otherwise that of line 684, or, when
the PAR that can be set differs from the PAR computed, that of line 709. -/
def width_fixed_overflows (pick : List GValue → Int → Int → Option GValue) (u : Uninit)
    (from_h from_dar_n from_dar_d w : Int) (to_par : GValue) (outs : GstStructure) : Prop :=
  if gst_value_is_fixed to_par then
    gst_util_fraction_multiply from_dar_n from_dar_d
      (gst_value_get_fraction_denominator to_par) (gst_value_get_fraction_numerator to_par) = none
  else
    gst_util_fraction_multiply from_dar_n from_dar_d
      ((gst_structure_get_int (gst_structure_fixate_field_nearest_int outs "height" from_h)
        "height").getD u.set_h) w = none ∨
    ∃ to_par_n to_par_d set_par_n set_par_d,
      gst_util_fraction_multiply from_dar_n from_dar_d
        ((gst_structure_get_int (gst_structure_fixate_field_nearest_int outs "height" from_h)
          "height").getD u.set_h) w = some (to_par_n, to_par_d) ∧
      (gst_structure_get_fraction
        (tmp_with_par pick (gst_structure_fixate_field_nearest_int outs "height" from_h) to_par
          to_par_n to_par_d) "pixel-aspect-ratio").getD (u.set_par_n, u.set_par_d) =
        (set_par_n, set_par_d) ∧
      ¬ (set_par_n = to_par_n ∧ set_par_d = to_par_d) ∧
      gst_util_fraction_multiply from_dar_n from_dar_d set_par_d set_par_n = none

/-- An aspect-ratio computation of the branch "nothing fixed" (lines 785-863) overflows: the
multiplication of line 800, or, when the PAR that can be set differs from the PAR computed, that
of line 823. -/
def nothing_fixed_overflows (pick : List GValue → Int → Int → Option GValue) (u : Uninit)
    (from_w from_h from_dar_n from_dar_d : Int) (to_par : GValue) (outs : GstStructure) : Prop :=
  gst_util_fraction_multiply from_dar_n from_dar_d
    ((gst_structure_get_int (gst_structure_fixate_field_nearest_int outs "height" from_h)
      "height").getD u.set_h)
    ((gst_structure_get_int (gst_structure_fixate_field_nearest_int
      (gst_structure_fixate_field_nearest_int outs "height" from_h) "width" from_w)
      "width").getD u.set_w) = none ∨
  ∃ to_par_n to_par_d set_par_n set_par_d,
    gst_util_fraction_multiply from_dar_n from_dar_d
      ((gst_structure_get_int (gst_structure_fixate_field_nearest_int outs "height" from_h)
        "height").getD u.set_h)
      ((gst_structure_get_int (gst_structure_fixate_field_nearest_int
        (gst_structure_fixate_field_nearest_int outs "height" from_h) "width" from_w)
        "width").getD u.set_w) = some (to_par_n, to_par_d) ∧
    (gst_structure_get_fraction
      (tmp_with_par pick (gst_structure_fixate_field_nearest_int
        (gst_structure_fixate_field_nearest_int outs "height" from_h) "width" from_w) to_par
        to_par_n to_par_d) "pixel-aspect-ratio").getD (u.set_par_n, u.set_par_d) =
      (set_par_n, set_par_d) ∧
    ¬ (set_par_n = to_par_n ∧ set_par_d = to_par_d) ∧
    gst_util_fraction_multiply from_dar_n from_dar_d set_par_d set_par_n = none

/-- A fraction multiplication of lines 554-863 overflows, for output width `w` and height `h`
that are not both fixed: the input DAR product of line 556, or, with the input DAR
`from_dar_n/from_dar_d`, a multiplication of the branch taken (line 731 in the branch "PAR
fixed"). -/
def multiplication_overflows (pick : List GValue → Int → Int → Option GValue) (u : Uninit)
    (from_w from_h from_par_n from_par_d w h : Int) (to_par : GValue) (outs : GstStructure) :
    Prop :=
  gst_util_fraction_multiply from_w from_h from_par_n from_par_d = none ∨
  ∃ from_dar_n from_dar_d,
    gst_util_fraction_multiply from_w from_h from_par_n from_par_d =
      some (from_dar_n, from_dar_d) ∧
    if h ≠ 0 then height_fixed_overflows pick u from_w from_dar_n from_dar_d h to_par outs
    else if w ≠ 0 then width_fixed_overflows pick u from_h from_dar_n from_dar_d w to_par outs
    else if gst_value_is_fixed to_par then
      gst_util_fraction_multiply from_dar_n from_dar_d
        (gst_value_get_fraction_numerator to_par) (gst_value_get_fraction_denominator to_par) =
        none
    else nothing_fixed_overflows pick u from_w from_h from_dar_n from_dar_d to_par outs

/-- A fraction multiplication of size fixation overflows on the first structures `ins` and
`outs`: the input PAR is fixed (otherwise the function returns at line 524), the output width and
height are not both fixed, and one of the multiplications of lines 556-823 overflows, with the
arguments that the code passes. -/
def size_fixation_overflows (pick : List GValue → Int → Int → Option GValue) (u : Uninit)
    (direction : GstPadDirection) (ins outs : GstStructure) : Prop :=
  gst_value_is_fixed
    ((gst_structure_get_value ins "pixel-aspect-ratio").getD (.fraction 1 1)) = true ∧
  ¬ ((gst_structure_get_int (outs_with_default_par direction outs) "width").getD 0 ≠ 0 ∧
      (gst_structure_get_int (outs_with_default_par direction outs) "height").getD 0 ≠ 0) ∧
  multiplication_overflows pick u
    ((gst_structure_get_int ins "width").getD u.from_w)
    ((gst_structure_get_int ins "height").getD u.from_h)
    (gst_value_get_fraction_numerator
      ((gst_structure_get_value ins "pixel-aspect-ratio").getD (.fraction 1 1)))
    (gst_value_get_fraction_denominator
      ((gst_structure_get_value ins "pixel-aspect-ratio").getD (.fraction 1 1)))
    ((gst_structure_get_int (outs_with_default_par direction outs) "width").getD 0)
    ((gst_structure_get_int (outs_with_default_par direction outs) "height").getD 0)
    (to_par_value direction outs)
    (outs_with_default_par direction outs)

/-! ## videotransform.c: properties and device life cycle (lines 184-350) -/

/-- Modelled from the spec: `gst_imx_ipu_blitter_set_output_rotation_mode`
("setOutputRotation(mode)"): the blitter keeps the mode, which
`gst_imx_ipu_blitter_get_output_rotation_mode` reads back. -/
def gst_imx_ipu_blitter_set_output_rotation_mode (b : GstImxIpuBlitter)
    (mode : GstImxIpuBlitterRotationMode) : GstImxIpuBlitter :=
  { b with output_rotation_mode := mode }

/-- Modelled from the spec: `gst_imx_ipu_blitter_enable_crop` ("enableCrop(bool)"): the blitter
keeps the flag, which `gst_imx_ipu_blitter_is_crop_enabled` reads back. -/
def gst_imx_ipu_blitter_enable_crop (b : GstImxIpuBlitter) (crop : Bool) : GstImxIpuBlitter :=
  { b with crop_enabled := crop }

/-- Modelled from the spec: `gst_imx_ipu_blitter_set_deinterlace_mode`
("setDeinterlaceMode(mode)"): the blitter keeps the mode, which
`gst_imx_ipu_blitter_get_deinterlace_mode` reads back. -/
def gst_imx_ipu_blitter_set_deinterlace_mode (b : GstImxIpuBlitter)
    (mode : GstImxIpuBlitterDeinterlaceMode) : GstImxIpuBlitter :=
  { b with deinterlace_mode := mode }

/-- The function `gst_imx_ipu_video_transform_init_device` (lines 244-254).  `new_blitter` is the
object that `g_object_new(gst_imx_ipu_blitter_get_type(), NULL)` returns. -/
def gst_imx_ipu_video_transform_init_device (t : GstImxIpuVideoTransform)
    (new_blitter : GstImxIpuBlitter) : GstImxIpuVideoTransform :=
  let b1 := gst_imx_ipu_blitter_set_output_rotation_mode new_blitter t.priv.output_rotation
  let b2 := gst_imx_ipu_blitter_enable_crop b1 t.priv.input_crop
  let b3 := gst_imx_ipu_blitter_set_deinterlace_mode b2 t.priv.deinterlace_mode
  { t with priv := { t.priv with blitter := some b3 } }

/-- The function `gst_imx_ipu_video_transform_uninit_device` (lines 257-267). -/
def gst_imx_ipu_video_transform_uninit_device (t : GstImxIpuVideoTransform) :
    GstImxIpuVideoTransform :=
  { t with priv := { t.priv with blitter := none } }

/-- The arguments `prop_id` and `value` of `set_property`.  GObject checks the value against the
type of the property before it calls `set_property`, so an enum property comes with a member of
its enumeration and the boolean property with a boolean; every other id is `other`. -/
inductive PropertyWrite where
  | PROP_OUTPUT_ROTATION (value : GstImxIpuBlitterRotationMode)
  | PROP_INPUT_CROP (value : Bool)
  | PROP_DEINTERLACE_MODE (value : GstImxIpuBlitterDeinterlaceMode)
  | other (prop_id : Nat)
  deriving DecidableEq, Repr

/-- The function `gst_imx_ipu_video_transform_set_property` (lines 285-319), without the
mutex. -/
def gst_imx_ipu_video_transform_set_property (t : GstImxIpuVideoTransform)
    (call : PropertyWrite) : GstImxIpuVideoTransform :=
  match call with
  | .PROP_OUTPUT_ROTATION value =>
    let t1 := { t with priv := { t.priv with output_rotation := value } }
    match t1.priv.blitter with
    | some b =>
      { t1 with priv := { t1.priv with
          blitter := some (gst_imx_ipu_blitter_set_output_rotation_mode b
            t1.priv.output_rotation) } }
    | none => t1
  | .PROP_INPUT_CROP value =>
    let t1 := { t with priv := { t.priv with input_crop := value } }
    match t1.priv.blitter with
    | some b =>
      { t1 with priv := { t1.priv with
          blitter := some (gst_imx_ipu_blitter_enable_crop b t1.priv.input_crop) } }
    | none => t1
  | .PROP_DEINTERLACE_MODE value =>
    let t1 := { t with priv := { t.priv with deinterlace_mode := value } }
    match t1.priv.blitter with
    | some b =>
      { t1 with priv := { t1.priv with
          blitter := some (gst_imx_ipu_blitter_set_deinterlace_mode b
            t1.priv.deinterlace_mode) } }
    | none => t1
  | .other _ => t

/-- Invariant of the element: an existing blitter holds the rotation, crop flag and deinterlace
mode that are stored in the private configuration of the element. -/
def BlitterInSync (t : GstImxIpuVideoTransform) : Prop :=
  ∀ b, t.priv.blitter = some b →
    gst_imx_ipu_blitter_get_output_rotation_mode b = t.priv.output_rotation ∧
    gst_imx_ipu_blitter_is_crop_enabled b = t.priv.input_crop ∧
    gst_imx_ipu_blitter_get_deinterlace_mode b = t.priv.deinterlace_mode

/-! ## videotransform.c: the instance mutex -/

/-- The parts of the shared configuration: the fields of
`struct _GstImxIpuVideoTransformPrivate` other than the mutex (lines 66-74). -/
inductive ConfigField where
  | blitter
  | output_rotation
  | input_crop
  | deinterlace_mode
  deriving DecidableEq, Repr

/-- What a function does with the mutex and the shared configuration, in program order:
`LOCK_BLITTER_MUTEX`, `UNLOCK_BLITTER_MUTEX`, a read of a field of `priv`, a write of it. -/
inductive SyncAct where
  | lock
  | unlock
  | read (field : ConfigField)
  | write (field : ConfigField)
  deriving DecidableEq, Repr

/-- Lines 289-318: `set_property`.  The argument tells whether `priv->blitter` is not `NULL`. -/
def set_property_acts (call : PropertyWrite) (has_blitter : Bool) : List SyncAct :=
  match call with
  | .PROP_OUTPUT_ROTATION _ =>
    [.lock, .write .output_rotation, .read .blitter] ++
      (if has_blitter then [.read .blitter, .read .output_rotation] else []) ++ [.unlock]
  | .PROP_INPUT_CROP _ =>
    [.lock, .write .input_crop, .read .blitter] ++
      (if has_blitter then [.read .blitter, .read .input_crop] else []) ++ [.unlock]
  | .PROP_DEINTERLACE_MODE _ =>
    [.lock, .write .deinterlace_mode, .read .blitter] ++
      (if has_blitter then [.read .blitter, .read .deinterlace_mode] else []) ++ [.unlock]
  | .other _ => []

/-- The ids of the properties (lines 40-46). -/
def PROP_OUTPUT_ROTATION : Nat := 1
def PROP_INPUT_CROP : Nat := 2
def PROP_DEINTERLACE_MODE : Nat := 3

/-- Lines 326-349: `get_property`. -/
def get_property_acts (prop_id : Nat) : List SyncAct :=
  if prop_id = PROP_OUTPUT_ROTATION then [.lock, .read .output_rotation, .unlock]
  else if prop_id = PROP_INPUT_CROP then [.lock, .read .input_crop, .unlock]
  else if prop_id = PROP_DEINTERLACE_MODE then [.lock, .read .deinterlace_mode, .unlock]
  else []

/-- Lines 249-253: `init_device`, which takes no lock itself ("must be called with lock"). -/
def init_device_acts : List SyncAct :=
  [.write .blitter, .read .blitter, .read .output_rotation, .read .blitter, .read .input_crop,
    .read .blitter, .read .deinterlace_mode]

/-- Lines 261-266: `uninit_device`, which takes no lock itself ("must be called with lock"). -/
def uninit_device_acts (has_blitter : Bool) : List SyncAct :=
  [.read .blitter] ++ (if has_blitter then [.read .blitter] else []) ++ [.write .blitter]

/-- The state changes that `change_state` distinguishes. -/
inductive GstStateChange where
  | GST_STATE_CHANGE_NULL_TO_READY
  | GST_STATE_CHANGE_READY_TO_NULL
  | other
  deriving DecidableEq, Repr

/-- Lines 208-240: `change_state`.  `parent_failed` tells whether the parent class returns
`GST_STATE_CHANGE_FAILURE`, in which case the function returns at line 222. -/
def change_state_acts (transition : GstStateChange) (parent_failed has_blitter : Bool) :
    List SyncAct :=
  (match transition with
    | .GST_STATE_CHANGE_NULL_TO_READY => [.lock] ++ init_device_acts ++ [.unlock]
    | _ => []) ++
  (if parent_failed then []
    else match transition with
      | .GST_STATE_CHANGE_READY_TO_NULL => [.lock] ++ uninit_device_acts has_blitter ++ [.unlock]
      | _ => [])

/-- Lines 270-282: `finalize` calls `uninit_device` and then clears the mutex. -/
def finalize_acts (has_blitter : Bool) : List SyncAct := uninit_device_acts has_blitter

/-- Lines 1099-1118: `set_info` reads `priv->blitter` at line 1115 to hand it to
`gst_imx_ipu_blitter_set_input_info`. -/
def set_info_acts : List SyncAct := [.read .blitter]

/-- Lines 1022-1096: `decide_allocation` reads `priv->blitter` at line 1067, when it creates a
buffer pool. -/
def decide_allocation_acts (creates_pool : Bool) : List SyncAct :=
  if creates_pool then [.read .blitter] else []

/-- Lines 1126-1211: `prepare_output_buffer` reads `priv->blitter` at lines 1137, 1147, 1149,
1174 and 1184, as far as control reaches them. -/
def prepare_output_buffer_acts (t : GstImxIpuVideoTransform) (input : Option GstBuffer) :
    List SyncAct :=
  [.lock] ++
  (match input, t.priv.blitter with
    | some buf, some blitter =>
      if t.inout_caps_equal then
        [.read .blitter] ++
        (if gst_imx_ipu_blitter_are_transforms_enabled blitter then
          (match buf.video_meta with
            | some _ =>
              [.read .blitter] ++
              (if gst_imx_ipu_blitter_get_deinterlace_mode blitter ≠
                  .GST_IMX_IPU_BLITTER_DEINTERLACE_NONE then [.read .blitter] else [])
            | none => []) ++
          [.read .blitter, .read .blitter]
        else [])
      else []
    | some _, none => if t.inout_caps_equal then [.read .blitter] else []
    | none, _ => []) ++
  [.unlock]

/-- Lines 1225-1233: `transform_frame` reads `priv->blitter` for each of the calls it makes. -/
def transform_frame_acts (calls : List BlitterCall) : List SyncAct :=
  [.lock] ++ calls.map (fun _ => SyncAct.read .blitter) ++ [.unlock]

/-- The reads and writes of a sequence that are made while the mutex is not held; `held` tells
whether it is held at the start. -/
def unprotected_accesses : Bool → List SyncAct → List SyncAct
  | _, [] => []
  | _, .lock :: rest => unprotected_accesses true rest
  | _, .unlock :: rest => unprotected_accesses false rest
  | held, a :: rest => (if held then [] else [a]) ++ unprotected_accesses held rest

/-- A schedule of two threads obeys the mutex: a thread locks only the free mutex and unlocks
only the mutex it holds.  `holder` is the thread that holds the mutex at the start. -/
def schedule_obeys_mutex : Option Bool → List (Bool × SyncAct) → Prop
  | _, [] => True
  | holder, (i, .lock) :: rest => holder = none ∧ schedule_obeys_mutex (some i) rest
  | holder, (i, .unlock) :: rest => holder = some i ∧ schedule_obeys_mutex none rest
  | holder, _ :: rest => schedule_obeys_mutex holder rest

/-- The reads and writes of a schedule that a thread makes while it does not hold the mutex. -/
def schedule_unprotected : Option Bool → List (Bool × SyncAct) → List (Bool × SyncAct)
  | _, [] => []
  | _, (i, .lock) :: rest => schedule_unprotected (some i) rest
  | _, (_, .unlock) :: rest => schedule_unprotected none rest
  | holder, (i, a) :: rest =>
    (if holder = some i then [] else [(i, a)]) ++ schedule_unprotected holder rest

/-- The actions of one thread in a schedule, in order. -/
def thread_acts (i : Bool) (schedule : List (Bool × SyncAct)) : List SyncAct :=
  schedule.filterMap (fun x => if x.1 = i then some x.2 else none)

/-! ### Example element -/

/-- A video info 1280x720, Y444, progressive, PAR 1:1. -/
def ex_info_720p : GstVideoInfo :=
  { finfo := fmt_Y444, interlace_mode := .GST_VIDEO_INTERLACE_MODE_PROGRESSIVE, width := 1280,
    height := 720, par_n := 1, par_d := 1, colorimetry := 0 }

/-- A blitter with no transform enabled. -/
def ex_blitter : GstImxIpuBlitter :=
  { output_rotation_mode := .GST_IMX_IPU_BLITTER_ROTATION_NONE, crop_enabled := false,
    deinterlace_mode := .GST_IMX_IPU_BLITTER_DEINTERLACE_NONE, input_video_info := ex_info_720p }

/-- An element with equal input and output descriptions around a given blitter. -/
def ex_element (b : GstImxIpuBlitter) : GstImxIpuVideoTransform :=
  { priv := { blitter := some b, output_rotation := b.output_rotation_mode,
              input_crop := b.crop_enabled, deinterlace_mode := b.deinterlace_mode },
    inout_caps_equal := true, passthrough := false }

/-- A frame with video metadata 1280x720 and the given flags and crop metadata. -/
def ex_frame (flags : Nat) (crop : Option GstVideoCropMeta) : GstBuffer :=
  { video_meta := some { flags := flags, width := 1280, height := 720 },
    video_crop_meta := crop }

/-- The blitter `ex_blitter` with a rotation by 90 degrees. -/
def ex_blitter_rot90 : GstImxIpuBlitter :=
  { ex_blitter with output_rotation_mode := .GST_IMX_IPU_BLITTER_ROTATION_90CW }

/-- The blitter `ex_blitter` with cropping enabled. -/
def ex_blitter_crop : GstImxIpuBlitter := { ex_blitter with crop_enabled := true }

/-- A blitter with deinterlacing enabled and the given interlace mode of the input. -/
def ex_blitter_deinterlace (mode : GstVideoInterlaceMode) : GstImxIpuBlitter :=
  { ex_blitter with
    deinterlace_mode := .GST_IMX_IPU_BLITTER_DEINTERLACE_FAST_MOTION,
    input_video_info := { ex_info_720p with interlace_mode := mode } }

/-- A frame that carries crop metadata with origin (10, 0) and no video metadata. -/
def ex_frame_crop_only : GstBuffer :=
  { video_meta := none, video_crop_meta := some { x := 10, y := 0, width := 640, height := 360 } }

/-- The frame has no effective crop: cropping is disabled, or the frame has no crop metadata, or
its crop rectangle is the full frame described by the video metadata `vm`. -/
def no_effective_crop (b : GstImxIpuBlitter) (buf : GstBuffer) (vm : GstVideoMeta) : Prop :=
  b.crop_enabled = false ∨ buf.video_crop_meta = none ∨
    ∃ c, buf.video_crop_meta = some c ∧ c.x = 0 ∧ c.y = 0 ∧ c.width = vm.width ∧
      c.height = vm.height

/-! ### Example allocator state -/

/-- A parentless block of four bytes at physical address 1. -/
def ex_block : GstImxPhysMemory :=
  { flags := 1, parent := none, maxsize := 4, align := 0, offset := 0, size := 4,
    mapped_virt_addr := none, phys_addr := 1, cpu_addr := 4096 }

/-- A state with the block `ex_block`, its region, and a backend that grants the next
allocation. -/
def ex_state : PhysMemState :=
  { blocks := [some ex_block], regions := [[10, 20, 30, 40]],
    alloc_oracle := [some ⟨8192, [7, 7]⟩], calls := [], faulted := false }

/-- The state `ex_state` with a backend that refuses the next allocation. -/
def ex_state_fail : PhysMemState := { ex_state with alloc_oracle := [none] }

/-- The block that `share(ex_block, 1, 2)` creates in `ex_state`. -/
def ex_shared : GstImxPhysMemory :=
  { flags := 3, parent := some 0, maxsize := 4, align := 0, offset := 1, size := 2,
    mapped_virt_addr := none, phys_addr := 1, cpu_addr := 4096 }

/-- The block that a second `share(_, 1, -1)`, on the first shared block, creates. -/
def ex_shared_twice : GstImxPhysMemory :=
  { flags := 3, parent := some 0, maxsize := 4, align := 0, offset := 2, size := 1,
    mapped_virt_addr := none, phys_addr := 1, cpu_addr := 4096 }

/-! ### Example inputs for size fixation -/

/-- A choice function for fraction lists that never finds an entry. -/
def no_pick : List GValue → Int → Int → Option GValue := fun _ _ _ => none

/-- Indeterminate locals, all zero. -/
def uninit_zero : Uninit := ⟨0, 0, 0, 0, 0, 0, 0⟩

/-- Input description 1920x1080 with PAR 1:1. -/
def ex_in_1080p : GstStructure :=
  ⟨[("width", .int 1920), ("height", .int 1080), ("pixel-aspect-ratio", .fraction 1 1)]⟩

/-- Output description with height fixed at 540, width range `[64, G_MAXINT]` and the
unconstrained PAR range. -/
def ex_out_h540 : GstStructure :=
  ⟨[("width", .intRange 64 2147483647), ("height", .int 540),
    ("pixel-aspect-ratio", .fractionRange 1 2147483647 2147483647 1)]⟩

/-- Input description 16x9 with PAR 1:1. -/
def ex_in_16x9 : GstStructure :=
  ⟨[("width", .int 16), ("height", .int 9), ("pixel-aspect-ratio", .fraction 1 1)]⟩

/-- Output description with height fixed at 10, PAR fixed at 1:1 and width range `[1, 100]`. -/
def ex_out_h10 : GstStructure :=
  ⟨[("width", .intRange 1 100), ("height", .int 10), ("pixel-aspect-ratio", .fraction 1 1)]⟩

/-- Input description 1920x1080, PAR 1:1, format Y444. -/
def ex_in_1080p_y444 : GstStructure :=
  ⟨[("format", .string "Y444"), ("width", .int 1920), ("height", .int 1080),
    ("pixel-aspect-ratio", .fraction 1 1)]⟩

/-- Fully fixed output description 1280x720, PAR 1:1, format RGBA. -/
def ex_out_720p_rgba : GstStructure :=
  ⟨[("format", .string "RGBA"), ("width", .int 1280), ("height", .int 720),
    ("pixel-aspect-ratio", .fraction 1 1)]⟩

/-- Output description with height fixed at 1080, width range `[64, G_MAXINT]` and no PAR
field. -/
def ex_out_h1080_nopar : GstStructure :=
  ⟨[("width", .intRange 64 2147483647), ("height", .int 1080)]⟩

/-- Output description with width fixed at 1920, height range `[64, G_MAXINT]` and no PAR
field. -/
def ex_out_w1920_nopar : GstStructure :=
  ⟨[("width", .int 1920), ("height", .intRange 64 2147483647)]⟩

/-- Output description with width and height ranges `[64, G_MAXINT]` and no PAR field. -/
def ex_out_ranges_nopar : GstStructure :=
  ⟨[("width", .intRange 64 2147483647), ("height", .intRange 64 2147483647)]⟩

/-- Output description with width and height ranges `[64, G_MAXINT]` and PAR fixed at 2:1. -/
def ex_out_par_2_1 : GstStructure :=
  ⟨[("width", .intRange 64 2147483647), ("height", .intRange 64 2147483647),
    ("pixel-aspect-ratio", .fraction 2 1)]⟩

/-- Output description with height fixed at 1080, width range `[64, G_MAXINT]` and PAR fixed at
2:1. -/
def ex_out_h1080_par_2_1 : GstStructure :=
  ⟨[("width", .intRange 64 2147483647), ("height", .int 1080),
    ("pixel-aspect-ratio", .fraction 2 1)]⟩

/-- Input description 1920x1080 with the extreme PAR 268435456:1. -/
def ex_in_1080p_wide_par : GstStructure :=
  ⟨[("width", .int 1920), ("height", .int 1080),
    ("pixel-aspect-ratio", .fraction 268435456 1)]⟩

/-- Output description 268435456x576 with the unconstrained PAR range. -/
def ex_out_fixed_dims_par_range : GstStructure :=
  ⟨[("width", .int 268435456), ("height", .int 576),
    ("pixel-aspect-ratio", .fractionRange 1 2147483647 2147483647 1)]⟩

/-- Output description 960x1080 without a PAR field. -/
def ex_out_960x1080_nopar : GstStructure :=
  ⟨[("width", .int 960), ("height", .int 1080)]⟩

/-- Output description with width and height ranges `[64, G_MAXINT]` and the unconstrained PAR
range. -/
def ex_out_all_free : GstStructure :=
  ⟨[("width", .intRange 64 2147483647), ("height", .intRange 64 2147483647),
    ("pixel-aspect-ratio", .fractionRange 1 2147483647 2147483647 1)]⟩

/-- Input description 1920x1080 with PAR 4:3. -/
def ex_in_1080p_par_4_3 : GstStructure :=
  ⟨[("width", .int 1920), ("height", .int 1080), ("pixel-aspect-ratio", .fraction 4 3)]⟩

/-- Output description 1x2147483647 with the unconstrained PAR range. -/
def ex_out_1_by_maxint : GstStructure :=
  ⟨[("width", .int 1), ("height", .int 2147483647),
    ("pixel-aspect-ratio", .fractionRange 1 2147483647 2147483647 1)]⟩

/-! ### Example inputs for the last claims -/

/-- Descriptor of `GST_VIDEO_FORMAT_UNKNOWN`, the first entry of the library's format table. -/
def fmt_UNKNOWN : GstVideoFormatInfo :=
  { format := 0, name := "UNKNOWN", flags := 0, bits := 0, w_sub := [0, 0, 0, 0],
    h_sub := [0, 0, 0, 0] }

/-- The lookup `gst_video_format_get_info(gst_video_format_from_string(fname))` as the library
does it, on the three entry table: `gst_video_format_from_string` returns
`GST_VIDEO_FORMAT_UNKNOWN` for a string that names no format, and `gst_video_format_get_info`
returns the table entry of the format it is given, which for `GST_VIDEO_FORMAT_UNKNOWN` is the
descriptor named "UNKNOWN".  The result is never `NULL`. -/
def library_get_info (fname : String) : Option GstVideoFormatInfo :=
  some ((example_get_info fname).getD fmt_UNKNOWN)

/-- The lookup is faithful on a string: a descriptor found for it carries that string as its
name. -/
def NameFaithful (get_info : String → Option GstVideoFormatInfo) (fname : String) : Prop :=
  ∀ t, get_info fname = some t → t.name = fname

/-- Output description with height fixed at 540, width range `[64, 1280]` and the unconstrained
PAR range. -/
def ex_out_h540_narrow : GstStructure :=
  ⟨[("width", .intRange 64 1280), ("height", .int 540),
    ("pixel-aspect-ratio", .fractionRange 1 2147483647 2147483647 1)]⟩

/-- Output description with height fixed at 1500000000, PAR fixed at 1:1 and width range
`[64, G_MAXINT]`. -/
def ex_out_h_huge : GstStructure :=
  ⟨[("width", .intRange 64 2147483647), ("height", .int 1500000000),
    ("pixel-aspect-ratio", .fraction 1 1)]⟩

/-- Output description with width and height ranges `[64, G_MAXINT]` and PAR range
`[2/1, 4/1]`. -/
def ex_out_par_2_to_4 : GstStructure :=
  ⟨[("width", .intRange 64 2147483647), ("height", .intRange 64 2147483647),
    ("pixel-aspect-ratio", .fractionRange 2 1 4 1)]⟩

/-- Output description with width range `[1000, 2000]`, height range `[64, G_MAXINT]` and PAR
range `[2/1, 4/1]`. -/
def ex_out_w1000_par_2_to_4 : GstStructure :=
  ⟨[("width", .intRange 1000 2000), ("height", .intRange 64 2147483647),
    ("pixel-aspect-ratio", .fractionRange 2 1 4 1)]⟩

/-- Output description with width and height ranges `[1000, 2000]` and PAR range `[2/1, 4/1]`. -/
def ex_out_wh1000_par_2_to_4 : GstStructure :=
  ⟨[("width", .intRange 1000 2000), ("height", .intRange 1000 2000),
    ("pixel-aspect-ratio", .fractionRange 2 1 4 1)]⟩

/-- An element that has no blitter yet, as after instance initialisation (lines 184-200), with no
transform configured. -/
def ex_element_idle : GstImxIpuVideoTransform :=
  { priv := { blitter := none, output_rotation := .GST_IMX_IPU_BLITTER_ROTATION_NONE,
              input_crop := false,
              deinterlace_mode := .GST_IMX_IPU_BLITTER_DEINTERLACE_NONE },
    inout_caps_equal := false, passthrough := false }

/-- A schedule of two threads: thread `true` runs `set_property` for the crop flag on an element
with a blitter, then thread `false` runs `get_property` for the same flag. -/
def ex_schedule_properties : List (Bool × SyncAct) :=
  [(true, .lock), (true, .write .input_crop), (true, .read .blitter), (true, .read .blitter),
    (true, .read .input_crop), (true, .unlock),
    (false, .lock), (false, .read .input_crop), (false, .unlock)]

/-- A schedule of two threads: thread `true` runs `set_property` for the rotation on an element
with a blitter, and thread `false` runs `set_info` while thread `true` holds the mutex. -/
def ex_schedule_set_info : List (Bool × SyncAct) :=
  [(true, .lock), (true, .write .output_rotation), (true, .read .blitter),
    (false, .read .blitter),
    (true, .read .blitter), (true, .read .output_rotation), (true, .unlock)]

/-- The quotient `a / b` rounded to the nearest integer (halves up), for positive `b`: the
`round(...)` of the specification's width formula. -/
def round_div (a b : Int) : Int := (2 * a + b) / (2 * b)

/-- The effect of one call of `score_value` on the state, for a candidate whose descriptor is
`t` (used to relate the loops to a fold over the candidate list). -/
def score_step (in_info : GstVideoFormatInfo) (st : ScoreState) (t : GstVideoFormatInfo) :
    ScoreState :=
  if in_info = t then (0, some t)
  else if score_loss in_info t < st.1 then (score_loss in_info t, some t) else st

/-- Loop invariant of the scan: a minimum loss of 0 was produced by the input format itself. -/
def ScoreGood (in_info : GstVideoFormatInfo) (st : ScoreState) : Prop :=
  st.1 = 0 → st = (0, some in_info)

/-! # Theorems -/

/-! ## Pixel format scoring -/

theorem masked_flags (f m : Nat) (hm : m &&& 4294967087 = m) :
    clear_flag (clear_flag (clear_flag f GST_VIDEO_FORMAT_FLAG_LE)
      GST_VIDEO_FORMAT_FLAG_COMPLEX) GST_VIDEO_FORMAT_FLAG_UNPACK &&& m = f &&& m := by
  simp only [clear_flag, GST_VIDEO_FORMAT_FLAG_LE, GST_VIDEO_FORMAT_FLAG_COMPLEX,
    GST_VIDEO_FORMAT_FLAG_UNPACK, Nat.land_assoc]
  have : (4294967295 ^^^ 16) &&& ((4294967295 ^^^ 64) &&& ((4294967295 ^^^ 128) &&& m))
      = m := by
    rw [← Nat.land_assoc, ← Nat.land_assoc]
    have h2 : ((4294967295 ^^^ 16) &&& (4294967295 ^^^ 64)) &&& (4294967295 ^^^ 128) = 4294967087 := by decide
    rw [h2, Nat.land_comm]; exact hm
  rw [this]

theorem and_bit_ne (f g k : Nat) :
    (f &&& 2 ^ k ≠ g &&& 2 ^ k) ↔ f.testBit k ≠ g.testBit k := by
  rw [Nat.and_two_pow, Nat.and_two_pow]
  have hp : 0 < 2 ^ k := Nat.pos_pow_of_pos k (by decide)
  cases f.testBit k <;> cases g.testBit k <;> simp; all_goals omega

theorem and_seven_ne (f g : Nat) :
    (f &&& 7 ≠ g &&& 7) ↔
      (f.testBit 0, f.testBit 1, f.testBit 2) ≠ (g.testBit 0, g.testBit 1, g.testBit 2) := by
  have e : ∀ x : Nat, x &&& 7 = x % 2 ^ 3 := fun x => Nat.and_pow_two_sub_one_eq_mod x 3
  rw [e, e]
  constructor
  · intro h hb
    apply h
    simp only [Prod.mk.injEq] at hb
    apply Nat.eq_of_testBit_eq
    intro i
    rw [Nat.testBit_mod_two_pow, Nat.testBit_mod_two_pow]
    by_cases hi : i < 3
    · interval_cases i <;> simp [hb.1, hb.2.1, hb.2.2]
    · simp [hi]
  · intro h he
    apply h
    have key : ∀ i, i < 3 → f.testBit i = g.testBit i := by
      intro i hi
      have h3 := congrArg (fun x => Nat.testBit x i) he
      simp only [] at h3
      rw [Nat.testBit_mod_two_pow, Nat.testBit_mod_two_pow] at h3
      simpa [hi] using h3
    simp [key 0 (by decide), key 1 (by decide), key 2 (by decide)]

theorem score_loss_eq (in_info t_info : GstVideoFormatInfo) :
    score_loss in_info t_info =
      1 + 1 * ind (t_info.flags.testBit 5 ≠ in_info.flags.testBit 5)
        + 2 * ind ((t_info.flags.testBit 0, t_info.flags.testBit 1, t_info.flags.testBit 2) ≠
            (in_info.flags.testBit 0, in_info.flags.testBit 1, in_info.flags.testBit 2))
        + 4 * ind (t_info.flags.testBit 3 ≠ in_info.flags.testBit 3)
        + 16 * ind (sub1 in_info.h_sub < sub1 t_info.h_sub)
        + 8 * ind (sub1 in_info.w_sub < sub1 t_info.w_sub)
        + 32 * ind (t_info.bits < in_info.bits) := by
  unfold score_loss
  simp only [masked_flags _ PALETTE_MASK (by decide), masked_flags _ COLOR_MASK (by decide),
    masked_flags _ ALPHA_MASK (by decide)]
  have hp : (t_info.flags &&& 32 ≠ in_info.flags &&& 32) ↔ _ := and_bit_ne t_info.flags in_info.flags 5
  have ha : (t_info.flags &&& 8 ≠ in_info.flags &&& 8) ↔ _ := and_bit_ne t_info.flags in_info.flags 3
  have hc : (t_info.flags &&& 7 ≠ in_info.flags &&& 7) ↔ _ := and_seven_ne t_info.flags in_info.flags
  have e7 : (1 ||| 2 ||| 4 : Nat) = 7 := by decide
  simp only [PALETTE_MASK, ALPHA_MASK, COLOR_MASK, GST_VIDEO_FORMAT_FLAG_PALETTE,
    GST_VIDEO_FORMAT_FLAG_ALPHA, GST_VIDEO_FORMAT_FLAG_YUV, GST_VIDEO_FORMAT_FLAG_RGB,
    GST_VIDEO_FORMAT_FLAG_GRAY, SCORE_PALETTE_LOSS, SCORE_COLOR_LOSS, SCORE_ALPHA_LOSS,
    SCORE_CHROMA_H_LOSS, SCORE_CHROMA_W_LOSS, SCORE_DEPTH_LOSS, ind, e7, hp, ha, hc, gt_iff_lt]
  split_ifs <;> norm_num

theorem ind_nonneg (p : Prop) [Decidable p] : 0 ≤ ind p := by
  unfold ind; split_ifs <;> decide

theorem ind_le_one (p : Prop) [Decidable p] : ind p ≤ 1 := by
  unfold ind; split_ifs <;> decide

theorem score_loss_pos (a b : GstVideoFormatInfo) : 1 ≤ score_loss a b := by
  rw [score_loss_eq]
  have h1 := ind_nonneg (b.flags.testBit 5 ≠ a.flags.testBit 5)
  have h2 := ind_nonneg ((b.flags.testBit 0, b.flags.testBit 1, b.flags.testBit 2) ≠
    (a.flags.testBit 0, a.flags.testBit 1, a.flags.testBit 2))
  have h3 := ind_nonneg (b.flags.testBit 3 ≠ a.flags.testBit 3)
  have h4 := ind_nonneg (sub1 a.h_sub < sub1 b.h_sub)
  have h5 := ind_nonneg (sub1 a.w_sub < sub1 b.w_sub)
  have h6 := ind_nonneg (b.bits < a.bits)
  omega

theorem score_loss_le (a b : GstVideoFormatInfo) : score_loss a b ≤ 64 := by
  rw [score_loss_eq]
  have h1 := ind_le_one (b.flags.testBit 5 ≠ a.flags.testBit 5)
  have h2 := ind_le_one ((b.flags.testBit 0, b.flags.testBit 1, b.flags.testBit 2) ≠
    (a.flags.testBit 0, a.flags.testBit 1, a.flags.testBit 2))
  have h3 := ind_le_one (b.flags.testBit 3 ≠ a.flags.testBit 3)
  have h4 := ind_le_one (sub1 a.h_sub < sub1 b.h_sub)
  have h5 := ind_le_one (sub1 a.w_sub < sub1 b.w_sub)
  have h6 := ind_le_one (b.bits < a.bits)
  omega

/-- C1: for a candidate descriptor that is not the input descriptor, `score_value` computes
`loss = 1 + 1*[palette flag differs] + 2*[colour model flags differ] + 4*[alpha flag differs]
+ 16*[candidate h_sub[1] greater] + 8*[candidate w_sub[1] greater] + 32*[candidate bits lower]`
(flag bits: YUV 0, RGB 1, gray 2, alpha 3, palette 5) and takes the candidate exactly when that
loss is below the current minimum. -/
theorem score_value_loss_formula (get_info : String → Option GstVideoFormatInfo)
    (in_info t_info : GstVideoFormatInfo) (fname : String) (st : ScoreState)
    (hget : get_info fname = some t_info) (hne : in_info ≠ t_info) :
    ∃ loss : Int,
      loss = 1 + 1 * ind (t_info.flags.testBit 5 ≠ in_info.flags.testBit 5)
        + 2 * ind ((t_info.flags.testBit 0, t_info.flags.testBit 1, t_info.flags.testBit 2) ≠
            (in_info.flags.testBit 0, in_info.flags.testBit 1, in_info.flags.testBit 2))
        + 4 * ind (t_info.flags.testBit 3 ≠ in_info.flags.testBit 3)
        + 16 * ind (sub1 in_info.h_sub < sub1 t_info.h_sub)
        + 8 * ind (sub1 in_info.w_sub < sub1 t_info.w_sub)
        + 32 * ind (t_info.bits < in_info.bits) ∧
      score_loss in_info t_info = loss ∧
      score_value get_info in_info fname st =
        if loss < st.1 then (loss, some t_info) else st := by
  refine ⟨score_loss in_info t_info, score_loss_eq in_info t_info, rfl, ?_⟩
  simp [score_value, hget, hne]

theorem score_value_loss_formula_witness :
    example_get_info "RGBA" = some fmt_RGBA ∧ fmt_Y444 ≠ fmt_RGBA ∧
    ∃ loss : Int, loss = 7 ∧ score_loss fmt_Y444 fmt_RGBA = loss ∧
      score_value example_get_info fmt_Y444 "RGBA" (G_MAXINT, none) = (loss, some fmt_RGBA) := by
  refine ⟨rfl, by decide, ?_⟩
  obtain ⟨loss, h1, h2, h3⟩ := score_value_loss_formula example_get_info fmt_Y444 fmt_RGBA
    "RGBA" (G_MAXINT, none) rfl (by decide)
  have h7 : loss = 7 := by rw [← h2]; decide
  refine ⟨loss, h7, h2, ?_⟩
  rw [h3, h7]; rfl

theorem score_value_fold (get_info : String → Option GstVideoFormatInfo)
    (in_info : GstVideoFormatInfo) (fname : String) (st : ScoreState) :
    score_value get_info in_info fname st =
      (get_info fname).toList.foldl (score_step in_info) st := by
  unfold score_value
  cases h : get_info fname <;> simp [score_step]

theorem score_step_good (in_info t : GstVideoFormatInfo) (st : ScoreState)
    (h : ScoreGood in_info st) : ScoreGood in_info (score_step in_info st t) := by
  unfold score_step
  split_ifs with h1 h2
  · intro _; rw [h1]
  · intro h0
    have := score_loss_pos in_info t
    simp only at h0
    omega
  · exact h

theorem score_fold_good (in_info : GstVideoFormatInfo) (cs : List GstVideoFormatInfo) :
    ∀ st, ScoreGood in_info st → ScoreGood in_info (cs.foldl (score_step in_info) st) := by
  induction cs with
  | nil => intro st h; exact h
  | cons c cs ih => intro st h; exact ih _ (score_step_good in_info c st h)

theorem score_fold_zero (in_info : GstVideoFormatInfo) (cs : List GstVideoFormatInfo) :
    cs.foldl (score_step in_info) (0, some in_info) = (0, some in_info) := by
  induction cs with
  | nil => rfl
  | cons c cs ih =>
    have hs : score_step in_info (0, some in_info) c = (0, some in_info) := by
      unfold score_step
      split_ifs with h1 h2
      · rw [h1]
      · have := score_loss_pos in_info c
        simp only at h2
        omega
      · rfl
    rw [List.foldl_cons, hs, ih]

theorem score_list_fold (get_info : String → Option GstVideoFormatInfo)
    (in_info : GstVideoFormatInfo) (vs : List GValue) :
    ∀ st, ScoreGood in_info st →
      score_list get_info in_info vs st =
        (list_candidates get_info vs).foldl (score_step in_info) st := by
  induction vs with
  | nil => intro st _; rfl
  | cons v vs ih =>
    intro st hst
    cases v with
    | string fname =>
      simp only [score_list, list_candidates, List.foldl_append]
      rw [score_value_fold]
      have hg : ScoreGood in_info ((get_info fname).toList.foldl (score_step in_info) st) :=
        score_fold_good in_info _ st hst
      split_ifs with h0
      · rw [hg h0, score_fold_zero]
      · exact ih _ hg
    | int _ => simpa [score_list, list_candidates] using ih st hst
    | intRange _ _ => simpa [score_list, list_candidates] using ih st hst
    | fraction _ _ => simpa [score_list, list_candidates] using ih st hst
    | fractionRange _ _ _ _ => simpa [score_list, list_candidates] using ih st hst
    | list _ => simpa [score_list, list_candidates] using ih st hst
    | other _ => simpa [score_list, list_candidates] using ih st hst

theorem score_structure_fold (get_info : String → Option GstVideoFormatInfo)
    (in_info : GstVideoFormatInfo) (tests : GstStructure) (st : ScoreState)
    (hst : ScoreGood in_info st) :
    score_structure get_info in_info tests st =
      (structure_candidates get_info tests).foldl (score_step in_info) st := by
  unfold score_structure structure_candidates
  split
  · exact score_list_fold get_info in_info _ st hst
  · exact score_value_fold get_info in_info _ st
  · rfl

theorem score_caps_fold (get_info : String → Option GstVideoFormatInfo)
    (in_info : GstVideoFormatInfo) (caps : GstCaps) :
    ∀ st, ScoreGood in_info st →
      score_caps get_info in_info caps st =
        (caps_candidates get_info caps).foldl (score_step in_info) st := by
  induction caps with
  | nil => intro st _; rfl
  | cons s rest ih =>
    intro st hst
    simp only [score_caps, caps_candidates, List.foldl_append]
    rw [score_structure_fold get_info in_info s st hst]
    exact ih _ (score_fold_good in_info _ st hst)

theorem score_init_good (in_info : GstVideoFormatInfo) :
    ScoreGood in_info (G_MAXINT, none) := by
  intro h; simp [G_MAXINT] at h

theorem score_fold_exact (in_info : GstVideoFormatInfo) (cs : List GstVideoFormatInfo)
    (hmem : in_info ∈ cs) :
    ∀ st, cs.foldl (score_step in_info) st = (0, some in_info) := by
  induction cs with
  | nil => simp at hmem
  | cons c cs ih =>
    intro st
    by_cases hc : in_info = c
    · have : score_step in_info st c = (0, some in_info) := by simp [score_step, hc]
      rw [List.foldl_cons, this, score_fold_zero]
    · have hm : in_info ∈ cs := by
        rcases List.mem_cons.mp hmem with h | h
        · exact absurd h hc
        · exact h
      rw [List.foldl_cons]; exact ih hm _

theorem candidate_loss_zero (in_info t : GstVideoFormatInfo)
    (h : candidate_loss in_info t = 0) : in_info = t := by
  unfold candidate_loss at h
  split_ifs at h with h1
  · exact h1
  · have := score_loss_pos in_info t; omega

theorem score_fold_first_min (in_info : GstVideoFormatInfo) (cs : List GstVideoFormatInfo)
    (hne : cs ≠ []) :
    ∃ t a b, cs = a ++ t :: b ∧
      (∀ c ∈ a, candidate_loss in_info t < candidate_loss in_info c) ∧
      (∀ c ∈ b, candidate_loss in_info t ≤ candidate_loss in_info c) ∧
      cs.foldl (score_step in_info) (G_MAXINT, none) = (candidate_loss in_info t, some t) := by
  induction cs using List.reverseRecOn with
  | nil => exact absurd rfl hne
  | append_singleton pre x ih =>
    rw [List.foldl_append, List.foldl_cons, List.foldl_nil]
    by_cases hpre : pre = []
    · subst hpre
      refine ⟨x, [], [], rfl, by simp, by simp, ?_⟩
      have := score_loss_le in_info x
      simp only [List.foldl_nil, score_step, candidate_loss, G_MAXINT]
      split_ifs with h1 h2
      · rfl
      · rfl
      · omega
    · obtain ⟨t, a, b, hcs, ha, hb, hfold⟩ := ih hpre
      rw [hfold]
      by_cases hlt : candidate_loss in_info x < candidate_loss in_info t
      · refine ⟨x, pre, [], rfl, ?_, by simp, ?_⟩
        · intro c hc
          rw [hcs] at hc
          rcases List.mem_append.mp hc with h | h
          · exact lt_trans hlt (ha c h)
          · rcases List.mem_cons.mp h with h | h
            · rw [h]; exact hlt
            · exact lt_of_lt_of_le hlt (hb c h)
        · unfold score_step
          unfold candidate_loss at hlt ⊢
          split_ifs at hlt ⊢ <;> rfl
      · refine ⟨t, a, b ++ [x], by rw [hcs]; simp, ha, ?_, ?_⟩
        · intro c hc
          rcases List.mem_append.mp hc with h | h
          · exact hb c h
          · rw [List.mem_singleton.mp h]; omega
        · unfold score_step
          by_cases h1 : in_info = x
          · have hx : candidate_loss in_info x = 0 := by simp [candidate_loss, h1]
            have ht : candidate_loss in_info t = 0 := by
              have : 0 ≤ candidate_loss in_info t := by
                unfold candidate_loss; split_ifs
                · exact le_refl _
                · have := score_loss_pos in_info t; omega
              omega
            have := candidate_loss_zero in_info t ht
            rw [if_pos h1, ht, ← this, h1]
          · have hx : candidate_loss in_info x = score_loss in_info x := by
              simp [candidate_loss, h1]
            rw [if_neg h1, if_neg (by simpa [hx] using hlt)]

theorem mem_list_candidates (get_info : String → Option GstVideoFormatInfo)
    (t : GstVideoFormatInfo) (fname : String) (hget : get_info fname = some t) :
    ∀ vs : List GValue, GValue.string fname ∈ vs → t ∈ list_candidates get_info vs := by
  intro vs
  induction vs with
  | nil => intro h; simp at h
  | cons v vs ih =>
    intro h
    rcases List.mem_cons.mp h with h | h
    · subst h; simp [list_candidates, hget]
    · have := ih h
      cases v <;> simp [list_candidates, this]

theorem mem_structure_candidates (get_info : String → Option GstVideoFormatInfo)
    (t : GstVideoFormatInfo) (fname : String) (hget : get_info fname = some t)
    (tests : GstStructure) (hoff : structure_offers tests fname) :
    t ∈ structure_candidates get_info tests := by
  unfold structure_candidates
  rcases hoff with h | ⟨vs, h, hm⟩
  · simp [h, hget]
  · simp only [h]; exact mem_list_candidates get_info t fname hget vs hm

theorem mem_caps_candidates (get_info : String → Option GstVideoFormatInfo)
    (t : GstVideoFormatInfo) (fname : String) (hget : get_info fname = some t) :
    ∀ caps : GstCaps, (∃ tests ∈ caps, structure_offers tests fname) →
      t ∈ caps_candidates get_info caps := by
  intro caps
  induction caps with
  | nil => rintro ⟨_, h, _⟩; simp at h
  | cons s rest ih =>
    rintro ⟨tests, hm, hoff⟩
    simp only [caps_candidates, List.mem_append]
    rcases List.mem_cons.mp hm with h | h
    · left; subst h; exact mem_structure_candidates get_info t fname hget _ hoff
    · right; exact ih ⟨tests, h, hoff⟩

/-- C2: when some candidate structure offers the input format itself (as its `format` string or
inside its `format` list, in any structure and at any position), the scan ends with loss 0 on the
input descriptor, and format fixation writes the input format's name to the first structure of
the output. -/
theorem fixate_format_exact_match (get_info : String → Option GstVideoFormatInfo)
    (caps : GstCaps) (outs : GstStructure) (rest : GstCaps) (in_info : GstVideoFormatInfo)
    (hin : input_format_info get_info caps = some in_info)
    (hoff : ∃ tests ∈ outs :: rest, ∃ fname,
      structure_offers tests fname ∧ get_info fname = some in_info) :
    score_caps get_info in_info (outs :: rest) (G_MAXINT, none) = (0, some in_info) ∧
    gst_imx_ipu_video_transform_fixate_format_caps get_info caps (outs :: rest) =
      gst_structure_set_string outs "format" in_info.name :: rest := by
  obtain ⟨tests, hm, fname, hoff, hget⟩ := hoff
  have hmem := mem_caps_candidates get_info in_info fname hget (outs :: rest) ⟨tests, hm, hoff⟩
  have hscan : score_caps get_info in_info (outs :: rest) (G_MAXINT, none) = (0, some in_info) := by
    rw [score_caps_fold get_info in_info _ _ (score_init_good in_info)]
    exact score_fold_exact in_info _ hmem _
  refine ⟨hscan, ?_⟩
  simp [gst_imx_ipu_video_transform_fixate_format_caps, hin, hscan]

theorem fixate_format_exact_match_witness :
    gst_imx_ipu_video_transform_fixate_format_caps example_get_info
        [⟨[("format", .string "Y444")]⟩]
        [⟨[("width", .int 64), ("format", .list [.string "Y444", .string "RGBA"])]⟩] =
      [⟨[("width", .int 64), ("format", .string "Y444")]⟩] ∧
    gst_imx_ipu_video_transform_fixate_format_caps example_get_info
        [⟨[("format", .string "Y444")]⟩]
        [⟨[("width", .int 64), ("format", .list [.string "RGBA", .string "Y444"])]⟩] =
      [⟨[("width", .int 64), ("format", .string "Y444")]⟩] :=
  ⟨(fixate_format_exact_match example_get_info [⟨[("format", .string "Y444")]⟩]
      ⟨[("width", .int 64), ("format", .list [.string "Y444", .string "RGBA"])]⟩ [] fmt_Y444 rfl
      ⟨_, List.mem_cons_self _ _, "Y444", Or.inr ⟨_, rfl, List.mem_cons_self _ _⟩, rfl⟩).2,
   (fixate_format_exact_match example_get_info [⟨[("format", .string "Y444")]⟩]
      ⟨[("width", .int 64), ("format", .list [.string "RGBA", .string "Y444"])]⟩ [] fmt_Y444 rfl
      ⟨_, List.mem_cons_self _ _, "Y444",
        Or.inr ⟨_, rfl, List.mem_cons_of_mem _ (List.mem_cons_self _ _)⟩, rfl⟩).2⟩

/-- C3: when the candidate structures list at least one valid format, format fixation writes
the name of a candidate `t` whose loss is minimal over all listed candidates, and `t` is the
first such candidate in scan order: every candidate before it has a strictly greater loss. -/
theorem fixate_format_first_minimum (get_info : String → Option GstVideoFormatInfo)
    (caps : GstCaps) (outs : GstStructure) (rest : GstCaps) (in_info : GstVideoFormatInfo)
    (hin : input_format_info get_info caps = some in_info)
    (hne : caps_candidates get_info (outs :: rest) ≠ []) :
    ∃ t a b, caps_candidates get_info (outs :: rest) = a ++ t :: b ∧
      (∀ c ∈ a, candidate_loss in_info t < candidate_loss in_info c) ∧
      (∀ c ∈ b, candidate_loss in_info t ≤ candidate_loss in_info c) ∧
      (∀ c ∈ caps_candidates get_info (outs :: rest),
        candidate_loss in_info t ≤ candidate_loss in_info c) ∧
      score_caps get_info in_info (outs :: rest) (G_MAXINT, none) =
        (candidate_loss in_info t, some t) ∧
      gst_imx_ipu_video_transform_fixate_format_caps get_info caps (outs :: rest) =
        gst_structure_set_string outs "format" t.name :: rest := by
  obtain ⟨t, a, b, hcs, ha, hb, hfold⟩ := score_fold_first_min in_info _ hne
  have hscan : score_caps get_info in_info (outs :: rest) (G_MAXINT, none) =
      (candidate_loss in_info t, some t) := by
    rw [score_caps_fold get_info in_info _ _ (score_init_good in_info)]; exact hfold
  refine ⟨t, a, b, hcs, ha, hb, ?_, hscan, ?_⟩
  · intro c hc
    rw [hcs] at hc
    rcases List.mem_append.mp hc with h | h
    · exact le_of_lt (ha c h)
    · rcases List.mem_cons.mp h with h | h
      · rw [h]
      · exact hb c h
  · simp [gst_imx_ipu_video_transform_fixate_format_caps, hin, hscan]

theorem fixate_format_first_minimum_witness :
    input_format_info example_get_info [⟨[("format", .string "Y444")]⟩] = some fmt_Y444 ∧
    caps_candidates example_get_info
      [⟨[("format", .list [.string "I420", .string "RGBA", .string "RGBA"])]⟩] ≠ [] ∧
    ∃ t a b, caps_candidates example_get_info
        [⟨[("format", .list [.string "I420", .string "RGBA", .string "RGBA"])]⟩] = a ++ t :: b ∧
      (∀ c ∈ a, candidate_loss fmt_Y444 t < candidate_loss fmt_Y444 c) ∧
      (∀ c ∈ b, candidate_loss fmt_Y444 t ≤ candidate_loss fmt_Y444 c) ∧
      (∀ c ∈ caps_candidates example_get_info
          [⟨[("format", .list [.string "I420", .string "RGBA", .string "RGBA"])]⟩],
        candidate_loss fmt_Y444 t ≤ candidate_loss fmt_Y444 c) ∧
      score_caps example_get_info fmt_Y444
          [⟨[("format", .list [.string "I420", .string "RGBA", .string "RGBA"])]⟩]
          (G_MAXINT, none) = (candidate_loss fmt_Y444 t, some t) ∧
      gst_imx_ipu_video_transform_fixate_format_caps example_get_info
          [⟨[("format", .string "Y444")]⟩]
          [⟨[("format", .list [.string "I420", .string "RGBA", .string "RGBA"])]⟩] =
        gst_structure_set_string
          ⟨[("format", .list [.string "I420", .string "RGBA", .string "RGBA"])]⟩ "format"
          t.name :: [] :=
  ⟨rfl, by decide,
    fixate_format_first_minimum example_get_info [⟨[("format", .string "Y444")]⟩]
      ⟨[("format", .list [.string "I420", .string "RGBA", .string "RGBA"])]⟩ [] fmt_Y444 rfl
      (by decide)⟩

/-! ## Size fixation -/

theorem lookup_update (l : List (String × GValue)) (f g : String) (v : GValue) :
    lookup_field (update_field l f v) g = if f = g then some v else lookup_field l g := by
  induction l with
  | nil => simp [update_field, lookup_field]
  | cons p l ih =>
    obtain ⟨k, x⟩ := p
    by_cases hk : k = f
    · subst hk
      by_cases hg : k = g <;> simp [update_field, lookup_field, hg]
    · by_cases hg : f = g
      · subst hg; simp [update_field, lookup_field, hk, ih]
      · by_cases hkg : k = g
        · subst hkg; simp [update_field, lookup_field, hk, hg]
        · simp [update_field, lookup_field, hk, hg, hkg, ih]

theorem update_same (l : List (String × GValue)) (f : String) (v : GValue)
    (h : lookup_field l f = some v) : update_field l f v = l := by
  induction l with
  | nil => simp [lookup_field] at h
  | cons p l ih =>
    obtain ⟨k, x⟩ := p
    by_cases hk : k = f
    · simp [lookup_field, hk] at h
      simp [update_field, hk, h]
    · simp [lookup_field, hk] at h
      simp [update_field, hk, ih h]

theorem get_set_value (s : GstStructure) (f g : String) (v : GValue) :
    gst_structure_get_value (gst_structure_set_value s f v) g =
      if f = g then some v else gst_structure_get_value s g := by
  simp [gst_structure_get_value, gst_structure_set_value, lookup_update]

theorem set_value_same (s : GstStructure) (f : String) (v : GValue)
    (h : gst_structure_get_value s f = some v) : gst_structure_set_value s f v = s := by
  cases s with
  | mk fields =>
    simp only [gst_structure_get_value] at h
    simp [gst_structure_set_value, update_same fields f v h]

/-- Format fixation keeps the tail of `othercaps` and every field of its first structure except
`format`. -/
theorem fixate_format_frame (get_info : String → Option GstVideoFormatInfo) (caps : GstCaps)
    (outs : GstStructure) (rest : GstCaps) :
    ∃ outs1, gst_imx_ipu_video_transform_fixate_format_caps get_info caps (outs :: rest) =
        outs1 :: rest ∧
      ∀ f, f ≠ "format" → gst_structure_get_value outs1 f = gst_structure_get_value outs f := by
  unfold gst_imx_ipu_video_transform_fixate_format_caps
  cases input_format_info get_info caps with
  | none => exact ⟨outs, rfl, fun _ _ => rfl⟩
  | some in_info =>
    cases h : (score_caps get_info in_info (outs :: rest) (G_MAXINT, none)).2 with
    | none => exact ⟨outs, by simp only [h], fun _ _ => rfl⟩
    | some t =>
      refine ⟨gst_structure_set_string outs "format" t.name, by simp only [h], ?_⟩
      intro f hf
      simp [gst_structure_set_string, get_set_value, Ne.symm hf]


theorem nearest_int_range (s : GstStructure) (f : String) (lo hi target : Int)
    (h : gst_structure_get_value s f = some (.intRange lo hi)) :
    gst_structure_fixate_field_nearest_int s f target =
      gst_structure_set_int s f
        (if (if target < lo then lo else target) > hi then hi
          else (if target < lo then lo else target)) := by
  simp [gst_structure_fixate_field_nearest_int, h]

theorem get_int_set_int (s : GstStructure) (f g : String) (v : Int) :
    gst_structure_get_int (gst_structure_set_int s f v) g =
      if f = g then some v else gst_structure_get_int s g := by
  unfold gst_structure_get_int gst_structure_set_int
  rw [get_set_value]
  split_ifs <;> rfl

/-- C4 (amended): input 1920x1080 with PAR 1:1, output height fixed at 540, width a range that
contains 1920 and an unconstrained PAR range: size fixation keeps the input width 1920 and sets
PAR 1:2, which preserves the 16:9 display aspect ratio exactly. -/
theorem fixate_size_height_540_keeps_width
    (get_info : String → Option GstVideoFormatInfo)
    (pick : List GValue → Int → Int → Option GValue) (u : Uninit) (direction : GstPadDirection)
    (ins outs : GstStructure) (crest rest : GstCaps) (lo hi : Int)
    (hiw : gst_structure_get_value ins "width" = some (.int 1920))
    (hih : gst_structure_get_value ins "height" = some (.int 1080))
    (hip : gst_structure_get_value ins "pixel-aspect-ratio" = some (.fraction 1 1))
    (how : gst_structure_get_value outs "width" = some (.intRange lo hi))
    (hlo : lo ≤ 1920) (hhi : 1920 ≤ hi)
    (hoh : gst_structure_get_value outs "height" = some (.int 540))
    (hop : gst_structure_get_value outs "pixel-aspect-ratio" =
      some (.fractionRange 1 G_MAXINT G_MAXINT 1)) :
    ∃ outs1,
      (gst_imx_ipu_video_transform_fixate_size_caps get_info pick u direction (ins :: crest)
        (outs :: rest)).caps = outs1 :: rest ∧
      (gst_imx_ipu_video_transform_fixate_size_caps get_info pick u direction (ins :: crest)
        (outs :: rest)).error = false ∧
      gst_structure_get_value outs1 "width" = some (.int 1920) ∧
      gst_structure_get_value outs1 "height" = some (.int 540) ∧
      gst_structure_get_value outs1 "pixel-aspect-ratio" = some (.fraction 1 2) := by
  have hm1 : gst_util_fraction_multiply 1920 1080 1 1 = some (16, 9) := by decide
  have hm2 : gst_util_fraction_multiply 16 9 540 1920 = some (1, 2) := by decide
  have hclamp : (if (if (1920:Int) < lo then lo else 1920) > hi then hi
      else (if (1920:Int) < lo then lo else 1920)) = 1920 := by
    split_ifs <;> omega
  have hs : fixate_size_structure pick u direction ins outs =
      ⟨gst_structure_set_fraction (gst_structure_set_int outs "width" 1920)
        "pixel-aspect-ratio" 1 2, false, true⟩ := by
    have htp : to_par_value direction outs = .fractionRange 1 G_MAXINT G_MAXINT 1 := by
      unfold to_par_value; rw [hop]; simp
    have hod : outs_with_default_par direction outs = outs := by
      unfold outs_with_default_par; rw [hop]; simp
    have htmp : gst_structure_fixate_field_nearest_int outs "width" 1920 =
        gst_structure_set_int outs "width" 1920 := by
      rw [nearest_int_range outs "width" lo hi 1920 how, hclamp]
    have hhf : gst_structure_has_field outs "pixel-aspect-ratio" = true := by
      simp [gst_structure_has_field, hop]
    have htmpp : gst_structure_get_value (gst_structure_set_int outs "width" 1920)
        "pixel-aspect-ratio" = some (.fractionRange 1 G_MAXINT G_MAXINT 1) := by
      rw [gst_structure_set_int, get_set_value, if_neg (by decide), hop]
    have htw : tmp_with_par pick (gst_structure_set_int outs "width" 1920)
        (.fractionRange 1 G_MAXINT G_MAXINT 1) 1 2 =
        gst_structure_set_value (gst_structure_set_int outs "width" 1920)
          "pixel-aspect-ratio" (.fraction 1 2) := by
      unfold tmp_with_par
      simp only [gst_structure_has_field, htmpp, Option.isSome_some, Bool.not_true,
        Bool.false_eq_true, if_false]
      unfold gst_structure_fixate_field_nearest_fraction
      simp only [htmpp]
      simp [gst_util_greatest_common_divisor, G_MAXINT]
    have hb : fixate_height_fixed pick u 1920 16 9 540
        (.fractionRange 1 G_MAXINT G_MAXINT 1) outs =
        (gst_structure_set_fraction (gst_structure_set_int outs "width" 1920)
          "pixel-aspect-ratio" 1 2, false) := by
      unfold fixate_height_fixed
      simp only [gst_value_is_fixed, Bool.false_eq_true, if_false, htmp, get_int_set_int,
        if_true, Option.getD_some, hm2, htw]
      simp [gst_structure_get_fraction, get_set_value, hhf]
    unfold fixate_size_structure
    rw [hip, htp, hod]
    simp only [gst_structure_get_int, hiw, hih, how, hoh, Option.getD_some, Option.getD_none,
      gst_value_is_fixed, gst_value_get_fraction_numerator, gst_value_get_fraction_denominator,
      Bool.not_true, Bool.false_eq_true, if_false]
    unfold fixate_size_dims
    simp only [ne_eq, not_true_eq_false, false_and, if_false, hm1, hb]
    simp
  obtain ⟨outs1, h1, h2⟩ := fixate_format_frame get_info (ins :: crest)
    (gst_structure_set_fraction (gst_structure_set_int outs "width" 1920)
      "pixel-aspect-ratio" 1 2) rest
  have hsf : gst_structure_set_fraction (gst_structure_set_int outs "width" 1920)
      "pixel-aspect-ratio" 1 2 = gst_structure_set_value (gst_structure_set_int outs "width" 1920)
      "pixel-aspect-ratio" (.fraction 1 2) := by
    simp [gst_structure_set_fraction, gst_util_greatest_common_divisor]
  refine ⟨outs1, ?_, ?_, ?_, ?_, ?_⟩
  · simp [gst_imx_ipu_video_transform_fixate_size_caps, hs, h1]
  · simp [gst_imx_ipu_video_transform_fixate_size_caps, hs]
  · rw [h2 "width" (by decide), hsf, get_set_value, if_neg (by decide), gst_structure_set_int,
      get_set_value, if_pos rfl]
  · rw [h2 "height" (by decide), hsf, get_set_value, if_neg (by decide), gst_structure_set_int,
      get_set_value, if_neg (by decide), hoh]
  · rw [h2 "pixel-aspect-ratio" (by decide), hsf, get_set_value, if_pos rfl]

theorem fixate_size_height_540_keeps_width_witness :
    ∃ outs1,
      (gst_imx_ipu_video_transform_fixate_size_caps example_get_info no_pick uninit_zero
        .GST_PAD_SINK (ex_in_1080p :: []) (ex_out_h540 :: [])).caps = outs1 :: [] ∧
      (gst_imx_ipu_video_transform_fixate_size_caps example_get_info no_pick uninit_zero
        .GST_PAD_SINK (ex_in_1080p :: []) (ex_out_h540 :: [])).error = false ∧
      gst_structure_get_value outs1 "width" = some (.int 1920) ∧
      gst_structure_get_value outs1 "height" = some (.int 540) ∧
      gst_structure_get_value outs1 "pixel-aspect-ratio" = some (.fraction 1 2) :=
  fixate_size_height_540_keeps_width example_get_info no_pick uninit_zero .GST_PAD_SINK
    ex_in_1080p ex_out_h540 [] [] 64 2147483647 rfl rfl rfl rfl (by decide) (by decide) rfl rfl

/-- C4 (as stated) fails: with the width range `[64, G_MAXINT]` the output of size fixation is
1920 wide with PAR 1:2, not 960 wide with PAR 1:1. -/
theorem fixate_size_height_540_counterexample :
    ¬ ∃ outs1,
      (gst_imx_ipu_video_transform_fixate_size_caps example_get_info no_pick uninit_zero
        .GST_PAD_SINK [ex_in_1080p] [ex_out_h540]).caps = [outs1] ∧
      gst_structure_get_int outs1 "width" = some 960 ∧
      gst_structure_get_fraction outs1 "pixel-aspect-ratio" = some (1, 1) := by
  rintro ⟨outs1, h, hw, _⟩
  have hr : (gst_imx_ipu_video_transform_fixate_size_caps example_get_info no_pick uninit_zero
      .GST_PAD_SINK [ex_in_1080p] [ex_out_h540]).caps =
      [⟨[("width", .int 1920), ("height", .int 540), ("pixel-aspect-ratio", .fraction 1 2)]⟩] :=
    rfl
  rw [hr] at h
  have h1 := (List.cons.inj h).1
  rw [← h1] at hw
  have h2 : gst_structure_get_int
      ⟨[("width", .int 1920), ("height", .int 540), ("pixel-aspect-ratio", .fraction 1 2)]⟩
      "width" = some 1920 := rfl
  rw [h2] at hw
  exact absurd (Option.some.inj hw) (by decide)

theorem exact_tdiv {a g : Int} (ha : 0 < a) (hg : 0 < g) (hd : g ∣ a) :
    0 < Int.tdiv a g ∧ Int.tdiv a g * g = a := by
  rw [Int.tdiv_eq_ediv (le_of_lt ha) (le_of_lt hg)]
  have h := Int.ediv_mul_cancel hd
  refine ⟨?_, h⟩
  by_contra hc
  have : a / g * g ≤ 0 := Int.mul_nonpos_of_nonpos_of_nonneg (by omega) (le_of_lt hg)
  omega

theorem gcd_pos_left {a : Int} (b : Int) (ha : 0 < a) : (0:Int) < (Int.gcd a b : Int) := by
  have := Int.gcd_pos_of_ne_zero_left b (ne_of_gt ha)
  exact_mod_cast this

theorem fraction_multiply_spec {a_n a_d b_n b_d n d : Int} (h1 : 0 < a_n) (h2 : 0 < a_d)
    (h3 : 0 < b_n) (h4 : 0 < b_d)
    (h : gst_util_fraction_multiply a_n a_d b_n b_d = some (n, d)) :
    0 < n ∧ 0 < d ∧ n * (a_d * b_d) = d * (a_n * b_n) ∧ Int.gcd n d = 1 := by
  unfold gst_util_fraction_multiply at h
  rw [if_neg (by omega), if_neg (by omega)] at h
  simp only [gst_util_greatest_common_divisor] at h
  obtain ⟨p1, e1⟩ := exact_tdiv h1 (gcd_pos_left a_d h1) (Int.gcd_dvd_left)
  obtain ⟨p2, e2⟩ := exact_tdiv h2 (gcd_pos_left a_d h1) (Int.gcd_dvd_right)
  obtain ⟨p3, e3⟩ := exact_tdiv h3 (gcd_pos_left b_d h3) (Int.gcd_dvd_left)
  obtain ⟨p4, e4⟩ := exact_tdiv h4 (gcd_pos_left b_d h3) (Int.gcd_dvd_right)
  have hg1 := gcd_pos_left a_d h1
  have hg2 := gcd_pos_left b_d h3
  generalize (Int.gcd a_n a_d : Int) = g1 at *
  generalize (Int.gcd b_n b_d : Int) = g2 at *
  generalize Int.tdiv a_n g1 = an1 at *
  generalize Int.tdiv a_d g1 = ad1 at *
  generalize Int.tdiv b_n g2 = bn1 at *
  generalize Int.tdiv b_d g2 = bd1 at *
  obtain ⟨p5, e5⟩ := exact_tdiv p1 (gcd_pos_left bd1 p1) (Int.gcd_dvd_left)
  obtain ⟨p6, e6⟩ := exact_tdiv p4 (gcd_pos_left bd1 p1) (Int.gcd_dvd_right)
  obtain ⟨p7, e7⟩ := exact_tdiv p2 (gcd_pos_left bn1 p2) (Int.gcd_dvd_left)
  obtain ⟨p8, e8⟩ := exact_tdiv p3 (gcd_pos_left bn1 p2) (Int.gcd_dvd_right)
  have hg3 := gcd_pos_left bd1 p1
  have hg4 := gcd_pos_left bn1 p2
  generalize (Int.gcd an1 bd1 : Int) = g3 at *
  generalize (Int.gcd ad1 bn1 : Int) = g4 at *
  generalize Int.tdiv an1 g3 = an2 at *
  generalize Int.tdiv bd1 g3 = bd2 at *
  generalize Int.tdiv ad1 g4 = ad2 at *
  generalize Int.tdiv bn1 g4 = bn2 at *
  split_ifs at h with c1 c2
  simp only [Option.some.injEq, Prod.mk.injEq] at h
  obtain ⟨hn, hd⟩ := h
  have pn : 0 < an2 * bn2 := Int.mul_pos p5 p8
  have pd : 0 < ad2 * bd2 := Int.mul_pos p7 p6
  obtain ⟨q1, f1⟩ := exact_tdiv pn (gcd_pos_left (ad2 * bd2) pn) (Int.gcd_dvd_left)
  obtain ⟨q2, f2⟩ := exact_tdiv pd (gcd_pos_left (ad2 * bd2) pn) (Int.gcd_dvd_right)
  have hg5 := gcd_pos_left (ad2 * bd2) pn
  have hcop : Int.gcd (Int.tdiv (an2 * bn2) (Int.gcd (an2 * bn2) (ad2 * bd2)))
      (Int.tdiv (ad2 * bd2) (Int.gcd (an2 * bn2) (ad2 * bd2))) = 1 := by
    rw [Int.tdiv_eq_ediv (le_of_lt pn) (le_of_lt hg5),
      Int.tdiv_eq_ediv (le_of_lt pd) (le_of_lt hg5)]
    exact Int.gcd_div_gcd_div_gcd (by exact_mod_cast hg5)
  rw [hn, hd] at hcop
  generalize (Int.gcd (an2 * bn2) (ad2 * bd2) : Int) = g5 at *
  rw [hn] at q1 f1
  rw [hd] at q2 f2
  refine ⟨q1, q2, ?_, hcop⟩
  have key : n * (a_d * b_d) * g5 = d * (a_n * b_n) * g5 := by
    rw [← e1, ← e2, ← e3, ← e4, ← e5, ← e6, ← e7, ← e8]
    have t1 : n * (ad2 * g4 * g1 * (bd2 * g3 * g2)) * g5
        = (n * g5) * (ad2 * bd2) * (g1 * g2 * g3 * g4) := by ring
    have t2 : d * (an2 * g3 * g1 * (bn2 * g4 * g2)) * g5
        = (d * g5) * (an2 * bn2) * (g1 * g2 * g3 * g4) := by ring
    rw [t1, t2, f1, f2]; ring
  exact Int.eq_of_mul_eq_mul_right (ne_of_gt hg5) key

theorem ediv_cross {v num den x y : Int} (hden : 0 < den) (hy : 0 < y)
    (hc : num * y = den * x) : v * num / den = v * x / y := by
  have e1 : v * num / den = (v * num * y) / (den * y) :=
    (Int.mul_ediv_mul_of_pos_left (v * num) den hy).symm
  have e2 : v * x / y = (v * x * den) / (y * den) :=
    (Int.mul_ediv_mul_of_pos_left (v * x) y hden).symm
  rw [e1, e2]
  have : v * num * y = v * x * den := by
    have : v * num * y = v * (num * y) := by ring
    rw [this, hc]; ring
  rw [this, mul_comm den y]

theorem scale_gint_eq {v num den : Int} (hv : 0 ≤ v) (hv2 : v ≤ G_MAXINT) (hnum : 0 ≤ num)
    (hden : 0 < den) (hfit : v * num / den < 2147483648) :
    scale_gint v num den = v * num / den := by
  have hq : 0 ≤ v * num / den := Int.ediv_nonneg (Int.mul_nonneg hv hnum) (le_of_lt hden)
  have hcast : ((v.toNat * num.toNat / den.toNat : Nat) : Int) = v * num / den := by
    push_cast
    rw [Int.toNat_of_nonneg hv, Int.toNat_of_nonneg hnum, Int.toNat_of_nonneg (le_of_lt hden)]
  have hv3 : gint_to_guint64 v = v.toNat := by
    unfold gint_to_guint64
    unfold G_MAXINT at hv2
    rw [Int.emod_eq_of_lt hv (by omega)]
  have hr : v.toNat * num.toNat / den.toNat < 2147483648 := by
    have : ((v.toNat * num.toNat / den.toNat : Nat) : Int) < 2147483648 := by
      rw [hcast]; exact hfit
    exact_mod_cast this
  unfold scale_gint
  rw [hv3]
  unfold gst_util_uint64_scale_int
  rw [if_neg (by omega)]
  simp only []
  rw [if_neg (by unfold G_MAXUINT64; omega)]
  unfold guint64_to_gint
  simp only []
  rw [Nat.mod_eq_of_lt (by omega), if_pos hr, hcast]

theorem to_par_value_some (direction : GstPadDirection) (outs : GstStructure) (v : GValue)
    (h : gst_structure_get_value outs "pixel-aspect-ratio" = some v) :
    to_par_value direction outs = v := by
  unfold to_par_value; rw [h]; simp

theorem outs_with_default_par_some (direction : GstPadDirection) (outs : GstStructure)
    (v : GValue) (h : gst_structure_get_value outs "pixel-aspect-ratio" = some v) :
    outs_with_default_par direction outs = outs := by
  unfold outs_with_default_par; rw [h]; simp

/-- C5 (amended): input with positive width, height and PAR, output with only the height `h`
fixed and the PAR fixed to `par_n/par_d`, no fraction overflow: the width that size fixation
asks the output to be fixated nearest to is the truncated quotient
`h * DAR_num * par_d / (DAR_den * par_n)` (not the rounded one), provided it fits a `gint`;
`DAR_num/DAR_den` is the input display aspect ratio in lowest terms. -/
theorem fixate_size_height_par_fixed_width
    (get_info : String → Option GstVideoFormatInfo)
    (pick : List GValue → Int → Int → Option GValue) (u : Uninit) (direction : GstPadDirection)
    (ins outs : GstStructure) (crest rest : GstCaps)
    (from_w from_h fpn fpd h par_n par_d dn dd num den : Int)
    (hiw : gst_structure_get_value ins "width" = some (.int from_w))
    (hih : gst_structure_get_value ins "height" = some (.int from_h))
    (hip : gst_structure_get_value ins "pixel-aspect-ratio" = some (.fraction fpn fpd))
    (pw : 0 < from_w) (ph : 0 < from_h) (pn : 0 < fpn) (pd : 0 < fpd)
    (how : gst_structure_get_int outs "width" = none)
    (hoh : gst_structure_get_value outs "height" = some (.int h))
    (hh : 0 < h) (hh2 : h ≤ G_MAXINT)
    (hop : gst_structure_get_value outs "pixel-aspect-ratio" = some (.fraction par_n par_d))
    (ppn : 0 < par_n) (ppd : 0 < par_d)
    (hm1 : gst_util_fraction_multiply from_w from_h fpn fpd = some (dn, dd))
    (hm2 : gst_util_fraction_multiply dn dd par_d par_n = some (num, den))
    (hfit : h * dn * par_d / (dd * par_n) < 2147483648) :
    Int.gcd dn dd = 1 ∧ dn * (from_h * fpd) = dd * (from_w * fpn) ∧
    gst_imx_ipu_video_transform_fixate_size_caps get_info pick u direction (ins :: crest)
        (outs :: rest) =
      ⟨gst_imx_ipu_video_transform_fixate_format_caps get_info (ins :: crest)
        (gst_structure_fixate_field_nearest_int outs "width"
          (h * dn * par_d / (dd * par_n)) :: rest), false⟩ := by
  obtain ⟨pdn, pdd, hdar, hcop⟩ := fraction_multiply_spec pw ph pn pd hm1
  obtain ⟨pnum, pden, hnd, _⟩ := fraction_multiply_spec pdn pdd ppd ppn hm2
  have hq : h * num / den = h * dn * par_d / (dd * par_n) := by
    rw [ediv_cross pden (Int.mul_pos pdd ppn) hnd, ← mul_assoc]
  have hsc : scale_gint h num den = h * dn * par_d / (dd * par_n) := by
    rw [scale_gint_eq (le_of_lt hh) hh2 (le_of_lt pnum) pden (by rw [hq]; exact hfit), hq]
  have hb : fixate_height_fixed pick u from_w dn dd h (.fraction par_n par_d) outs =
      (gst_structure_fixate_field_nearest_int outs "width"
        (h * dn * par_d / (dd * par_n)), false) := by
    unfold fixate_height_fixed
    simp only [gst_value_is_fixed, if_true, gst_value_get_fraction_numerator,
      gst_value_get_fraction_denominator, hm2, hsc]
  have hhi : gst_structure_get_int outs "height" = some h := by
    simp [gst_structure_get_int, hoh]
  have hiw2 : gst_structure_get_int ins "width" = some from_w := by
    simp [gst_structure_get_int, hiw]
  have hih2 : gst_structure_get_int ins "height" = some from_h := by
    simp [gst_structure_get_int, hih]
  have hs : fixate_size_structure pick u direction ins outs =
      ⟨gst_structure_fixate_field_nearest_int outs "width"
        (h * dn * par_d / (dd * par_n)), false, true⟩ := by
    unfold fixate_size_structure
    rw [hip, to_par_value_some direction outs _ hop,
      outs_with_default_par_some direction outs _ hop, how, hhi, hiw2, hih2]
    simp only [Option.getD_some, Option.getD_none, gst_value_is_fixed,
      gst_value_get_fraction_numerator, gst_value_get_fraction_denominator,
      Bool.not_true, Bool.false_eq_true, if_false]
    unfold fixate_size_dims
    simp only [ne_eq, not_true_eq_false, false_and, if_false, hm1, hb, ne_of_gt hh,
      not_false_eq_true, if_true]
  refine ⟨hcop, ?_, ?_⟩
  · rw [hdar]
  · simp [gst_imx_ipu_video_transform_fixate_size_caps, hs]

theorem fixate_size_height_par_fixed_width_witness :
    Int.gcd 16 9 = 1 ∧ (16 : Int) * (9 * 1) = 9 * (16 * 1) ∧
    gst_imx_ipu_video_transform_fixate_size_caps example_get_info no_pick uninit_zero
        .GST_PAD_SINK (ex_in_16x9 :: []) (ex_out_h10 :: []) =
      ⟨gst_imx_ipu_video_transform_fixate_format_caps example_get_info (ex_in_16x9 :: [])
        (gst_structure_fixate_field_nearest_int ex_out_h10 "width"
          (10 * 16 * 1 / (9 * 1)) :: []), false⟩ :=
  fixate_size_height_par_fixed_width example_get_info no_pick uninit_zero .GST_PAD_SINK
    ex_in_16x9 ex_out_h10 [] [] 16 9 1 1 10 1 1 16 9 16 9 rfl rfl rfl (by decide) (by decide)
    (by decide) (by decide) rfl rfl (by decide) (by decide) rfl (by decide) (by decide)
    (by decide) (by decide) (by decide)

/-- C5 (as stated) fails: for input 16x9 (DAR 16/9), height 10 and PAR 1:1 the claimed target is
`round(160 / 9) = 18`, which lies inside the width range `[1, 100]`; the code asks for
`160 / 9 = 17`, truncated, and writes width 17. -/
theorem fixate_size_height_par_fixed_round_counterexample :
    round_div (10 * 16 * 1) (9 * 1) = 18 ∧
    gst_imx_ipu_video_transform_fixate_size_caps example_get_info no_pick uninit_zero
        .GST_PAD_SINK [ex_in_16x9] [ex_out_h10] ≠
      ⟨gst_imx_ipu_video_transform_fixate_format_caps example_get_info [ex_in_16x9]
        [gst_structure_fixate_field_nearest_int ex_out_h10 "width"
          (round_div (10 * 16 * 1) (9 * 1))], false⟩ := by
  refine ⟨by decide, ?_⟩
  intro h
  have h1 := congrArg
    (fun r : FixateResult => r.caps.head?.bind (fun o => gst_structure_get_int o "width")) h
  have h2 : (gst_imx_ipu_video_transform_fixate_size_caps example_get_info no_pick uninit_zero
      .GST_PAD_SINK [ex_in_16x9] [ex_out_h10]).caps.head?.bind
      (fun o => gst_structure_get_int o "width") = some 17 := rfl
  have h3 : (gst_imx_ipu_video_transform_fixate_format_caps example_get_info [ex_in_16x9]
      [gst_structure_fixate_field_nearest_int ex_out_h10 "width"
        (round_div (10 * 16 * 1) (9 * 1))]).head?.bind
      (fun o => gst_structure_get_int o "width") = some 18 := rfl
  simp only [h2, h3] at h1
  exact absurd (Option.some.inj h1) (by decide)

theorem nearest_int_of_int (s : GstStructure) (f : String) (v target : Int)
    (h : gst_structure_get_value s f = some (.int v)) :
    gst_structure_fixate_field_nearest_int s f target = s := by
  simp [gst_structure_fixate_field_nearest_int, h]

theorem set_int_same (s : GstStructure) (f : String) (v : Int)
    (h : gst_structure_get_value s f = some (.int v)) : gst_structure_set_int s f v = s :=
  set_value_same s f (.int v) h

theorem get_int_of_int (s : GstStructure) (f : String) (v : Int)
    (h : gst_structure_get_value s f = some (.int v)) : gst_structure_get_int s f = some v := by
  simp [gst_structure_get_int, h]

theorem set_width_height_same (s : GstStructure) (w h : Int)
    (hw : gst_structure_get_value s "width" = some (.int w))
    (hh : gst_structure_get_value s "height" = some (.int h)) :
    set_width_height s w h = s := by
  unfold set_width_height
  rw [set_int_same s "width" w hw, set_int_same s "height" h hh]

theorem height_fixed_keeps_fixed (pick : List GValue → Int → Int → Option GValue) (u : Uninit)
    (from_w dn dd h w n d : Int) (outs : GstStructure)
    (hw : gst_structure_get_value outs "width" = some (.int w)) :
    (fixate_height_fixed pick u from_w dn dd h (.fraction n d) outs).1 = outs := by
  unfold fixate_height_fixed
  simp only [gst_value_is_fixed, if_true]
  split
  · rfl
  · simp only [nearest_int_of_int outs "width" w _ hw]

theorem width_fixed_keeps_fixed (pick : List GValue → Int → Int → Option GValue) (u : Uninit)
    (from_h dn dd w h n d : Int) (outs : GstStructure)
    (hh : gst_structure_get_value outs "height" = some (.int h)) :
    (fixate_width_fixed pick u from_h dn dd w (.fraction n d) outs).1 = outs := by
  unfold fixate_width_fixed
  simp only [gst_value_is_fixed, if_true]
  split
  · rfl
  · simp only [nearest_int_of_int outs "height" h _ hh]

theorem par_fixed_keeps_fixed (u : Uninit) (from_w from_h dn dd w h : Int) (to_par : GValue)
    (outs : GstStructure)
    (hw : gst_structure_get_value outs "width" = some (.int w))
    (hh : gst_structure_get_value outs "height" = some (.int h)) :
    (fixate_par_fixed u from_w from_h dn dd to_par outs).1 = outs := by
  unfold fixate_par_fixed
  simp only []
  split
  · rfl
  · simp only [nearest_int_of_int outs "height" h _ hh, nearest_int_of_int outs "width" w _ hw,
      get_int_of_int outs "width" w hw, get_int_of_int outs "height" h hh, Option.getD_some,
      set_width_height_same outs w h hw hh]
    split_ifs <;> rfl

theorem size_dims_keeps_fixed (pick : List GValue → Int → Int → Option GValue) (u : Uninit)
    (from_w from_h fpn fpd w h n d : Int) (outs : GstStructure)
    (hw : gst_structure_get_value outs "width" = some (.int w))
    (hh : gst_structure_get_value outs "height" = some (.int h)) :
    (fixate_size_dims pick u from_w from_h fpn fpd w h (.fraction n d) outs).outs = outs := by
  unfold fixate_size_dims
  simp only [gst_value_is_fixed, Bool.not_true, Bool.false_eq_true, if_false, if_true]
  split_ifs with h1 h2 h3
  · rfl
  · split
    · rfl
    · exact height_fixed_keeps_fixed pick u from_w _ _ h w n d outs hw
  · split
    · rfl
    · exact width_fixed_keeps_fixed pick u from_h _ _ w h n d outs hh
  · split
    · rfl
    · exact par_fixed_keeps_fixed u from_w from_h _ _ w h _ outs hw hh

theorem size_structure_keeps_fixed (pick : List GValue → Int → Int → Option GValue)
    (u : Uninit) (direction : GstPadDirection) (ins outs : GstStructure) (w h n d : Int)
    (hw : gst_structure_get_value outs "width" = some (.int w))
    (hh : gst_structure_get_value outs "height" = some (.int h))
    (hp : gst_structure_get_value outs "pixel-aspect-ratio" = some (.fraction n d)) :
    (fixate_size_structure pick u direction ins outs).outs = outs := by
  unfold fixate_size_structure
  rw [to_par_value_some direction outs _ hp, outs_with_default_par_some direction outs _ hp]
  rw [get_int_of_int outs "width" w hw, get_int_of_int outs "height" h hh]
  split_ifs
  · rfl
  · exact size_dims_keeps_fixed pick u _ _ _ _ _ _ n d outs hw hh

theorem format_single_unchanged (get_info : String → Option GstVideoFormatInfo)
    (caps : GstCaps) (outs : GstStructure) (fname : String)
    (hf : gst_structure_get_value outs "format" = some (.string fname))
    (hname : ∀ i, get_info fname = some i → i.name = fname) :
    gst_imx_ipu_video_transform_fixate_format_caps get_info caps [outs] = [outs] := by
  unfold gst_imx_ipu_video_transform_fixate_format_caps
  cases input_format_info get_info caps with
  | none => rfl
  | some in_info =>
    have hsc : score_caps get_info in_info [outs] (G_MAXINT, none) =
        score_value get_info in_info fname (G_MAXINT, none) := by
      simp [score_caps, score_structure, hf]
    simp only [hsc]
    cases hg : get_info fname with
    | none => simp [score_value, hg]
    | some t =>
      have h2 : (score_value get_info in_info fname (G_MAXINT, none)).2 = some t := by
        rw [score_value_fold, hg]
        simp only [Option.toList, List.foldl_cons, List.foldl_nil, score_step]
        have := score_loss_le in_info t
        split_ifs with h1 h3
        · rfl
        · rfl
        · simp only [G_MAXINT] at h3; omega
      simp only [h2]
      rw [hname t hg, gst_structure_set_string, set_value_same outs "format" _ hf]

/-- C6: when the output description has a fixed width, height and pixel-aspect-ratio and a single
pixel format (a string that names its format in the library table), `fixate_caps` - truncation,
size fixation, format fixation - returns exactly that description, for every direction, input
description and value of the uninitialised locals. -/
theorem fixate_caps_fixed_unchanged (get_info : String → Option GstVideoFormatInfo)
    (pick : List GValue → Int → Int → Option GValue) (u : Uninit) (direction : GstPadDirection)
    (caps : GstCaps) (outs : GstStructure) (rest : GstCaps) (w h n d : Int) (fname : String)
    (hw : gst_structure_get_value outs "width" = some (.int w))
    (hh : gst_structure_get_value outs "height" = some (.int h))
    (hp : gst_structure_get_value outs "pixel-aspect-ratio" = some (.fraction n d))
    (hf : gst_structure_get_value outs "format" = some (.string fname))
    (hname : ∀ i, get_info fname = some i → i.name = fname) :
    (gst_imx_ipu_video_transform_fixate_caps get_info pick u direction caps
      (outs :: rest)).caps = [outs] := by
  have hs := size_structure_keeps_fixed pick u direction (caps.headD ⟨[]⟩) outs w h n d hw hh hp
  have hfmt := format_single_unchanged get_info caps outs fname hf hname
  unfold gst_imx_ipu_video_transform_fixate_caps gst_imx_ipu_video_transform_fixate_size_caps
  simp only [gst_caps_truncate, List.take_succ_cons, List.take_zero, hs]
  split_ifs <;> simp only [hfmt]

theorem fixate_caps_fixed_unchanged_witness :
    (gst_imx_ipu_video_transform_fixate_caps example_get_info no_pick uninit_zero .GST_PAD_SINK
      [ex_in_1080p_y444] (ex_out_720p_rgba :: [ex_out_h540])).caps = [ex_out_720p_rgba] :=
  fixate_caps_fixed_unchanged example_get_info no_pick uninit_zero .GST_PAD_SINK
    [ex_in_1080p_y444] ex_out_720p_rgba [ex_out_h540] 1280 720 1 1 "RGBA" rfl rfl rfl rfl
    (by intro i hi; cases hi; rfl)

/-- C7 (evaluation at the failing input): direction sink, input 1920x1080 with PAR 1:1, output
with height fixed at 1080, width range `[64, G_MAXINT]` and no PAR field.  The PAR that keeps the
display aspect ratio is 1:1, so the guard at line 624 skips the `gst_structure_set` that would
also have written the width: size fixation returns the output unchanged, without error, and the
width is still a range.  The same happens to the height at line 699.  In the branch where nothing
is fixed (lines 812-818) the dimensions are written before that guard, and both come out
fixed. -/
theorem fixate_size_leaves_range_when_par_is_square :
    gst_imx_ipu_video_transform_fixate_size_caps example_get_info no_pick uninit_zero
        .GST_PAD_SINK [ex_in_1080p] [ex_out_h1080_nopar] = ⟨[ex_out_h1080_nopar], false⟩ ∧
    gst_structure_get_value ex_out_h1080_nopar "width" = some (.intRange 64 2147483647) ∧
    gst_imx_ipu_video_transform_fixate_size_caps example_get_info no_pick uninit_zero
        .GST_PAD_SINK [ex_in_1080p] [ex_out_w1920_nopar] = ⟨[ex_out_w1920_nopar], false⟩ ∧
    gst_structure_get_value ex_out_w1920_nopar "height" = some (.intRange 64 2147483647) ∧
    gst_imx_ipu_video_transform_fixate_size_caps example_get_info no_pick uninit_zero
        .GST_PAD_SINK [ex_in_1080p] [ex_out_ranges_nopar] =
      ⟨[⟨[("width", .int 1920), ("height", .int 1080)]⟩], false⟩ :=
  ⟨rfl, rfl, rfl, rfl, rfl⟩

/-! ## Physical memory allocator -/

theorem block_at_lt (w : PhysMemState) (p : Nat) (b : GstImxPhysMemory)
    (h : block_at w p = some b) : p < w.blocks.length := by
  by_contra hc
  have : w.blocks[p]? = none := List.getElem?_eq_none (by omega)
  simp [block_at, this] at h

theorem block_at_new_internal (w : PhysMemState) (parent : Option Nat)
    (maxsize flags align offset size : Nat) (q : Nat) :
    block_at (gst_imx_phys_mem_new_internal w parent maxsize flags align offset size).1 q =
      if q = w.blocks.length then
        some { flags := flags ||| GST_MINI_OBJECT_FLAG_LOCKABLE, parent := parent,
               maxsize := maxsize, align := align, offset := offset, size := size,
               mapped_virt_addr := none, phys_addr := 0, cpu_addr := 0 }
      else block_at w q := by
  unfold gst_imx_phys_mem_new_internal block_at
  simp only
  rcases Nat.lt_trichotomy q w.blocks.length with h | h | h
  · rw [List.getElem?_append_left h, if_neg (by omega)]
  · subst h
    rw [List.getElem?_append_right (le_refl _)]
    simp
  · rw [List.getElem?_append_right (by omega), if_neg (by omega)]
    have h1 : w.blocks[q]? = none := List.getElem?_eq_none (by omega)
    rw [h1, List.getElem?_eq_none (by simp; omega)]

theorem block_at_update (w : PhysMemState) (p : Nat) (f : GstImxPhysMemory → GstImxPhysMemory)
    (q : Nat) :
    block_at (update_block w p f) q =
      if q = p then (block_at w p).map f else block_at w q := by
  unfold update_block
  cases h : block_at w p with
  | none =>
    simp only [Option.map_none']
    split_ifs with hq
    · rw [hq, h]
    · rfl
  | some b =>
    have hlt := block_at_lt w p b h
    simp only [block_at, Option.map_some']
    split_ifs with hq
    · subst hq
      rw [List.getElem?_set_self hlt]; rfl
    · rw [List.getElem?_set_ne (Ne.symm hq)]


theorem share_fault_blocks (w : PhysMemState) : block_at (fault w) = block_at w := rfl

/-- The effect of a `share` call on the header heap: nothing when the pointer or its parent is
dangling, one appended header otherwise. -/
theorem share_blocks (w : PhysMemState) (mem : Nat) (offset size : Int) :
    ((gst_imx_phys_mem_allocator_share w mem offset size).2 = none ∧
      block_at (gst_imx_phys_mem_allocator_share w mem offset size).1 = block_at w) ∨
    ∃ m pb, block_at w mem = some m ∧ block_at w (m.parent.getD mem) = some pb ∧
      (gst_imx_phys_mem_allocator_share w mem offset size).2 = some w.blocks.length ∧
      ∀ q, block_at (gst_imx_phys_mem_allocator_share w mem offset size).1 q =
        if q = w.blocks.length then
          some { flags := (pb.flags ||| GST_MINI_OBJECT_FLAG_LOCK_READONLY) |||
                   GST_MINI_OBJECT_FLAG_LOCKABLE,
                 parent := some (m.parent.getD mem), maxsize := m.maxsize, align := m.align,
                 offset := to_gsize ((m.offset : Int) + offset),
                 size := resolve_size m.size offset size, mapped_virt_addr := none,
                 phys_addr := m.phys_addr, cpu_addr := m.cpu_addr }
        else block_at w q := by
  unfold gst_imx_phys_mem_allocator_share
  cases hm : block_at w mem with
  | none => left; exact ⟨rfl, rfl⟩
  | some m =>
    simp only
    cases hp : block_at w (m.parent.getD mem) with
    | none => left; exact ⟨rfl, rfl⟩
    | some pb =>
      right
      refine ⟨m, pb, rfl, hp, rfl, ?_⟩
      intro q
      rw [block_at_update]
      have e : (gst_imx_phys_mem_new_internal w (some (m.parent.getD mem)) m.maxsize
          (pb.flags ||| GST_MINI_OBJECT_FLAG_LOCK_READONLY) m.align
          (to_gsize ((m.offset : Int) + offset)) (resolve_size m.size offset size)).2 =
          w.blocks.length := rfl
      rw [e]
      by_cases hq : q = w.blocks.length
      · rw [if_pos hq, if_pos hq, block_at_new_internal, if_pos rfl]
        rfl
      · rw [if_neg hq, if_neg hq, block_at_new_internal, if_neg hq]

theorem share_preserves_flat (w : PhysMemState) (mem : Nat) (offset size : Int)
    (h : ParentsFlat w) :
    ParentsFlat (gst_imx_phys_mem_allocator_share w mem offset size).1 := by
  rcases share_blocks w mem offset size with ⟨_, hb⟩ | ⟨m, pb, hm, hp, _, hb⟩
  · intro p b hpb q hq
    rw [hb] at hpb ⊢
    exact h p b hpb q hq
  · intro p b hpb q hq
    rw [hb] at hpb
    have old : ∀ q' x, block_at w q' = some x →
        block_at (gst_imx_phys_mem_allocator_share w mem offset size).1 q' = some x := by
      intro q' x hx
      rw [hb, if_neg (ne_of_lt (block_at_lt w q' x hx))]; exact hx
    split_ifs at hpb with hlen
    · have hbe := Option.some.inj hpb
      subst hbe
      simp only [Option.some.injEq] at hq
      subst hq
      cases hpar : m.parent with
      | none =>
        rw [hpar] at hp
        simp only [Option.getD_none] at hp ⊢
        rw [hm] at hp
        have := Option.some.inj hp
        subst this
        exact ⟨m, old mem m hm, hpar, rfl, rfl⟩
      | some q0 =>
        obtain ⟨pb0, h1, h2, h3, h4⟩ := h mem m hm q0 hpar
        simp only [Option.getD_some]
        exact ⟨pb0, old q0 pb0 h1, h2, h3, h4⟩
    · obtain ⟨pb0, h1, h2, h3, h4⟩ := h p b hpb q hq
      exact ⟨pb0, old q pb0 h1, h2, h3, h4⟩

theorem share_chain_flat (calls : List (Nat × Int × Int)) :
    ∀ w, ParentsFlat w → ParentsFlat (share_chain w calls) := by
  induction calls with
  | nil => intro w h; exact h
  | cons c rest ih =>
    intro w h
    obtain ⟨mem, offset, size⟩ := c
    exact ih _ (share_preserves_flat w mem offset size h)

theorem parentless_flat (w : PhysMemState)
    (h0 : ∀ p b, block_at w p = some b → b.parent = none) : ParentsFlat w := by
  intro p b hb q hq
  rw [h0 p b hb] at hq
  exact absurd hq (by simp)

/-- C8: starting from a state in which no block has a parent, after any chain of `share` calls
every block that records a parent - that is, every block produced by `share` - has the same
`phys_addr` and `cpu_addr` as the block recorded as its parent. -/
theorem share_preserves_addressing (w : PhysMemState) (calls : List (Nat × Int × Int))
    (h0 : ∀ p b, block_at w p = some b → b.parent = none) :
    ∀ p b, block_at (share_chain w calls) p = some b → ∀ q, b.parent = some q →
      ∃ pb, block_at (share_chain w calls) q = some pb ∧
        b.phys_addr = pb.phys_addr ∧ b.cpu_addr = pb.cpu_addr := by
  intro p b hb q hq
  obtain ⟨pb, h1, _, h3, h4⟩ := share_chain_flat calls w (parentless_flat w h0) p b hb q hq
  exact ⟨pb, h1, h3, h4⟩

theorem top_ancestor_flat (w : PhysMemState) (h : ParentsFlat w) (mem : Nat)
    (b : GstImxPhysMemory) (hb : block_at w mem = some b) (fuel : Nat) (hf : 0 < fuel) :
    top_ancestor w fuel mem = b.parent.getD mem := by
  obtain ⟨n, rfl⟩ : ∃ n, fuel = n + 1 := ⟨fuel - 1, by omega⟩
  simp only [top_ancestor, hb]
  cases hpar : b.parent with
  | none => rfl
  | some q =>
    obtain ⟨pb, h1, h2, _, _⟩ := h mem b hb q hpar
    simp only [Option.getD_some]
    cases n with
    | zero => rfl
    | succ k => simp [top_ancestor, h1, h2]

/-- C9: in a state reached by `share` calls from a state without parents, for every block `b` and
all offsets and sizes, the block made by `share(share(b, offset, size), offset2, size2)` has as
parent the top-level ancestor of `b` (`b` itself when `b` has no parent), which is not the
intermediate block and has no parent; and every parent recorded in such a state has no
parent. -/
theorem share_flattens (w : PhysMemState) (calls : List (Nat × Int × Int))
    (h0 : ∀ p b, block_at w p = some b → b.parent = none)
    (mem : Nat) (b : GstImxPhysMemory) (offset size offset2 size2 : Int)
    (hb : block_at (share_chain w calls) mem = some b) :
    (∃ s1 s2 b2 rb,
      (gst_imx_phys_mem_allocator_share (share_chain w calls) mem offset size).2 = some s1 ∧
      (gst_imx_phys_mem_allocator_share
        (gst_imx_phys_mem_allocator_share (share_chain w calls) mem offset size).1
        s1 offset2 size2).2 = some s2 ∧
      block_at (gst_imx_phys_mem_allocator_share
        (gst_imx_phys_mem_allocator_share (share_chain w calls) mem offset size).1
        s1 offset2 size2).1 s2 = some b2 ∧
      b2.parent = some (top_ancestor (share_chain w calls)
        (share_chain w calls).blocks.length mem) ∧
      top_ancestor (share_chain w calls) (share_chain w calls).blocks.length mem =
        b.parent.getD mem ∧
      top_ancestor (share_chain w calls) (share_chain w calls).blocks.length mem ≠ s1 ∧
      block_at (gst_imx_phys_mem_allocator_share
        (gst_imx_phys_mem_allocator_share (share_chain w calls) mem offset size).1
        s1 offset2 size2).1
        (top_ancestor (share_chain w calls) (share_chain w calls).blocks.length mem) = some rb ∧
      rb.parent = none) ∧
    (∀ p blk, block_at (share_chain w calls) p = some blk → ∀ q, blk.parent = some q →
      ∃ pb, block_at (share_chain w calls) q = some pb ∧ pb.parent = none) := by
  have hflat := share_chain_flat calls w (parentless_flat w h0)
  generalize share_chain w calls = w1 at hb hflat ⊢
  refine ⟨?_, ?_⟩
  · have hlen : 0 < w1.blocks.length := Nat.lt_of_le_of_lt (Nat.zero_le _) (block_at_lt w1 mem b hb)
    rw [top_ancestor_flat w1 hflat mem b hb _ hlen]
    -- the root of `b` is live and has no parent
    obtain ⟨rb, hrb, hrbp⟩ : ∃ rb, block_at w1 (b.parent.getD mem) = some rb ∧ rb.parent = none := by
      cases hpar : b.parent with
      | none => exact ⟨b, by simpa using hb, hpar⟩
      | some q =>
        obtain ⟨pb, h1, h2, _, _⟩ := hflat mem b hb q hpar
        exact ⟨pb, by simpa using h1, h2⟩
    have hflat1 := share_preserves_flat w1 mem offset size hflat
    rcases share_blocks w1 mem offset size with ⟨_, hbl⟩ | ⟨m, pb, hm, hp, hres, hbl⟩
    · exfalso
      -- the first call cannot fault: `mem` and its root are live
      unfold gst_imx_phys_mem_allocator_share at *
      simp [hb, hrb] at *
    · rw [hb] at hm
      have hmb := Option.some.inj hm
      subst hmb
      set w2 := (gst_imx_phys_mem_allocator_share w1 mem offset size).1 with hw2
      have hs1 : block_at w2 w1.blocks.length = some
          { flags := (pb.flags ||| GST_MINI_OBJECT_FLAG_LOCK_READONLY) |||
                   GST_MINI_OBJECT_FLAG_LOCKABLE,
            parent := some (b.parent.getD mem), maxsize := b.maxsize, align := b.align,
            offset := to_gsize ((b.offset : Int) + offset),
            size := resolve_size b.size offset size, mapped_virt_addr := none,
            phys_addr := b.phys_addr, cpu_addr := b.cpu_addr } := by
        rw [hbl, if_pos rfl]
      have hroot_lt := block_at_lt w1 _ rb hrb
      have hroot2 : block_at w2 (b.parent.getD mem) = some rb := by
        rw [hbl, if_neg (ne_of_lt hroot_lt)]; exact hrb
      rcases share_blocks w2 w1.blocks.length offset2 size2 with
        ⟨_, hbl2⟩ | ⟨m2, pb2, hm2, hp2, hres2, hbl2⟩
      · exfalso
        unfold gst_imx_phys_mem_allocator_share at *
        simp [hs1, hroot2] at *
      · rw [hs1] at hm2
        have hm2e := Option.some.inj hm2
        subst hm2e
        refine ⟨w1.blocks.length, w2.blocks.length, _, rb, hres, hres2,
          (by rw [hbl2, if_pos rfl]), ?_, rfl, ne_of_lt hroot_lt, ?_, hrbp⟩
        · rfl
        · rw [hbl2, if_neg (ne_of_lt (block_at_lt w2 _ rb hroot2))]; exact hroot2
  · intro p blk hblk q hq
    obtain ⟨pb, h1, h2, _, _⟩ := hflat p blk hblk q hq
    exact ⟨pb, h1, h2⟩

theorem map_phys_mem_live (w : PhysMemState) (p : Nat) (b : GstImxPhysMemory)
    (maxsize flags : Nat) (hb : block_at w p = some b) :
    (map_phys_mem w (some p) maxsize flags).2 = virt_of_phys w b.phys_addr ∧
    (map_phys_mem w (some p) maxsize flags).1.regions = w.regions ∧
    (map_phys_mem w (some p) maxsize flags).1.faulted = w.faulted ∧
    ∀ q, block_at (map_phys_mem w (some p) maxsize flags).1 q =
      if q = p then some { b with mapped_virt_addr := virt_of_phys w b.phys_addr }
      else block_at w q := by
  have hb1 : block_at (log_call w (Event.map_phys_mem (some p) maxsize flags)) p = some b := hb
  simp only [map_phys_mem, hb]
  refine ⟨trivial, ?_, ?_, ?_⟩
  · simp only [update_block, hb1]; rfl
  · simp only [update_block, hb1]; rfl
  · intro q
    rw [block_at_update, hb1]
    split_ifs <;> rfl

theorem unmap_phys_mem_live (w : PhysMemState) (p : Nat) (b : GstImxPhysMemory)
    (hb : block_at w p = some b) :
    (unmap_phys_mem w (some p)).regions = w.regions ∧
    (unmap_phys_mem w (some p)).faulted = w.faulted ∧
    ∀ q, block_at (unmap_phys_mem w (some p)) q =
      if q = p then some { b with mapped_virt_addr := none } else block_at w q := by
  have hb1 : block_at (log_call w (Event.unmap_phys_mem (some p))) p = some b := hb
  simp only [unmap_phys_mem, hb]
  refine ⟨?_, ?_, ?_⟩
  · simp only [update_block, hb1]; rfl
  · simp only [update_block, hb1]; rfl
  · intro q
    rw [block_at_update, hb1]
    split_ifs <;> rfl

theorem memcpy_regions_ok (w : PhysMemState) (d s n : Nat) (rd rs : List Nat)
    (hd : w.regions[d]? = some rd) (hs : w.regions[s]? = some rs)
    (hnd : n ≤ rd.length) (hns : n ≤ rs.length) :
    (memcpy_regions w (some d) (some s) n).regions = w.regions.set d (rs.take n ++ rd.drop n) ∧
    (memcpy_regions w (some d) (some s) n).faulted = w.faulted ∧
    (memcpy_regions w (some d) (some s) n).blocks = w.blocks := by
  simp only [memcpy_regions, hd, hs, hnd, hns, and_self, if_true]
  refine ⟨?_, ?_, ?_⟩ <;> trivial

/-- A successful `alloc_internal` without flags: one new header backed by one new region. -/
theorem alloc_internal_ok (w : PhysMemState) (parent : Option Nat)
    (maxsize align offset size : Nat) (g : AllocGrant) (rest : List (Option AllocGrant))
    (ho : w.alloc_oracle = some g :: rest) :
    (gst_imx_phys_mem_allocator_alloc_internal w parent maxsize 0 align offset size).2 =
      some w.blocks.length ∧
    (gst_imx_phys_mem_allocator_alloc_internal w parent maxsize 0 align offset size).1.regions =
      w.regions ++ [(g.contents ++ List.replicate maxsize 0).take maxsize] ∧
    (gst_imx_phys_mem_allocator_alloc_internal w parent maxsize 0 align offset size).1.faulted =
      w.faulted ∧
    ∀ q, block_at
        (gst_imx_phys_mem_allocator_alloc_internal w parent maxsize 0 align offset size).1 q =
      if q = w.blocks.length then
        some { flags := 0 ||| GST_MINI_OBJECT_FLAG_LOCKABLE, parent := parent,
               maxsize := maxsize, align := align, offset := offset, size := size,
               mapped_virt_addr := none, phys_addr := w.regions.length + 1,
               cpu_addr := g.cpu_addr }
      else block_at w q := by
  have hnew := block_at_new_internal w parent maxsize 0 align offset size
  have hz : ¬ (offset > 0 ∧ 0 &&& GST_MEMORY_FLAG_ZERO_PREFIXED ≠ 0) := by
    simp [GST_MEMORY_FLAG_ZERO_PREFIXED]
  have hal : alloc_phys_mem
      (gst_imx_phys_mem_new_internal w parent maxsize 0 align offset size).1
      (gst_imx_phys_mem_new_internal w parent maxsize 0 align offset size).2 maxsize =
      ({ update_block (log_call
            { (gst_imx_phys_mem_new_internal w parent maxsize 0 align offset size).1 with
              alloc_oracle := rest }
            (Event.alloc_phys_mem w.blocks.length maxsize)) w.blocks.length
          (fun b => { b with phys_addr := w.regions.length + 1, cpu_addr := g.cpu_addr }) with
          regions := w.regions ++ [(g.contents ++ List.replicate maxsize 0).take maxsize] },
        true) := by
    simp [alloc_phys_mem, gst_imx_phys_mem_new_internal, ho]
  unfold gst_imx_phys_mem_allocator_alloc_internal
  simp only [hal, Bool.not_true, Bool.false_eq_true, if_false, hz]
  refine ⟨rfl, ?_, ?_, ?_⟩
  · trivial
  · simp only [update_block]; split <;> rfl
  · intro q
    have e : ∀ (x : PhysMemState) (r : List (List Nat)) (q : Nat),
        block_at { x with regions := r } q = block_at x q := fun _ _ _ => rfl
    rw [e, block_at_update]
    have e2 : ∀ q, block_at (log_call
            { (gst_imx_phys_mem_new_internal w parent maxsize 0 align offset size).1 with
              alloc_oracle := rest }
            (Event.alloc_phys_mem w.blocks.length maxsize)) q =
        block_at (gst_imx_phys_mem_new_internal w parent maxsize 0 align offset size).1 q :=
      fun _ => rfl
    rw [e2, e2, hnew, hnew, if_pos rfl]
    split_ifs <;> rfl

theorem region_at_some (w : PhysMemState) (a : Nat) (r : List Nat)
    (h : region_at w a = some r) :
    a ≠ 0 ∧ a - 1 < w.regions.length ∧ w.regions[a - 1]? = some r := by
  unfold region_at at h
  split_ifs at h with h0
  refine ⟨h0, ?_, h⟩
  by_contra hc
  rw [List.getElem?_eq_none (by omega)] at h
  exact absurd h (by simp)

/-- C10: when the backend grants the allocation, `copy(b, offset, size)` returns a new block
whose backing region holds `maxsize` bytes equal, byte for byte, to the first `maxsize` bytes of
the region behind `b`, for every `offset` and `size`; the region behind `b` is unchanged and no
fault occurs. -/
theorem copy_duplicates_backing_memory (w : PhysMemState) (mem : Nat) (b : GstImxPhysMemory)
    (offset size : Int) (g : AllocGrant) (rest : List (Option AllocGrant)) (r : List Nat)
    (hb : block_at w mem = some b)
    (ho : w.alloc_oracle = some g :: rest)
    (hr : region_at w b.phys_addr = some r)
    (hlen : b.maxsize ≤ r.length) :
    ∃ c cb rc,
      (gst_imx_phys_mem_allocator_copy w mem offset size).2 = some c ∧
      block_at (gst_imx_phys_mem_allocator_copy w mem offset size).1 c = some cb ∧
      cb.maxsize = b.maxsize ∧ cb.phys_addr ≠ b.phys_addr ∧
      region_at (gst_imx_phys_mem_allocator_copy w mem offset size).1 cb.phys_addr = some rc ∧
      rc.length = b.maxsize ∧
      (∀ i, i < b.maxsize → rc[i]? = r[i]?) ∧
      region_at (gst_imx_phys_mem_allocator_copy w mem offset size).1 b.phys_addr = some r ∧
      (gst_imx_phys_mem_allocator_copy w mem offset size).1.faulted = w.faulted := by
  obtain ⟨hp0, hplt, hpr⟩ := region_at_some w b.phys_addr r hr
  have hmemlt := block_at_lt w mem b hb
  have hpadlen : ((g.contents ++ List.replicate b.maxsize 0).take b.maxsize).length =
      b.maxsize := by
    simp
  -- unfold `copy` down to its sequence of calls
  have hcopy : gst_imx_phys_mem_allocator_copy w mem offset size =
      (unmap_phys_mem (unmap_phys_mem (memcpy_regions
          (map_phys_mem (map_phys_mem (gst_imx_phys_mem_allocator_alloc_internal w none
              b.maxsize 0 b.align (to_gsize ((b.offset : Int) + offset))
              (resolve_size b.size offset size)).1 (some mem) b.maxsize GST_MAP_READ).1
            (gst_imx_phys_mem_allocator_alloc_internal w none b.maxsize 0 b.align
              (to_gsize ((b.offset : Int) + offset)) (resolve_size b.size offset size)).2
            b.maxsize GST_MAP_WRITE).1
          (map_phys_mem (map_phys_mem (gst_imx_phys_mem_allocator_alloc_internal w none
              b.maxsize 0 b.align (to_gsize ((b.offset : Int) + offset))
              (resolve_size b.size offset size)).1 (some mem) b.maxsize GST_MAP_READ).1
            (gst_imx_phys_mem_allocator_alloc_internal w none b.maxsize 0 b.align
              (to_gsize ((b.offset : Int) + offset)) (resolve_size b.size offset size)).2
            b.maxsize GST_MAP_WRITE).2
          (map_phys_mem (gst_imx_phys_mem_allocator_alloc_internal w none
              b.maxsize 0 b.align (to_gsize ((b.offset : Int) + offset))
              (resolve_size b.size offset size)).1 (some mem) b.maxsize GST_MAP_READ).2
          b.maxsize)
        (gst_imx_phys_mem_allocator_alloc_internal w none b.maxsize 0 b.align
              (to_gsize ((b.offset : Int) + offset)) (resolve_size b.size offset size)).2)
        (some mem),
       (gst_imx_phys_mem_allocator_alloc_internal w none b.maxsize 0 b.align
              (to_gsize ((b.offset : Int) + offset)) (resolve_size b.size offset size)).2) := by
    simp only [gst_imx_phys_mem_allocator_copy, hb]
  rw [hcopy]
  -- the allocation
  obtain ⟨a2, a3, a4, a5⟩ := alloc_internal_ok w none b.maxsize b.align
    (to_gsize ((b.offset : Int) + offset)) (resolve_size b.size offset size) g rest ho
  generalize gst_imx_phys_mem_allocator_alloc_internal w none b.maxsize 0 b.align
    (to_gsize ((b.offset : Int) + offset)) (resolve_size b.size offset size) = r1 at a2 a3 a4 a5
  rw [a2]
  -- map the source
  have hb1 : block_at r1.1 mem = some b := by rw [a5, if_neg (ne_of_lt hmemlt)]; exact hb
  obtain ⟨m2, m3, m4, m5⟩ := map_phys_mem_live r1.1 mem b b.maxsize GST_MAP_READ hb1
  have hv1 : virt_of_phys r1.1 b.phys_addr = some (b.phys_addr - 1) := by
    unfold virt_of_phys
    rw [a3, if_neg]
    simp only [List.length_append, List.length_singleton]
    omega
  rw [hv1] at m2 m5
  generalize map_phys_mem r1.1 (some mem) b.maxsize GST_MAP_READ = r2 at m2 m3 m4 m5
  rw [m2]
  -- map the destination
  have hc2 := m5 w.blocks.length
  rw [if_neg (Ne.symm (ne_of_lt hmemlt)), a5, if_pos rfl] at hc2
  obtain ⟨n2, n3, n4, n5⟩ := map_phys_mem_live r2.1 w.blocks.length _ b.maxsize GST_MAP_WRITE hc2
  have hv2 : virt_of_phys r2.1 (w.regions.length + 1) = some w.regions.length := by
    unfold virt_of_phys
    rw [m3, a3]; simp
  simp only [hv2] at n2 n5
  generalize map_phys_mem r2.1 (some w.blocks.length) b.maxsize GST_MAP_WRITE = r3 at n2 n3 n4 n5
  rw [n2]
  -- copy the bytes
  have hreg3 : r3.1.regions =
      w.regions ++ [(g.contents ++ List.replicate b.maxsize 0).take b.maxsize] := by
    rw [n3, m3, a3]
  have hd : r3.1.regions[w.regions.length]? =
      some ((g.contents ++ List.replicate b.maxsize 0).take b.maxsize) := by
    rw [hreg3, List.getElem?_append_right (le_refl _)]; simp
  have hs : r3.1.regions[b.phys_addr - 1]? = some r := by
    rw [hreg3, List.getElem?_append_left hplt]; exact hpr
  obtain ⟨c2, c3, c4⟩ := memcpy_regions_ok r3.1 w.regions.length (b.phys_addr - 1) b.maxsize _ r
    hd hs (le_of_eq hpadlen.symm) hlen
  have c5 : ∀ q, block_at (memcpy_regions r3.1 (some w.regions.length) (some (b.phys_addr - 1))
      b.maxsize) q = block_at r3.1 q := by
    intro q; unfold block_at; rw [c4]
  generalize memcpy_regions r3.1 (some w.regions.length) (some (b.phys_addr - 1)) b.maxsize = w4
    at c2 c3 c5
  -- unmap both
  have hc4 := c5 w.blocks.length
  rw [n5, if_pos rfl] at hc4
  obtain ⟨u2, u3, u4⟩ := unmap_phys_mem_live w4 w.blocks.length _ hc4
  generalize unmap_phys_mem w4 (some w.blocks.length) = w5 at u2 u3 u4
  have hm5 : block_at w5 mem = some { b with mapped_virt_addr := some (b.phys_addr - 1) } := by
    rw [u4, if_neg (ne_of_lt hmemlt), c5, n5, if_neg (ne_of_lt hmemlt), m5, if_pos rfl]
  obtain ⟨v2, v3, v4⟩ := unmap_phys_mem_live w5 mem _ hm5
  generalize unmap_phys_mem w5 (some mem) = w6 at v2 v3 v4
  have hreg6 : w6.regions = (w.regions ++
      [(g.contents ++ List.replicate b.maxsize 0).take b.maxsize]).set w.regions.length
      (r.take b.maxsize ++
        ((g.contents ++ List.replicate b.maxsize 0).take b.maxsize).drop b.maxsize) := by
    rw [v2, u2, c2, hreg3]
  have hdrop : ((g.contents ++ List.replicate b.maxsize 0).take b.maxsize).drop b.maxsize =
      [] := by
    apply List.drop_eq_nil_of_le; rw [hpadlen]
  rw [hdrop, List.append_nil] at hreg6
  refine ⟨w.blocks.length,
    { flags := 0 ||| GST_MINI_OBJECT_FLAG_LOCKABLE, parent := none, maxsize := b.maxsize,
      align := b.align, offset := to_gsize ((b.offset : Int) + offset),
      size := resolve_size b.size offset size, mapped_virt_addr := none,
      phys_addr := w.regions.length + 1, cpu_addr := g.cpu_addr },
    r.take b.maxsize, rfl, ?_, ?_, ?_, ?_, ?_, ?_, ?_, ?_⟩
  · rw [v4, if_neg (Ne.symm (ne_of_lt hmemlt)), u4, if_pos rfl]
  · rfl
  · show w.regions.length + 1 ≠ b.phys_addr
    omega
  · show region_at w6 (w.regions.length + 1) = some (r.take b.maxsize)
    unfold region_at
    rw [if_neg (by omega), hreg6]
    simp
  · simp; exact hlen
  · intro i hi
    exact List.getElem?_take_of_lt hi
  · unfold region_at
    rw [if_neg hp0, hreg6, List.getElem?_set_ne (by omega), List.getElem?_append_left hplt]
    exact hpr
  · rw [v3, u3, c3, n4, m4, a4]

theorem ex_state_parentless : ∀ p b, block_at ex_state p = some b → b.parent = none := by
  intro p b h
  match p with
  | 0 =>
    have : b = ex_block := by
      simp [block_at, ex_state] at h; exact h.symm
    rw [this]; rfl
  | n + 1 => simp [block_at, ex_state] at h

theorem share_preserves_addressing_witness :
    block_at (share_chain ex_state [(0, 1, 2), (1, 1, -1)]) 2 = some ex_shared_twice ∧
    ex_shared_twice.parent = some 0 ∧
    ∃ pb, block_at (share_chain ex_state [(0, 1, 2), (1, 1, -1)]) 0 = some pb ∧
      ex_shared_twice.phys_addr = pb.phys_addr ∧ ex_shared_twice.cpu_addr = pb.cpu_addr :=
  ⟨by rfl, rfl,
    share_preserves_addressing ex_state [(0, 1, 2), (1, 1, -1)] ex_state_parentless 2
      ex_shared_twice (by rfl) 0 rfl⟩

theorem share_flattens_witness :
    block_at (share_chain ex_state [(0, 1, 2)]) 1 = some ex_shared ∧
    ∃ s1 s2 b2 rb,
      (gst_imx_phys_mem_allocator_share (share_chain ex_state [(0, 1, 2)]) 1 1 (-1)).2 =
        some s1 ∧
      (gst_imx_phys_mem_allocator_share
        (gst_imx_phys_mem_allocator_share (share_chain ex_state [(0, 1, 2)]) 1 1 (-1)).1
        s1 0 1).2 = some s2 ∧
      block_at (gst_imx_phys_mem_allocator_share
        (gst_imx_phys_mem_allocator_share (share_chain ex_state [(0, 1, 2)]) 1 1 (-1)).1
        s1 0 1).1 s2 = some b2 ∧
      b2.parent = some (top_ancestor (share_chain ex_state [(0, 1, 2)])
        (share_chain ex_state [(0, 1, 2)]).blocks.length 1) ∧
      top_ancestor (share_chain ex_state [(0, 1, 2)])
        (share_chain ex_state [(0, 1, 2)]).blocks.length 1 = ex_shared.parent.getD 1 ∧
      top_ancestor (share_chain ex_state [(0, 1, 2)])
        (share_chain ex_state [(0, 1, 2)]).blocks.length 1 ≠ s1 ∧
      block_at (gst_imx_phys_mem_allocator_share
        (gst_imx_phys_mem_allocator_share (share_chain ex_state [(0, 1, 2)]) 1 1 (-1)).1
        s1 0 1).1
        (top_ancestor (share_chain ex_state [(0, 1, 2)])
          (share_chain ex_state [(0, 1, 2)]).blocks.length 1) = some rb ∧
      rb.parent = none :=
  ⟨by rfl,
    (share_flattens ex_state [(0, 1, 2)] ex_state_parentless 1 ex_shared 1 (-1) 0 1 (by rfl)).1⟩

theorem copy_duplicates_backing_memory_witness :
    ∃ c cb rc,
      (gst_imx_phys_mem_allocator_copy ex_state 0 1 (-1)).2 = some c ∧
      block_at (gst_imx_phys_mem_allocator_copy ex_state 0 1 (-1)).1 c = some cb ∧
      cb.maxsize = ex_block.maxsize ∧ cb.phys_addr ≠ ex_block.phys_addr ∧
      region_at (gst_imx_phys_mem_allocator_copy ex_state 0 1 (-1)).1 cb.phys_addr = some rc ∧
      rc.length = ex_block.maxsize ∧
      (∀ i, i < ex_block.maxsize → rc[i]? = [10, 20, 30, 40][i]?) ∧
      region_at (gst_imx_phys_mem_allocator_copy ex_state 0 1 (-1)).1 ex_block.phys_addr =
        some [10, 20, 30, 40] ∧
      (gst_imx_phys_mem_allocator_copy ex_state 0 1 (-1)).1.faulted = ex_state.faulted :=
  copy_duplicates_backing_memory ex_state 0 ex_block 1 (-1) ⟨8192, [7, 7]⟩ [] [10, 20, 30, 40]
    (by rfl) (by rfl) (by rfl) (by decide)

/-! ## Allocation failure -/

/-- C11: for every allocation request (any size, prefix, padding, alignment and flags, the
zero-prefix flag with a positive prefix included), when the backend refuses the allocation,
`gst_imx_phys_mem_allocator_alloc` returns no block (`NULL`), the header it created is released,
every other block is as before, and the only call made is the single `alloc_phys_mem`: neither
`map_phys_mem`, `memset` nor `unmap_phys_mem` is called. -/
theorem alloc_failure_releases_header (w : PhysMemState) (size : Nat)
    (params : GstAllocationParams)
    (hfail : ∀ g, w.alloc_oracle.head? ≠ some (some g)) :
    (gst_imx_phys_mem_allocator_alloc w size params).2 = none ∧
    block_at (gst_imx_phys_mem_allocator_alloc w size params).1 w.blocks.length = none ∧
    (∀ q, q ≠ w.blocks.length →
      block_at (gst_imx_phys_mem_allocator_alloc w size params).1 q = block_at w q) ∧
    (gst_imx_phys_mem_allocator_alloc w size params).1.calls =
      w.calls ++ [Event.alloc_phys_mem w.blocks.length
        (to_gsize ((size : Int) + params.prefix_bytes + params.padding))] ∧
    (gst_imx_phys_mem_allocator_alloc w size params).1.regions = w.regions ∧
    (gst_imx_phys_mem_allocator_alloc w size params).1.faulted = w.faulted := by
  have hal : ∀ (w1 : PhysMemState) (p m : Nat), w1.alloc_oracle = w.alloc_oracle →
      alloc_phys_mem w1 p m =
        (log_call { w1 with alloc_oracle := w1.alloc_oracle.tail } (Event.alloc_phys_mem p m),
          false) := by
    intro w1 p m ho
    unfold alloc_phys_mem
    rw [ho]
    cases h : w.alloc_oracle.head? with
    | none => rfl
    | some x =>
      cases x with
      | none => rfl
      | some g => exact absurd h (hfail g)
  have h1 := hal (gst_imx_phys_mem_new_internal w none
      (to_gsize ((size : Int) + params.prefix_bytes + params.padding)) params.flags params.align
      params.prefix_bytes size).1 w.blocks.length
    (to_gsize ((size : Int) + params.prefix_bytes + params.padding)) rfl
  have h2 : gst_imx_phys_mem_allocator_alloc w size params =
      ({ (log_call { (gst_imx_phys_mem_new_internal w none
            (to_gsize ((size : Int) + params.prefix_bytes + params.padding)) params.flags
            params.align params.prefix_bytes size).1 with
            alloc_oracle := w.alloc_oracle.tail }
          (Event.alloc_phys_mem w.blocks.length
            (to_gsize ((size : Int) + params.prefix_bytes + params.padding)))) with
          blocks := (gst_imx_phys_mem_new_internal w none
            (to_gsize ((size : Int) + params.prefix_bytes + params.padding)) params.flags
            params.align params.prefix_bytes size).1.blocks.set
            w.blocks.length none }, none) := by
    unfold gst_imx_phys_mem_allocator_alloc gst_imx_phys_mem_allocator_alloc_internal
    have e2 : (gst_imx_phys_mem_new_internal w none
      (to_gsize ((size : Int) + params.prefix_bytes + params.padding)) params.flags params.align
      params.prefix_bytes size).2 = w.blocks.length := rfl
    simp only [e2, h1, Bool.not_false, if_true]
    rfl
  rw [h2]
  refine ⟨rfl, ?_, ?_, rfl, rfl, rfl⟩
  · simp [block_at, gst_imx_phys_mem_new_internal]
  · intro q hq
    simp only [block_at, gst_imx_phys_mem_new_internal]
    rw [List.getElem?_set_ne (Ne.symm hq)]
    rcases Nat.lt_or_gt_of_ne hq with h | h
    · rw [List.getElem?_append_left h]
    · rw [List.getElem?_eq_none (by simp; omega), List.getElem?_eq_none (by omega)]

/-- The backend of `ex_state_fail` refuses the next allocation. -/
theorem ex_state_fail_refuses : ∀ g, ex_state_fail.alloc_oracle.head? ≠ some (some g) := by
  intro g h; cases h

theorem alloc_failure_releases_header_witness :
    (∀ g, ex_state_fail.alloc_oracle.head? ≠ some (some g)) ∧
    (gst_imx_phys_mem_allocator_alloc ex_state_fail 16 ⟨32, 0, 16, 0⟩).2 = none ∧
    block_at (gst_imx_phys_mem_allocator_alloc ex_state_fail 16 ⟨32, 0, 16, 0⟩).1 1 = none ∧
    (gst_imx_phys_mem_allocator_alloc ex_state_fail 16 ⟨32, 0, 16, 0⟩).1.calls =
      [Event.alloc_phys_mem 1 32] :=
  ⟨ex_state_fail_refuses,
    (alloc_failure_releases_header ex_state_fail 16 ⟨32, 0, 16, 0⟩ ex_state_fail_refuses).1,
    (alloc_failure_releases_header ex_state_fail 16 ⟨32, 0, 16, 0⟩ ex_state_fail_refuses).2.1,
    (alloc_failure_releases_header ex_state_fail 16 ⟨32, 0, 16, 0⟩
      ex_state_fail_refuses).2.2.2.1⟩

/-! ## Per-frame passthrough decision -/

/-- C12: a frame is present, the input and output descriptions are equal, the output rotation is
none, crop is disabled and deinterlacing is disabled: `prepare_output_buffer` sets
passthrough to true, whatever metadata the frame carries.  The exceptions of lines 1139-1203
leave passthrough at true as well, so the result does not depend on what
`gst_imx_ipu_blitter_are_transforms_enabled` answers. -/
theorem passthrough_when_nothing_enabled (t : GstImxIpuVideoTransform) (b : GstImxIpuBlitter)
    (buf : GstBuffer)
    (hb : t.priv.blitter = some b)
    (heq : t.inout_caps_equal = true)
    (hrot : b.output_rotation_mode = .GST_IMX_IPU_BLITTER_ROTATION_NONE)
    (hcrop : b.crop_enabled = false)
    (hdei : b.deinterlace_mode = .GST_IMX_IPU_BLITTER_DEINTERLACE_NONE) :
    gst_imx_ipu_video_transform_prepare_output_buffer t (some buf) =
      some { t with passthrough := true } ∧
    passthrough_exceptions b buf = true := by
  constructor
  · simp [gst_imx_ipu_video_transform_prepare_output_buffer, hb, heq, decide_passthrough,
      gst_imx_ipu_blitter_are_transforms_enabled, hrot, hcrop, hdei]
  · unfold passthrough_exceptions
    cases buf.video_meta <;>
      simp [deinterlace_exception, crop_exception, gst_imx_ipu_blitter_is_crop_enabled,
        gst_imx_ipu_blitter_get_deinterlace_mode, gst_imx_ipu_blitter_get_output_rotation_mode,
        hrot, hcrop, hdei]

theorem passthrough_when_nothing_enabled_witness :
    gst_imx_ipu_video_transform_prepare_output_buffer (ex_element ex_blitter)
        (some (ex_frame 1 (some { x := 10, y := 0, width := 640, height := 360 }))) =
      some { ex_element ex_blitter with passthrough := true } ∧
    passthrough_exceptions ex_blitter
      (ex_frame 1 (some { x := 10, y := 0, width := 640, height := 360 })) = true :=
  passthrough_when_nothing_enabled (ex_element ex_blitter) ex_blitter
    (ex_frame 1 (some { x := 10, y := 0, width := 640, height := 360 })) rfl rfl rfl rfl rfl

/-- C13: when a non-identity output rotation is configured, `prepare_output_buffer` sets
passthrough to false, for every frame (present or not), whether or not the descriptions are
equal, and whatever the crop and deinterlacing settings are. -/
theorem no_passthrough_when_rotated (t : GstImxIpuVideoTransform) (b : GstImxIpuBlitter)
    (input : Option GstBuffer)
    (hb : t.priv.blitter = some b)
    (hrot : b.output_rotation_mode ≠ .GST_IMX_IPU_BLITTER_ROTATION_NONE) :
    gst_imx_ipu_video_transform_prepare_output_buffer t input =
      some { t with passthrough := false } := by
  have hen : gst_imx_ipu_blitter_are_transforms_enabled b = true := by
    simp [gst_imx_ipu_blitter_are_transforms_enabled, hrot]
  have hc : ∀ buf, crop_exception b buf false = false := by
    intro buf
    unfold crop_exception
    split_ifs <;> (try rfl)
    split <;> (try rfl)
    split <;> (try rfl)
    split_ifs <;> rfl
  cases input with
  | none => simp [gst_imx_ipu_video_transform_prepare_output_buffer, hb, decide_passthrough]
  | some buf =>
    cases heq : t.inout_caps_equal with
    | false =>
      simp [gst_imx_ipu_video_transform_prepare_output_buffer, hb, decide_passthrough, heq]
    | true =>
      simp [gst_imx_ipu_video_transform_prepare_output_buffer, hb, decide_passthrough, heq, hen,
        passthrough_exceptions, gst_imx_ipu_blitter_get_output_rotation_mode, hrot, hc]

theorem no_passthrough_when_rotated_witness :
    gst_imx_ipu_video_transform_prepare_output_buffer (ex_element ex_blitter_rot90)
        (some (ex_frame 0 none)) =
      some { ex_element ex_blitter_rot90 with passthrough := false } :=
  no_passthrough_when_rotated (ex_element ex_blitter_rot90) ex_blitter_rot90
    (some (ex_frame 0 none)) rfl (by decide)

/-- The crop exception leaves `passthrough` alone when the frame has no effective crop. -/
theorem crop_exception_no_effect (b : GstImxIpuBlitter) (buf : GstBuffer) (vm : GstVideoMeta)
    (hvm : buf.video_meta = some vm) (h : no_effective_crop b buf vm) (p : Bool) :
    crop_exception b buf p = p := by
  unfold crop_exception gst_imx_ipu_blitter_is_crop_enabled
  rcases h with h | h | ⟨c, hc, hx, hy, hw, hh⟩
  · simp [h]
  · simp [h]
  · simp [hc, hvm, hx, hy, hw, hh]

/-- C14: equal descriptions, a frame with video metadata, deinterlacing enabled, input interlace
mode `mixed`, no rotation and no effective crop: `prepare_output_buffer` keeps passthrough at
true exactly when the bit `GST_VIDEO_FRAME_FLAG_INTERLACED` is set in the flags of the frame, and
revokes it exactly when that bit is absent. -/
theorem mixed_mode_passthrough_iff_flag (t : GstImxIpuVideoTransform) (b : GstImxIpuBlitter)
    (buf : GstBuffer) (vm : GstVideoMeta)
    (hb : t.priv.blitter = some b)
    (heq : t.inout_caps_equal = true)
    (hvm : buf.video_meta = some vm)
    (hdei : b.deinterlace_mode ≠ .GST_IMX_IPU_BLITTER_DEINTERLACE_NONE)
    (hmode : b.input_video_info.interlace_mode = .GST_VIDEO_INTERLACE_MODE_MIXED)
    (hrot : b.output_rotation_mode = .GST_IMX_IPU_BLITTER_ROTATION_NONE)
    (hcrop : no_effective_crop b buf vm) :
    gst_imx_ipu_video_transform_prepare_output_buffer t (some buf) =
      some { t with
        passthrough := decide (vm.flags &&& GST_VIDEO_FRAME_FLAG_INTERLACED ≠ 0) } := by
  have hen : gst_imx_ipu_blitter_are_transforms_enabled b = true := by
    simp [gst_imx_ipu_blitter_are_transforms_enabled, hdei]
  simp only [gst_imx_ipu_video_transform_prepare_output_buffer, hb, decide_passthrough, heq,
    hen, if_true, hvm, passthrough_exceptions, gst_imx_ipu_blitter_get_output_rotation_mode,
    hrot, ne_eq, not_true_eq_false, if_false, crop_exception_no_effect b buf vm hvm hcrop]
  simp [deinterlace_exception, gst_imx_ipu_blitter_get_deinterlace_mode, hdei, hmode]

theorem mixed_mode_passthrough_iff_flag_witness :
    gst_imx_ipu_video_transform_prepare_output_buffer
        (ex_element (ex_blitter_deinterlace .GST_VIDEO_INTERLACE_MODE_MIXED))
        (some (ex_frame 1 none)) =
      some { ex_element (ex_blitter_deinterlace .GST_VIDEO_INTERLACE_MODE_MIXED) with
        passthrough := true } ∧
    gst_imx_ipu_video_transform_prepare_output_buffer
        (ex_element (ex_blitter_deinterlace .GST_VIDEO_INTERLACE_MODE_MIXED))
        (some (ex_frame 0 none)) =
      some { ex_element (ex_blitter_deinterlace .GST_VIDEO_INTERLACE_MODE_MIXED) with
        passthrough := false } :=
  ⟨mixed_mode_passthrough_iff_flag
      (ex_element (ex_blitter_deinterlace .GST_VIDEO_INTERLACE_MODE_MIXED))
      (ex_blitter_deinterlace .GST_VIDEO_INTERLACE_MODE_MIXED) (ex_frame 1 none)
      { flags := 1, width := 1280, height := 720 } rfl rfl rfl (by decide) rfl rfl
      (Or.inl rfl),
    mixed_mode_passthrough_iff_flag
      (ex_element (ex_blitter_deinterlace .GST_VIDEO_INTERLACE_MODE_MIXED))
      (ex_blitter_deinterlace .GST_VIDEO_INTERLACE_MODE_MIXED) (ex_frame 0 none)
      { flags := 0, width := 1280, height := 720 } rfl rfl rfl (by decide) rfl rfl
      (Or.inl rfl)⟩

/-- C15, where the code keeps it: crop is enabled, the frame carries video metadata and crop
metadata, and the crop rectangle is non-trivial (x or y is not 0, or its width or height differs
from the width or height in the video metadata): `prepare_output_buffer` sets passthrough to
false, whether or not the descriptions are equal and whatever rotation and deinterlacing are
configured.  Without video metadata the code does not keep the claim, see
`ex_frame_crop_only`. -/
theorem no_passthrough_when_cropped (t : GstImxIpuVideoTransform) (b : GstImxIpuBlitter)
    (buf : GstBuffer) (vm : GstVideoMeta) (c : GstVideoCropMeta)
    (hb : t.priv.blitter = some b)
    (hcrop : b.crop_enabled = true)
    (hvm : buf.video_meta = some vm)
    (hc : buf.video_crop_meta = some c)
    (hrect : c.x ≠ 0 ∨ c.y ≠ 0 ∨ c.width ≠ vm.width ∨ c.height ≠ vm.height) :
    gst_imx_ipu_video_transform_prepare_output_buffer t (some buf) =
      some { t with passthrough := false } := by
  have hen : gst_imx_ipu_blitter_are_transforms_enabled b = true := by
    simp [gst_imx_ipu_blitter_are_transforms_enabled, hcrop]
  have hce : ∀ p, crop_exception b buf p = false := by
    intro p
    simp [crop_exception, gst_imx_ipu_blitter_is_crop_enabled, hcrop, hc, hvm, hrect]
  cases heq : t.inout_caps_equal with
  | false =>
    simp [gst_imx_ipu_video_transform_prepare_output_buffer, hb, decide_passthrough, heq]
  | true =>
    simp [gst_imx_ipu_video_transform_prepare_output_buffer, hb, decide_passthrough, heq, hen,
      passthrough_exceptions, hce]

theorem no_passthrough_when_cropped_witness :
    gst_imx_ipu_video_transform_prepare_output_buffer (ex_element ex_blitter_crop)
        (some (ex_frame 0 (some { x := 10, y := 0, width := 640, height := 360 }))) =
      some { ex_element ex_blitter_crop with passthrough := false } :=
  no_passthrough_when_cropped (ex_element ex_blitter_crop) ex_blitter_crop
    (ex_frame 0 (some { x := 10, y := 0, width := 640, height := 360 }))
    { flags := 0, width := 1280, height := 720 } { x := 10, y := 0, width := 640, height := 360 }
    rfl rfl rfl rfl (Or.inl (by decide))

/-- C15 (evaluation at the failing input): crop is enabled, the descriptions are equal, and the
frame carries a crop rectangle with origin (10, 0) but no video metadata.  The rectangle is
effective whatever the frame size is, and the comment at lines 1180-1183 says that an effective
crop rectangle disables passthrough; but the whole comparison of lines 1191-1197, the test of
`x` and `y` included, sits under `if (video_meta != NULL)` and is skipped, so passthrough stays
true. -/
theorem crop_without_video_meta_counterexample :
    ex_blitter_crop.crop_enabled = true ∧
    (∃ c, ex_frame_crop_only.video_crop_meta = some c ∧ c.x ≠ 0) ∧
    gst_imx_ipu_video_transform_prepare_output_buffer (ex_element ex_blitter_crop)
        (some ex_frame_crop_only) =
      some { ex_element ex_blitter_crop with passthrough := true } :=
  ⟨rfl, ⟨_, rfl, by decide⟩, by rfl⟩

/-- C16: deinterlacing is enabled (mode other than none), the frame carries video metadata and
the interlace mode of the input is `interleaved`: `prepare_output_buffer` sets passthrough to
false, whether or not the descriptions are equal and whatever rotation and crop are
configured. -/
theorem no_passthrough_when_interleaved (t : GstImxIpuVideoTransform) (b : GstImxIpuBlitter)
    (buf : GstBuffer) (vm : GstVideoMeta)
    (hb : t.priv.blitter = some b)
    (hvm : buf.video_meta = some vm)
    (hdei : b.deinterlace_mode ≠ .GST_IMX_IPU_BLITTER_DEINTERLACE_NONE)
    (hmode : b.input_video_info.interlace_mode = .GST_VIDEO_INTERLACE_MODE_INTERLEAVED) :
    gst_imx_ipu_video_transform_prepare_output_buffer t (some buf) =
      some { t with passthrough := false } := by
  have hen : gst_imx_ipu_blitter_are_transforms_enabled b = true := by
    simp [gst_imx_ipu_blitter_are_transforms_enabled, hdei]
  have hc : ∀ buf, crop_exception b buf false = false := by
    intro buf
    unfold crop_exception
    split_ifs <;> (try rfl)
    split <;> (try rfl)
    split <;> (try rfl)
    split_ifs <;> rfl
  cases heq : t.inout_caps_equal with
  | false =>
    simp [gst_imx_ipu_video_transform_prepare_output_buffer, hb, decide_passthrough, heq]
  | true =>
    simp [gst_imx_ipu_video_transform_prepare_output_buffer, hb, decide_passthrough, heq, hen,
      passthrough_exceptions, hvm, deinterlace_exception,
      gst_imx_ipu_blitter_get_deinterlace_mode, hdei, hmode, hc]

theorem no_passthrough_when_interleaved_witness :
    gst_imx_ipu_video_transform_prepare_output_buffer
        (ex_element (ex_blitter_deinterlace .GST_VIDEO_INTERLACE_MODE_INTERLEAVED))
        (some (ex_frame 0 none)) =
      some { ex_element (ex_blitter_deinterlace .GST_VIDEO_INTERLACE_MODE_INTERLEAVED) with
        passthrough := false } :=
  no_passthrough_when_interleaved
    (ex_element (ex_blitter_deinterlace .GST_VIDEO_INTERLACE_MODE_INTERLEAVED))
    (ex_blitter_deinterlace .GST_VIDEO_INTERLACE_MODE_INTERLEAVED) (ex_frame 0 none)
    { flags := 0, width := 1280, height := 720 } rfl rfl (by decide) rfl

/-- C17: `set_info` sets `inout_caps_equal` to true if and only if the input and output width
are equal, the heights are equal and the pixel formats are equal; an output info that differs
from the input info only in pixel-aspect-ratio or colorimetry gives true. -/
theorem set_info_caps_equal (t : GstImxIpuVideoTransform) (in_info out_info : GstVideoInfo) :
    ((gst_imx_ipu_video_transform_set_info t in_info out_info).inout_caps_equal = true ↔
      in_info.width = out_info.width ∧ in_info.height = out_info.height ∧
        in_info.finfo.format = out_info.finfo.format) ∧
    ∀ (par_n par_d : Int) (colorimetry : Nat),
      (gst_imx_ipu_video_transform_set_info t in_info
        { in_info with par_n := par_n, par_d := par_d, colorimetry := colorimetry }
        ).inout_caps_equal = true := by
  constructor
  · simp [gst_imx_ipu_video_transform_set_info, and_assoc]
  · intro _ _ _
    simp [gst_imx_ipu_video_transform_set_info]

/-! ## Size fixation: both dimensions fixed, PAR fixed, nothing fixed -/

/-- Truncated division by one. -/
theorem tdiv_one (a : Int) : Int.tdiv a 1 = a := by
  simp

/-- Storing a positive fraction in lowest terms stores it as it is. -/
theorem set_fraction_reduced (s : GstStructure) (f : String) (n d : Int) (hd : 0 < d)
    (hg : Int.gcd n d = 1) :
    gst_structure_set_fraction s f n d = gst_structure_set_value s f (.fraction n d) := by
  unfold gst_structure_set_fraction gst_util_greatest_common_divisor
  rw [if_neg (ne_of_gt hd)]
  simp only [if_neg (not_lt.mpr (le_of_lt hd)), hg]
  simp

/-- Fixating the unconstrained PAR range nearest to a positive `gint` fraction in lowest terms
yields that fraction. -/
theorem nearest_fraction_unconstrained (pick : List GValue → Int → Int → Option GValue)
    (s : GstStructure) (f : String) (n d : Int) (hn : 0 < n) (hd : 0 < d)
    (hn2 : n ≤ G_MAXINT) (hd2 : d ≤ G_MAXINT) (hg : Int.gcd n d = 1)
    (h : gst_structure_get_value s f = some (.fractionRange 1 G_MAXINT G_MAXINT 1)) :
    gst_structure_fixate_field_nearest_fraction pick s f n d =
      gst_structure_set_value s f (.fraction n d) := by
  unfold gst_structure_fixate_field_nearest_fraction gst_util_greatest_common_divisor
  rw [if_neg (ne_of_gt hd)]
  simp only [h, if_neg (not_lt.mpr (le_of_lt hd)), hg]
  have e1 : Int.tdiv n ((1 : Nat) : Int) = n := by simp
  have e2 : Int.tdiv d ((1 : Nat) : Int) = d := by simp
  rw [e1, e2]
  unfold G_MAXINT at *
  have c1 : ¬ (n * 2147483647 < 1 * d) := by nlinarith
  have c2 : ¬ (n * 1 > 2147483647 * d) := by nlinarith
  simp only [if_neg c1, if_neg c2]

/-- A positive fraction in lowest terms that equals `a / b` has components bounded by `a` and
`b`. -/
theorem reduced_le {n d a b : Int} (ha : 0 < a) (hb : 0 < b)
    (hg : Int.gcd n d = 1) (he : n * b = d * a) : n ≤ a ∧ d ≤ b := by
  have h1 : n ∣ d * a := ⟨b, he.symm⟩
  have h2 : n ∣ a := Int.dvd_of_dvd_mul_right_of_gcd_one h1 hg
  have h3 : d ∣ n * b := ⟨a, he⟩
  have h4 : d ∣ b := Int.dvd_of_dvd_mul_right_of_gcd_one h3 (by rw [Int.gcd_comm]; exact hg)
  exact ⟨Int.le_of_dvd ha h2, Int.le_of_dvd hb h4⟩

/-- A target inside an integer range is taken as it is. -/
theorem nearest_int_in_range (s : GstStructure) (f : String) (lo hi x : Int)
    (h : gst_structure_get_value s f = some (.intRange lo hi)) (hlo : lo ≤ x) (hhi : x ≤ hi) :
    gst_structure_fixate_field_nearest_int s f x = gst_structure_set_int s f x := by
  rw [nearest_int_range s f lo hi x h]
  congr 1
  split_ifs <;> omega

/-- The library's `gst_structure_get_int` fails on a range. -/
theorem get_int_of_range (s : GstStructure) (f : String) (lo hi : Int)
    (h : gst_structure_get_value s f = some (.intRange lo hi)) :
    gst_structure_get_int s f = none := by
  simp [gst_structure_get_int, h]

/-- A successful display-ratio computation returns the exact ratio in lowest terms. -/
theorem display_ratio_spec {from_w from_h fpn fpd w h n d : Int} (pw : 0 < from_w)
    (ph : 0 < from_h) (pn : 0 < fpn) (pd : 0 < fpd) (pww : 0 < w) (phh : 0 < h)
    (hr : gst_video_calculate_display_ratio from_w from_h fpn fpd w h = some (n, d)) :
    0 < n ∧ 0 < d ∧ w * n * from_h * fpd = h * d * from_w * fpn ∧ Int.gcd n d = 1 := by
  unfold gst_video_calculate_display_ratio at hr
  cases hm1 : gst_util_fraction_multiply from_w from_h fpn fpd with
  | none => rw [hm1] at hr; cases hr
  | some r1 =>
    obtain ⟨tn, td⟩ := r1
    rw [hm1] at hr
    simp only [] at hr
    cases hm2 : gst_util_fraction_multiply tn td h w with
    | none => rw [hm2] at hr; cases hr
    | some r2 =>
      obtain ⟨num, den⟩ := r2
      rw [hm2] at hr
      simp only [] at hr
      obtain ⟨ptn, ptd, e1, _⟩ := fraction_multiply_spec pw ph pn pd hm1
      obtain ⟨pnum, pden, e2, hco⟩ := fraction_multiply_spec ptn ptd phh pww hm2
      rw [if_pos ⟨pnum, pden⟩] at hr
      cases hr
      refine ⟨pnum, pden, ?_, hco⟩
      have e3 : w * n * from_h * fpd * td = h * d * from_w * fpn * td := by
        have t1 : w * n * from_h * fpd * td = (n * (td * w)) * (from_h * fpd) := by ring
        have t2 : h * d * from_w * fpn * td = d * h * (td * (from_w * fpn)) := by ring
        rw [t1, t2, e2, ← e1]; ring
      exact Int.eq_of_mul_eq_mul_right (ne_of_gt ptd) e3

/-- C18 (amended): output width `w` and height `h` are both fixed (positive), the PAR that the
code works with (`to_par`: the PAR field of the output, or for a missing field the default of the
direction) is not fixed, and the display-ratio computation succeeds with result `n/d`: then
`n/d` is in lowest terms and makes the output match the input display aspect ratio exactly,
`w*n*from_h*from_par_d = h*d*from_w*from_par_n`; an existing PAR field is fixated to the
fraction nearest to `n/d`; a missing PAR field occurs only when fixating from the sink pad, and
PAR `n/d` is then added only if `n ≠ d`.  Width and height are not touched and no error is
raised. -/
theorem fixate_size_both_fixed_targets_par
    (get_info : String → Option GstVideoFormatInfo)
    (pick : List GValue → Int → Int → Option GValue) (u : Uninit) (direction : GstPadDirection)
    (ins outs : GstStructure) (crest rest : GstCaps)
    (from_w from_h fpn fpd w h n d : Int)
    (hiw : gst_structure_get_value ins "width" = some (.int from_w))
    (hih : gst_structure_get_value ins "height" = some (.int from_h))
    (hip : gst_structure_get_value ins "pixel-aspect-ratio" = some (.fraction fpn fpd))
    (pw : 0 < from_w) (ph : 0 < from_h) (pn : 0 < fpn) (pd : 0 < fpd)
    (how : gst_structure_get_value outs "width" = some (.int w))
    (hoh : gst_structure_get_value outs "height" = some (.int h))
    (pww : 0 < w) (phh : 0 < h)
    (hnf : gst_value_is_fixed (to_par_value direction outs) = false)
    (hr : gst_video_calculate_display_ratio from_w from_h fpn fpd w h = some (n, d)) :
    w * n * from_h * fpd = h * d * from_w * fpn ∧ Int.gcd n d = 1 ∧ 0 < n ∧ 0 < d ∧
    (gst_structure_has_field outs "pixel-aspect-ratio" = false → direction = .GST_PAD_SINK) ∧
    gst_imx_ipu_video_transform_fixate_size_caps get_info pick u direction (ins :: crest)
        (outs :: rest) =
      ⟨gst_imx_ipu_video_transform_fixate_format_caps get_info (ins :: crest)
        ((if gst_structure_has_field outs "pixel-aspect-ratio" then
            gst_structure_fixate_field_nearest_fraction pick outs "pixel-aspect-ratio" n d
          else if n ≠ d then gst_structure_set_value outs "pixel-aspect-ratio" (.fraction n d)
          else outs) :: rest), false⟩ := by
  obtain ⟨pnn, pnd, hcross, hco⟩ := display_ratio_spec pw ph pn pd pww phh hr
  have hdir : gst_structure_has_field outs "pixel-aspect-ratio" = false →
      direction = .GST_PAD_SINK := by
    intro hf
    by_contra hne
    have hnone : gst_structure_get_value outs "pixel-aspect-ratio" = none := by
      simpa [gst_structure_has_field] using hf
    simp [to_par_value, hne, hnone, gst_value_is_fixed] at hnf
  have hod : outs_with_default_par direction outs = outs := by
    unfold outs_with_default_par
    cases hv : gst_structure_get_value outs "pixel-aspect-ratio" with
    | some v => simp
    | none =>
      have := hdir (by simp [gst_structure_has_field, hv])
      simp [this]
  have hs : fixate_size_structure pick u direction ins outs =
      ⟨(if gst_structure_has_field outs "pixel-aspect-ratio" then
            gst_structure_fixate_field_nearest_fraction pick outs "pixel-aspect-ratio" n d
          else if n ≠ d then gst_structure_set_value outs "pixel-aspect-ratio" (.fraction n d)
          else outs), false, true⟩ := by
    unfold fixate_size_structure
    rw [hip, hod, get_int_of_int outs "width" w how, get_int_of_int outs "height" h hoh,
      get_int_of_int ins "width" from_w hiw, get_int_of_int ins "height" from_h hih]
    simp only [Option.getD_some, gst_value_is_fixed, gst_value_get_fraction_numerator,
      gst_value_get_fraction_denominator, Bool.not_true, Bool.false_eq_true, if_false]
    unfold fixate_size_dims
    rw [if_pos ⟨ne_of_gt pww, ne_of_gt phh⟩, hnf]
    simp only [Bool.not_false, if_true, hr, set_fraction_reduced outs _ n d pnd hco]
    split_ifs <;> rfl
  refine ⟨hcross, hco, pnn, pnd, hdir, ?_⟩
  simp [gst_imx_ipu_video_transform_fixate_size_caps, hs]

theorem fixate_size_both_fixed_targets_par_witness :
    (960 : Int) * 2 * 1080 * 1 = 1080 * 1 * 1920 * 1 ∧ Int.gcd 2 1 = 1 ∧ (0 : Int) < 2 ∧
    (0 : Int) < 1 ∧
    (gst_structure_has_field ex_out_960x1080_nopar "pixel-aspect-ratio" = false →
      GstPadDirection.GST_PAD_SINK = .GST_PAD_SINK) ∧
    gst_imx_ipu_video_transform_fixate_size_caps example_get_info no_pick uninit_zero
        .GST_PAD_SINK (ex_in_1080p :: []) (ex_out_960x1080_nopar :: []) =
      ⟨gst_imx_ipu_video_transform_fixate_format_caps example_get_info (ex_in_1080p :: [])
        ((if gst_structure_has_field ex_out_960x1080_nopar "pixel-aspect-ratio" then
            gst_structure_fixate_field_nearest_fraction no_pick ex_out_960x1080_nopar
              "pixel-aspect-ratio" 2 1
          else if (2 : Int) ≠ 1 then
            gst_structure_set_value ex_out_960x1080_nopar "pixel-aspect-ratio" (.fraction 2 1)
          else ex_out_960x1080_nopar) :: []), false⟩ :=
  fixate_size_both_fixed_targets_par example_get_info no_pick uninit_zero .GST_PAD_SINK
    ex_in_1080p ex_out_960x1080_nopar [] [] 1920 1080 1 1 960 1080 2 1 rfl rfl rfl (by decide)
    (by decide) (by decide) (by decide) rfl rfl (by decide) (by decide) rfl rfl

/-- C18 (as stated) fails in two ways.  Fixating from the source pad, an output 960x1080 without
PAR field gets PAR 1/1 (line 506) although the PAR that matches the input 1920x1080 (PAR 1:1)
is 2/1, which the same call from the sink pad adds.  And for input 1920x1080 with PAR
268435456:1 and output 268435456x576 with the unconstrained PAR range the matching PAR is
exactly 1024/1, but the display-ratio computation overflows and the PAR is left a range. -/
theorem fixate_size_both_fixed_counterexample :
    gst_structure_has_field ex_out_960x1080_nopar "pixel-aspect-ratio" = false ∧
    gst_video_calculate_display_ratio 1920 1080 1 1 960 1080 = some (2, 1) ∧
    gst_imx_ipu_video_transform_fixate_size_caps example_get_info no_pick uninit_zero
        .GST_PAD_SRC [ex_in_1080p] [ex_out_960x1080_nopar] =
      ⟨[⟨[("width", .int 960), ("height", .int 1080), ("pixel-aspect-ratio", .fraction 1 1)]⟩],
        false⟩ ∧
    gst_imx_ipu_video_transform_fixate_size_caps example_get_info no_pick uninit_zero
        .GST_PAD_SINK [ex_in_1080p] [ex_out_960x1080_nopar] =
      ⟨[⟨[("width", .int 960), ("height", .int 1080), ("pixel-aspect-ratio", .fraction 2 1)]⟩],
        false⟩ ∧
    (268435456 : Int) * 1024 * 1080 * 1 = 576 * 1 * 1920 * 268435456 ∧
    gst_video_calculate_display_ratio 1920 1080 268435456 1 268435456 576 = none ∧
    gst_imx_ipu_video_transform_fixate_size_caps example_get_info no_pick uninit_zero
        .GST_PAD_SINK [ex_in_1080p_wide_par] [ex_out_fixed_dims_par_range] =
      ⟨[ex_out_fixed_dims_par_range], false⟩ :=
  ⟨rfl, by rfl, by rfl, by rfl, by decide, by rfl, by rfl⟩

/-- C19 fails on the code: for input 1920x1080 with PAR 1:1 (DAR 16/9) and an output with free
width and height and PAR fixed at 2:1, line 731 multiplies the DAR by `to_par_n/to_par_d` and
the result is 3840x1080, whose display aspect ratio is 64/9; the claimed width is
`1080 * 16 * 1 / (9 * 2) = 960`.  With the height fixed at 1080 (line 586, which multiplies by
`to_par_d/to_par_n`) the same input gives width 960. -/
theorem par_fixed_multiplies_by_par :
    gst_imx_ipu_video_transform_fixate_size_caps example_get_info no_pick uninit_zero
        .GST_PAD_SINK [ex_in_1080p] [ex_out_par_2_1] =
      ⟨[⟨[("width", .int 3840), ("height", .int 1080), ("pixel-aspect-ratio", .fraction 2 1)]⟩],
        false⟩ ∧
    (1080 * 16 * 1 / (9 * 2) : Int) = 960 ∧
    gst_imx_ipu_video_transform_fixate_size_caps example_get_info no_pick uninit_zero
        .GST_PAD_SINK [ex_in_1080p] [ex_out_h1080_par_2_1] =
      ⟨[⟨[("width", .int 960), ("height", .int 1080), ("pixel-aspect-ratio", .fraction 2 1)]⟩],
        false⟩ :=
  ⟨by rfl, by decide, by rfl⟩

/-- C20 (amended): none of output width, height and PAR is fixed, the width and height ranges
contain the input width and height, the output carries the unconstrained PAR range, and the two
fraction multiplications of the branch (input DAR, and DAR times `from_h/from_w`) do not
overflow: size fixation yields output width = input width, output height = input height and
output PAR `n/d` equal to the input PAR in lowest terms (`n * from_par_d = d * from_par_n`,
`gcd n d = 1`), without error. -/
theorem fixate_size_nothing_fixed_keeps_input
    (get_info : String → Option GstVideoFormatInfo)
    (pick : List GValue → Int → Int → Option GValue) (u : Uninit) (direction : GstPadDirection)
    (ins outs : GstStructure) (crest rest : GstCaps)
    (from_w from_h fpn fpd wlo whi hlo hhi dn dd n d : Int)
    (hiw : gst_structure_get_value ins "width" = some (.int from_w))
    (hih : gst_structure_get_value ins "height" = some (.int from_h))
    (hip : gst_structure_get_value ins "pixel-aspect-ratio" = some (.fraction fpn fpd))
    (pw : 0 < from_w) (ph : 0 < from_h) (pn : 0 < fpn) (pd : 0 < fpd)
    (bn : fpn ≤ G_MAXINT) (bd : fpd ≤ G_MAXINT)
    (how : gst_structure_get_value outs "width" = some (.intRange wlo whi))
    (hw1 : wlo ≤ from_w) (hw2 : from_w ≤ whi)
    (hoh : gst_structure_get_value outs "height" = some (.intRange hlo hhi))
    (hh1 : hlo ≤ from_h) (hh2 : from_h ≤ hhi)
    (hop : gst_structure_get_value outs "pixel-aspect-ratio" =
      some (.fractionRange 1 G_MAXINT G_MAXINT 1))
    (hm1 : gst_util_fraction_multiply from_w from_h fpn fpd = some (dn, dd))
    (hm2 : gst_util_fraction_multiply dn dd from_h from_w = some (n, d)) :
    n * fpd = d * fpn ∧ Int.gcd n d = 1 ∧ 0 < n ∧ 0 < d ∧
    ∃ outs1,
      gst_imx_ipu_video_transform_fixate_size_caps get_info pick u direction (ins :: crest)
        (outs :: rest) = ⟨outs1 :: rest, false⟩ ∧
      gst_structure_get_value outs1 "width" = some (.int from_w) ∧
      gst_structure_get_value outs1 "height" = some (.int from_h) ∧
      gst_structure_get_value outs1 "pixel-aspect-ratio" = some (.fraction n d) := by
  obtain ⟨pdn, pdd, hdar, _⟩ := fraction_multiply_spec pw ph pn pd hm1
  obtain ⟨pnn, pnd, hpar, hcop⟩ := fraction_multiply_spec pdn pdd ph pw hm2
  -- the PAR that keeps both dimensions is the input PAR
  have hpe : n * fpd = d * fpn := by
    have e1 : n * fpd * (dd * from_w * from_h) = d * fpn * (dd * from_w * from_h) := by
      have t1 : n * fpd * (dd * from_w * from_h) = (n * (dd * from_w)) * (from_h * fpd) := by ring
      have t2 : d * fpn * (dd * from_w * from_h) = d * from_h * (dd * (from_w * fpn)) := by ring
      rw [t1, t2, hpar, ← hdar]; ring
    have hpos : 0 < dd * from_w * from_h := Int.mul_pos (Int.mul_pos pdd pw) ph
    exact Int.eq_of_mul_eq_mul_right (ne_of_gt hpos) e1
  obtain ⟨len, led⟩ := reduced_le pn pd hcop hpe
  have htp : to_par_value direction outs = .fractionRange 1 G_MAXINT G_MAXINT 1 :=
    to_par_value_some direction outs _ hop
  have hod := outs_with_default_par_some direction outs _ hop
  -- first attempt: nearest height and width
  have ht0 : gst_structure_fixate_field_nearest_int outs "height" from_h =
      gst_structure_set_int outs "height" from_h :=
    nearest_int_in_range outs "height" hlo hhi from_h hoh hh1 hh2
  have hw0 : gst_structure_get_value (gst_structure_set_int outs "height" from_h) "width" =
      some (.intRange wlo whi) := by
    rw [gst_structure_set_int, get_set_value, if_neg (by decide), how]
  have ht1 : gst_structure_fixate_field_nearest_int
      (gst_structure_set_int outs "height" from_h) "width" from_w =
      gst_structure_set_int (gst_structure_set_int outs "height" from_h) "width" from_w :=
    nearest_int_in_range _ "width" wlo whi from_w hw0 hw1 hw2
  have hp1 : gst_structure_get_value
      (gst_structure_set_int (gst_structure_set_int outs "height" from_h) "width" from_w)
      "pixel-aspect-ratio" = some (.fractionRange 1 G_MAXINT G_MAXINT 1) := by
    rw [gst_structure_set_int, get_set_value, if_neg (by decide), gst_structure_set_int,
      get_set_value, if_neg (by decide), hop]
  have htw : tmp_with_par pick
      (gst_structure_set_int (gst_structure_set_int outs "height" from_h) "width" from_w)
      (.fractionRange 1 G_MAXINT G_MAXINT 1) n d =
      gst_structure_set_value
        (gst_structure_set_int (gst_structure_set_int outs "height" from_h) "width" from_w)
        "pixel-aspect-ratio" (.fraction n d) := by
    unfold tmp_with_par
    simp only [gst_structure_has_field, hp1, Option.isSome_some, Bool.not_true,
      Bool.false_eq_true, if_false]
    exact nearest_fraction_unconstrained pick _ _ n d pnn pnd (le_trans len bn)
      (le_trans led bd) hcop hp1
  have hhf : gst_structure_has_field (set_width_height outs from_w from_h)
      "pixel-aspect-ratio" = true := by
    simp [gst_structure_has_field, set_width_height, gst_structure_set_int, get_set_value, hop]
  have hb : fixate_nothing_fixed pick u from_w from_h dn dd
      (.fractionRange 1 G_MAXINT G_MAXINT 1) outs =
      (gst_structure_set_value (set_width_height outs from_w from_h) "pixel-aspect-ratio"
        (.fraction n d), false) := by
    unfold fixate_nothing_fixed
    simp only [ht0, get_int_set_int, if_true, Option.getD_some, ht1, hm2, htw]
    simp [gst_structure_get_fraction, get_set_value, set_par_if_needed, hhf,
      set_fraction_reduced _ _ n d pnd hcop]
  have hs : fixate_size_structure pick u direction ins outs =
      ⟨gst_structure_set_value (set_width_height outs from_w from_h) "pixel-aspect-ratio"
        (.fraction n d), false, true⟩ := by
    unfold fixate_size_structure
    rw [hip, htp, hod, get_int_of_range outs "width" wlo whi how,
      get_int_of_range outs "height" hlo hhi hoh, get_int_of_int ins "width" from_w hiw,
      get_int_of_int ins "height" from_h hih]
    simp only [Option.getD_some, Option.getD_none, gst_value_is_fixed,
      gst_value_get_fraction_numerator, gst_value_get_fraction_denominator,
      Bool.not_true, Bool.false_eq_true, if_false]
    unfold fixate_size_dims
    simp only [ne_eq, not_true_eq_false, false_and, if_false, hm1, hb, gst_value_is_fixed,
      Bool.false_eq_true]
  obtain ⟨outs1, h1, h2⟩ := fixate_format_frame get_info (ins :: crest)
    (gst_structure_set_value (set_width_height outs from_w from_h) "pixel-aspect-ratio"
      (.fraction n d)) rest
  refine ⟨hpe, hcop, pnn, pnd, outs1, ?_, ?_, ?_, ?_⟩
  · simp [gst_imx_ipu_video_transform_fixate_size_caps, hs, h1]
  · rw [h2 "width" (by decide), get_set_value, if_neg (by decide), set_width_height,
      gst_structure_set_int, get_set_value, if_neg (by decide), gst_structure_set_int,
      get_set_value, if_pos rfl]
  · rw [h2 "height" (by decide), get_set_value, if_neg (by decide), set_width_height,
      gst_structure_set_int, get_set_value, if_pos rfl]
  · rw [h2 "pixel-aspect-ratio" (by decide), get_set_value, if_pos rfl]

theorem fixate_size_nothing_fixed_keeps_input_witness :
    (4 : Int) * 3 = 3 * 4 ∧ Int.gcd 4 3 = 1 ∧ (0 : Int) < 4 ∧ (0 : Int) < 3 ∧
    ∃ outs1,
      gst_imx_ipu_video_transform_fixate_size_caps example_get_info no_pick uninit_zero
        .GST_PAD_SINK (ex_in_1080p_par_4_3 :: []) (ex_out_all_free :: []) =
          ⟨outs1 :: [], false⟩ ∧
      gst_structure_get_value outs1 "width" = some (.int 1920) ∧
      gst_structure_get_value outs1 "height" = some (.int 1080) ∧
      gst_structure_get_value outs1 "pixel-aspect-ratio" = some (.fraction 4 3) :=
  fixate_size_nothing_fixed_keeps_input example_get_info no_pick uninit_zero .GST_PAD_SINK
    ex_in_1080p_par_4_3 ex_out_all_free [] [] 1920 1080 4 3 64 2147483647 64 2147483647 64 27 4 3
    rfl rfl rfl (by decide) (by decide) (by decide) (by decide) (by decide) (by decide)
    rfl (by decide) (by decide) rfl (by decide) (by decide) rfl rfl rfl

/-- C20 (as stated) fails: for input 1920x1080 with PAR 268435456:1 and an output whose width
and height ranges contain 1920 and 1080 and whose PAR is the unconstrained range (which contains
268435456/1), the input DAR overflows; size fixation raises the negotiation error and leaves
width, height and PAR as ranges. -/
theorem fixate_size_nothing_fixed_overflow_counterexample :
    gst_util_fraction_multiply 1920 1080 268435456 1 = none ∧
    gst_imx_ipu_video_transform_fixate_size_caps example_get_info no_pick uninit_zero
        .GST_PAD_SINK [ex_in_1080p_wide_par] [ex_out_all_free] = ⟨[ex_out_all_free], true⟩ ∧
    gst_structure_get_value ex_out_all_free "width" = some (.intRange 64 2147483647) :=
  ⟨by rfl, by rfl, rfl⟩

/-! ## Size fixation: overflow and fixed dimensions -/

/-- Setting a fraction leaves the other fields alone. -/
theorem get_set_fraction_other (s : GstStructure) (f g : String) (n d : Int) (h : f ≠ g) :
    gst_structure_get_value (gst_structure_set_fraction s f n d) g =
      gst_structure_get_value s g := by
  unfold gst_structure_set_fraction
  by_cases hd : d = 0
  · rw [if_pos hd]
  · rw [if_neg hd]
    simp only [get_set_value, if_neg h]

/-- Fixating a field nearest to a fraction leaves the other fields alone. -/
theorem get_nearest_fraction_other (pick : List GValue → Int → Int → Option GValue)
    (s : GstStructure) (f g : String) (n d : Int) (h : f ≠ g) :
    gst_structure_get_value (gst_structure_fixate_field_nearest_fraction pick s f n d) g =
      gst_structure_get_value s g := by
  unfold gst_structure_fixate_field_nearest_fraction
  by_cases hd : d = 0
  · rw [if_pos hd]
  · rw [if_neg hd]
    split
    · simp only [get_set_value, if_neg h]
    · split
      · simp only [get_set_value, if_neg h]
      · rfl
    · rfl

/-- The default PAR of line 506 leaves the other fields alone. -/
theorem get_outs_with_default_par_other (direction : GstPadDirection) (outs : GstStructure)
    (g : String) (h : "pixel-aspect-ratio" ≠ g) :
    gst_structure_get_value (outs_with_default_par direction outs) g =
      gst_structure_get_value outs g := by
  unfold outs_with_default_par
  split_ifs
  · exact get_set_fraction_other outs _ g 1 1 h
  · rfl

/-- The branch "height fixed" raises the error exactly when one of its multiplications
overflows, and then returns the output structure as it got it. -/
theorem height_fixed_error (pick : List GValue → Int → Int → Option GValue) (u : Uninit)
    (from_w dn dd h : Int) (to_par : GValue) (outs : GstStructure) :
    ((fixate_height_fixed pick u from_w dn dd h to_par outs).2 = true ↔
      height_fixed_overflows pick u from_w dn dd h to_par outs) ∧
    ((fixate_height_fixed pick u from_w dn dd h to_par outs).2 = true →
      (fixate_height_fixed pick u from_w dn dd h to_par outs).1 = outs) := by
  unfold fixate_height_fixed height_fixed_overflows
  by_cases hf : gst_value_is_fixed to_par = true
  · simp only [hf, if_true]
    cases hm : gst_util_fraction_multiply dn dd (gst_value_get_fraction_denominator to_par)
        (gst_value_get_fraction_numerator to_par) with
    | none => simp
    | some r => simp
  · simp only [hf, Bool.false_eq_true, if_false]
    generalize (gst_structure_get_int (gst_structure_fixate_field_nearest_int outs "width"
      from_w) "width").getD u.set_w = sw
    cases hm : gst_util_fraction_multiply dn dd h sw with
    | none => simp
    | some r =>
      obtain ⟨n1, d1⟩ := r
      simp only [false_or, reduceCtorEq, Option.some.injEq, Prod.mk.injEq]
      cases hsp : (gst_structure_get_fraction
          (tmp_with_par pick (gst_structure_fixate_field_nearest_int outs "width" from_w) to_par
            n1 d1) "pixel-aspect-ratio").getD (u.set_par_n, u.set_par_d) with
      | mk spn spd =>
        simp only
        by_cases heq : spn = n1 ∧ spd = d1
        · rw [if_pos heq]
          constructor
          · constructor
            · intro he
              exfalso
              split_ifs at he
            · rintro ⟨a, b, c, e, ⟨h1, h2⟩, h3, h4, _⟩
              exfalso
              subst h1; subst h2
              rw [hsp] at h3
              simp only [Prod.mk.injEq] at h3
              exact h4 ⟨h3.1.symm ▸ heq.1, h3.2.symm ▸ heq.2⟩
          · intro he
            exfalso
            split_ifs at he
        · rw [if_neg heq]
          cases hm3 : gst_util_fraction_multiply dn dd spd spn with
          | none =>
            simp only [true_iff, forall_true_left, and_true]
            exact ⟨n1, d1, spn, spd, ⟨rfl, rfl⟩, hsp, heq, hm3⟩
          | some r3 =>
            simp only [Bool.false_eq_true, false_iff, false_implies, and_true]
            rintro ⟨a, b, c, e, ⟨h1, h2⟩, h3, _, h5⟩
            subst h1; subst h2
            rw [hsp] at h3
            simp only [Prod.mk.injEq] at h3
            rw [← h3.1, ← h3.2, hm3] at h5
            cases h5
/-- The branch "width fixed" raises the error exactly when one of its multiplications
overflows, and then returns the output structure as it got it. -/
theorem width_fixed_error (pick : List GValue → Int → Int → Option GValue) (u : Uninit)
    (from_h dn dd w : Int) (to_par : GValue) (outs : GstStructure) :
    ((fixate_width_fixed pick u from_h dn dd w to_par outs).2 = true ↔
      width_fixed_overflows pick u from_h dn dd w to_par outs) ∧
    ((fixate_width_fixed pick u from_h dn dd w to_par outs).2 = true →
      (fixate_width_fixed pick u from_h dn dd w to_par outs).1 = outs) := by
  unfold fixate_width_fixed width_fixed_overflows
  by_cases hf : gst_value_is_fixed to_par = true
  · simp only [hf, if_true]
    cases hm : gst_util_fraction_multiply dn dd (gst_value_get_fraction_denominator to_par)
        (gst_value_get_fraction_numerator to_par) with
    | none => simp
    | some r => simp
  · simp only [hf, Bool.false_eq_true, if_false]
    generalize (gst_structure_get_int (gst_structure_fixate_field_nearest_int outs "height"
      from_h) "height").getD u.set_h = sh
    cases hm : gst_util_fraction_multiply dn dd sh w with
    | none => simp
    | some r =>
      obtain ⟨n1, d1⟩ := r
      simp only [false_or, reduceCtorEq, Option.some.injEq, Prod.mk.injEq]
      cases hsp : (gst_structure_get_fraction
          (tmp_with_par pick (gst_structure_fixate_field_nearest_int outs "height" from_h) to_par
            n1 d1) "pixel-aspect-ratio").getD (u.set_par_n, u.set_par_d) with
      | mk spn spd =>
        simp only
        by_cases heq : spn = n1 ∧ spd = d1
        · rw [if_pos heq]
          constructor
          · constructor
            · intro he
              exfalso
              split_ifs at he
            · rintro ⟨a, b, c, e, ⟨h1, h2⟩, h3, h4, _⟩
              exfalso
              subst h1; subst h2
              rw [hsp] at h3
              simp only [Prod.mk.injEq] at h3
              exact h4 ⟨h3.1.symm ▸ heq.1, h3.2.symm ▸ heq.2⟩
          · intro he
            exfalso
            split_ifs at he
        · rw [if_neg heq]
          cases hm3 : gst_util_fraction_multiply dn dd spd spn with
          | none =>
            simp only [true_iff, forall_true_left, and_true]
            exact ⟨n1, d1, spn, spd, ⟨rfl, rfl⟩, hsp, heq, hm3⟩
          | some r3 =>
            simp only [Bool.false_eq_true, false_iff, false_implies, and_true]
            rintro ⟨a, b, c, e, ⟨h1, h2⟩, h3, _, h5⟩
            subst h1; subst h2
            rw [hsp] at h3
            simp only [Prod.mk.injEq] at h3
            rw [← h3.1, ← h3.2, hm3] at h5
            cases h5

/-- The branch "PAR fixed" raises the error exactly when the multiplication of line 731
overflows, and then returns the output structure as it got it. -/
theorem par_fixed_error (u : Uninit) (from_w from_h dn dd : Int) (to_par : GValue)
    (outs : GstStructure) :
    ((fixate_par_fixed u from_w from_h dn dd to_par outs).2 = true ↔
      gst_util_fraction_multiply dn dd (gst_value_get_fraction_numerator to_par)
        (gst_value_get_fraction_denominator to_par) = none) ∧
    ((fixate_par_fixed u from_w from_h dn dd to_par outs).2 = true →
      (fixate_par_fixed u from_w from_h dn dd to_par outs).1 = outs) := by
  unfold fixate_par_fixed
  simp only
  cases hm : gst_util_fraction_multiply dn dd (gst_value_get_fraction_numerator to_par)
      (gst_value_get_fraction_denominator to_par) with
  | none => simp
  | some r =>
    simp only [reduceCtorEq, iff_false]
    constructor
    · intro he
      split_ifs at he
    · intro he
      exfalso
      split_ifs at he

/-- The branch "nothing fixed" raises the error exactly when one of its multiplications
overflows, and then returns the output structure as it got it. -/
theorem nothing_fixed_error (pick : List GValue → Int → Int → Option GValue) (u : Uninit)
    (from_w from_h dn dd : Int) (to_par : GValue) (outs : GstStructure) :
    ((fixate_nothing_fixed pick u from_w from_h dn dd to_par outs).2 = true ↔
      nothing_fixed_overflows pick u from_w from_h dn dd to_par outs) ∧
    ((fixate_nothing_fixed pick u from_w from_h dn dd to_par outs).2 = true →
      (fixate_nothing_fixed pick u from_w from_h dn dd to_par outs).1 = outs) := by
  unfold fixate_nothing_fixed nothing_fixed_overflows
  simp only
  generalize (gst_structure_get_int (gst_structure_fixate_field_nearest_int outs "height"
    from_h) "height").getD u.set_h = sh
  generalize (gst_structure_get_int (gst_structure_fixate_field_nearest_int
    (gst_structure_fixate_field_nearest_int outs "height" from_h) "width" from_w)
    "width").getD u.set_w = sw
  cases hm : gst_util_fraction_multiply dn dd sh sw with
  | none => simp
  | some r =>
    obtain ⟨n1, d1⟩ := r
    simp only [false_or, reduceCtorEq, Option.some.injEq, Prod.mk.injEq]
    cases hsp : (gst_structure_get_fraction
        (tmp_with_par pick (gst_structure_fixate_field_nearest_int
          (gst_structure_fixate_field_nearest_int outs "height" from_h) "width" from_w) to_par
          n1 d1) "pixel-aspect-ratio").getD (u.set_par_n, u.set_par_d) with
    | mk spn spd =>
      simp only
      by_cases heq : spn = n1 ∧ spd = d1
      · rw [if_pos heq]
        simp only [Bool.false_eq_true, false_iff, false_implies, and_true]
        rintro ⟨a, b, c, e, ⟨h1, h2⟩, h3, h4, _⟩
        subst h1; subst h2
        rw [hsp] at h3
        simp only [Prod.mk.injEq] at h3
        exact h4 ⟨h3.1.symm ▸ heq.1, h3.2.symm ▸ heq.2⟩
      · rw [if_neg heq]
        cases hm3 : gst_util_fraction_multiply dn dd spd spn with
        | none =>
          simp only [true_iff, forall_true_left, and_true]
          exact ⟨n1, d1, spn, spd, ⟨rfl, rfl⟩, hsp, heq, hm3⟩
        | some r3 =>
          simp only
          constructor
          · constructor
            · intro he
              exfalso
              split_ifs at he
            · rintro ⟨a, b, c, e, ⟨h1, h2⟩, h3, _, h5⟩
              exfalso
              subst h1; subst h2
              rw [hsp] at h3
              simp only [Prod.mk.injEq] at h3
              rw [← h3.1, ← h3.2, hm3] at h5
              cases h5
          · intro he
            exfalso
            split_ifs at he

/-- Lines 535-863: with both dimensions fixed no error is raised; otherwise the error is raised
exactly when a multiplication overflows; and whenever it is raised the output structure is
returned as it was. -/
theorem size_dims_error (pick : List GValue → Int → Int → Option GValue) (u : Uninit)
    (from_w from_h fpn fpd w h : Int) (to_par : GValue) (outs : GstStructure) :
    ((w ≠ 0 ∧ h ≠ 0) → (fixate_size_dims pick u from_w from_h fpn fpd w h to_par outs).error =
      false) ∧
    (¬ (w ≠ 0 ∧ h ≠ 0) →
      ((fixate_size_dims pick u from_w from_h fpn fpd w h to_par outs).error = true ↔
        multiplication_overflows pick u from_w from_h fpn fpd w h to_par outs)) ∧
    ((fixate_size_dims pick u from_w from_h fpn fpd w h to_par outs).error = true →
      (fixate_size_dims pick u from_w from_h fpn fpd w h to_par outs).outs = outs) ∧
    (fixate_size_dims pick u from_w from_h fpn fpd w h to_par outs).done = true := by
  unfold fixate_size_dims multiplication_overflows
  by_cases hb : w ≠ 0 ∧ h ≠ 0
  · rw [if_pos hb]
    refine ⟨fun _ => ?_, fun hn => absurd hb hn, fun he => ?_, ?_⟩
    · split_ifs <;> (try split) <;> (try split_ifs) <;> rfl
    · exfalso
      revert he
      split_ifs <;> (try split) <;> (try split_ifs) <;> simp
    · split_ifs <;> (try split) <;> (try split_ifs) <;> rfl
  · rw [if_neg hb]
    refine ⟨fun h0 => absurd h0 hb, fun _ => ?_, ?_, ?_⟩
    · cases hm : gst_util_fraction_multiply from_w from_h fpn fpd with
      | none => simp
      | some r =>
        obtain ⟨dn, dd⟩ := r
        simp only [false_or, reduceCtorEq, Option.some.injEq, Prod.mk.injEq]
        constructor
        · intro he
          refine ⟨dn, dd, ⟨rfl, rfl⟩, ?_⟩
          split_ifs at he ⊢
          · exact (height_fixed_error pick u from_w dn dd h to_par outs).1.1 he
          · exact (width_fixed_error pick u from_h dn dd w to_par outs).1.1 he
          · exact (par_fixed_error u from_w from_h dn dd to_par outs).1.1 he
          · exact (nothing_fixed_error pick u from_w from_h dn dd to_par outs).1.1 he
        · rintro ⟨a, b, ⟨h1, h2⟩, he⟩
          subst h1; subst h2
          split_ifs at he ⊢
          · exact (height_fixed_error pick u from_w dn dd h to_par outs).1.2 he
          · exact (width_fixed_error pick u from_h dn dd w to_par outs).1.2 he
          · exact (par_fixed_error u from_w from_h dn dd to_par outs).1.2 he
          · exact (nothing_fixed_error pick u from_w from_h dn dd to_par outs).1.2 he
    · cases hm : gst_util_fraction_multiply from_w from_h fpn fpd with
      | none => simp
      | some r =>
        obtain ⟨dn, dd⟩ := r
        simp only
        intro he
        split_ifs at he ⊢
        · exact (height_fixed_error pick u from_w dn dd h to_par outs).2 he
        · exact (width_fixed_error pick u from_h dn dd w to_par outs).2 he
        · exact (par_fixed_error u from_w from_h dn dd to_par outs).2 he
        · exact (nothing_fixed_error pick u from_w from_h dn dd to_par outs).2 he
    · cases hm : gst_util_fraction_multiply from_w from_h fpn fpd with
      | none => rfl
      | some r =>
        obtain ⟨dn, dd⟩ := r
        simp only
        split_ifs <;> rfl

/-- C21 (amended): size fixation raises the negotiation error exactly when a fraction
multiplication overflows while the output width and height are not both fixed: the input DAR
product of line 556 or any later multiplication of the branch taken (`size_fixation_overflows`).
Whenever the error is raised, the first output structure is, in every field but `format`, as it
was before the computation (no dimension or PAR is written).  When both output dimensions are
fixed no error is raised, whatever the display-ratio computation of line 543 does. -/
theorem fixate_size_error_iff_overflow (get_info : String → Option GstVideoFormatInfo)
    (pick : List GValue → Int → Int → Option GValue) (u : Uninit) (direction : GstPadDirection)
    (caps : GstCaps) (outs : GstStructure) (rest : GstCaps) :
    ((gst_imx_ipu_video_transform_fixate_size_caps get_info pick u direction caps
        (outs :: rest)).error = true ↔
      size_fixation_overflows pick u direction (caps.headD ⟨[]⟩) outs) ∧
    ((gst_imx_ipu_video_transform_fixate_size_caps get_info pick u direction caps
        (outs :: rest)).error = true →
      ∃ outs1,
        (gst_imx_ipu_video_transform_fixate_size_caps get_info pick u direction caps
          (outs :: rest)).caps = outs1 :: rest ∧
        ∀ f, f ≠ "format" → gst_structure_get_value outs1 f =
          gst_structure_get_value (outs_with_default_par direction outs) f) ∧
    (∀ w h : Int, gst_structure_get_value outs "width" = some (.int w) →
      gst_structure_get_value outs "height" = some (.int h) → w ≠ 0 → h ≠ 0 →
      (gst_imx_ipu_video_transform_fixate_size_caps get_info pick u direction caps
        (outs :: rest)).error = false) := by
  have herr : (gst_imx_ipu_video_transform_fixate_size_caps get_info pick u direction caps
      (outs :: rest)).error =
      (fixate_size_structure pick u direction (caps.headD ⟨[]⟩) outs).error := by
    unfold gst_imx_ipu_video_transform_fixate_size_caps
    simp only
    split_ifs <;> rfl
  have hstruct : ((fixate_size_structure pick u direction (caps.headD ⟨[]⟩) outs).error = true ↔
        size_fixation_overflows pick u direction (caps.headD ⟨[]⟩) outs) ∧
      ((fixate_size_structure pick u direction (caps.headD ⟨[]⟩) outs).error = true →
        (fixate_size_structure pick u direction (caps.headD ⟨[]⟩) outs).outs =
            outs_with_default_par direction outs ∧
          (fixate_size_structure pick u direction (caps.headD ⟨[]⟩) outs).done = true) := by
    unfold fixate_size_structure size_fixation_overflows
    by_cases hfp : gst_value_is_fixed ((gst_structure_get_value (caps.headD ⟨[]⟩)
        "pixel-aspect-ratio").getD (.fraction 1 1)) = true
    · simp only [hfp, Bool.not_true, Bool.false_eq_true, if_false, true_and]
      obtain ⟨d1, d2, d3, d4⟩ := size_dims_error pick u
        ((gst_structure_get_int (caps.headD ⟨[]⟩) "width").getD u.from_w)
        ((gst_structure_get_int (caps.headD ⟨[]⟩) "height").getD u.from_h)
        (gst_value_get_fraction_numerator ((gst_structure_get_value (caps.headD ⟨[]⟩)
          "pixel-aspect-ratio").getD (.fraction 1 1)))
        (gst_value_get_fraction_denominator ((gst_structure_get_value (caps.headD ⟨[]⟩)
          "pixel-aspect-ratio").getD (.fraction 1 1)))
        ((gst_structure_get_int (outs_with_default_par direction outs) "width").getD 0)
        ((gst_structure_get_int (outs_with_default_par direction outs) "height").getD 0)
        (to_par_value direction outs) (outs_with_default_par direction outs)
      refine ⟨?_, fun he => ⟨d3 he, d4⟩⟩
      by_cases hb : (gst_structure_get_int (outs_with_default_par direction outs) "width").getD 0
          ≠ 0 ∧ (gst_structure_get_int (outs_with_default_par direction outs) "height").getD 0
          ≠ 0
      · rw [d1 hb]
        simp only [Bool.false_eq_true, false_iff]
        intro hn
        exact hn.1 hb
      · rw [d2 hb]
        exact ⟨fun h => ⟨hb, h⟩, fun h => h.2⟩
    · simp only [hfp, Bool.not_false, if_true, Bool.false_eq_true, false_and, iff_false,
        false_implies, and_true, not_false_eq_true]
  refine ⟨?_, ?_, ?_⟩
  · rw [herr]; exact hstruct.1
  · intro he
    rw [herr] at he
    obtain ⟨ho, hd⟩ := hstruct.2 he
    unfold gst_imx_ipu_video_transform_fixate_size_caps
    simp only [hd, if_true]
    obtain ⟨outs1, h1, h2⟩ := fixate_format_frame get_info caps
      (fixate_size_structure pick u direction (caps.headD ⟨[]⟩) outs).outs rest
    refine ⟨outs1, h1, ?_⟩
    intro f hf
    rw [h2 f hf, ho]
  · intro w h how hoh hw hh
    rw [herr]
    cases he : (fixate_size_structure pick u direction (caps.headD ⟨[]⟩) outs).error with
    | false => rfl
    | true =>
      exfalso
      have hov := hstruct.1.1 he
      unfold size_fixation_overflows at hov
      apply hov.2.1
      have hw1 : gst_structure_get_value (outs_with_default_par direction outs) "width" =
          some (.int w) := by
        rw [get_outs_with_default_par_other direction outs "width" (by decide), how]
      have hh1 : gst_structure_get_value (outs_with_default_par direction outs) "height" =
          some (.int h) := by
        rw [get_outs_with_default_par_other direction outs "height" (by decide), hoh]
      rw [get_int_of_int _ "width" w hw1, get_int_of_int _ "height" h hh1]
      exact ⟨hw, hh⟩

/-- C21 (as stated) fails in the case "both dimensions fixed": for input 1920x1080 with PAR 1:1
and output 1x2147483647 with the unconstrained PAR range, the display-ratio computation of line
543 overflows (16/9 times 2147483647/1), and size fixation raises no error; the output is
returned as it was, its PAR still a range. -/
theorem fixate_size_display_ratio_overflow_counterexample :
    gst_util_fraction_multiply 1920 1080 1 1 = some (16, 9) ∧
    gst_util_fraction_multiply 16 9 2147483647 1 = none ∧
    gst_video_calculate_display_ratio 1920 1080 1 1 1 2147483647 = none ∧
    gst_imx_ipu_video_transform_fixate_size_caps example_get_info no_pick uninit_zero
        .GST_PAD_SINK [ex_in_1080p] [ex_out_1_by_maxint] = ⟨[ex_out_1_by_maxint], false⟩ :=
  ⟨by rfl, by rfl, by rfl, by rfl⟩

/-- C28: when the output width and height are both fixed and not 0, size fixation returns
them unchanged, for every input caps, every PAR and every direction. -/
theorem fixate_size_keeps_fixed_dimensions (get_info : String → Option GstVideoFormatInfo)
    (pick : List GValue → Int → Int → Option GValue) (u : Uninit) (direction : GstPadDirection)
    (caps : GstCaps) (outs : GstStructure) (rest : GstCaps) (w h : Int)
    (how : gst_structure_get_value outs "width" = some (.int w))
    (hoh : gst_structure_get_value outs "height" = some (.int h))
    (hw : w ≠ 0) (hh : h ≠ 0) :
    ∃ outs1,
      (gst_imx_ipu_video_transform_fixate_size_caps get_info pick u direction caps
        (outs :: rest)).caps = outs1 :: rest ∧
      gst_structure_get_value outs1 "width" = some (.int w) ∧
      gst_structure_get_value outs1 "height" = some (.int h) := by
  have hw1 : gst_structure_get_value (outs_with_default_par direction outs) "width" =
      some (.int w) := by
    rw [get_outs_with_default_par_other direction outs "width" (by decide), how]
  have hh1 : gst_structure_get_value (outs_with_default_par direction outs) "height" =
      some (.int h) := by
    rw [get_outs_with_default_par_other direction outs "height" (by decide), hoh]
  have key : ∀ g, "pixel-aspect-ratio" ≠ g →
      gst_structure_get_value (fixate_size_structure pick u direction (caps.headD ⟨[]⟩) outs).outs
        g = gst_structure_get_value (outs_with_default_par direction outs) g := by
    intro g hg
    unfold fixate_size_structure
    rw [get_int_of_int _ "width" w hw1, get_int_of_int _ "height" h hh1]
    simp only [Option.getD_some]
    generalize outs_with_default_par direction outs = outs0
    split_ifs
    · rfl
    · unfold fixate_size_dims
      rw [if_pos ⟨hw, hh⟩]
      split_ifs <;> (try split) <;> (try split_ifs) <;>
        first
        | rfl
        | exact get_nearest_fraction_other pick outs0 _ g _ _ hg
        | exact get_set_fraction_other outs0 _ g _ _ hg
  have hcaps : ∃ outs1,
      (gst_imx_ipu_video_transform_fixate_size_caps get_info pick u direction caps
        (outs :: rest)).caps = outs1 :: rest ∧
      ∀ f, f ≠ "format" → gst_structure_get_value outs1 f =
        gst_structure_get_value
          (fixate_size_structure pick u direction (caps.headD ⟨[]⟩) outs).outs f := by
    unfold gst_imx_ipu_video_transform_fixate_size_caps
    simp only
    split_ifs
    · exact fixate_format_frame get_info caps _ rest
    · exact ⟨_, rfl, fun _ _ => rfl⟩
  obtain ⟨outs1, h1, h2⟩ := hcaps
  refine ⟨outs1, h1, ?_, ?_⟩
  · rw [h2 "width" (by decide), key "width" (by decide), hw1]
  · rw [h2 "height" (by decide), key "height" (by decide), hh1]

theorem fixate_size_keeps_fixed_dimensions_witness :
    ∃ outs1,
      (gst_imx_ipu_video_transform_fixate_size_caps example_get_info no_pick uninit_zero
        .GST_PAD_SRC [ex_in_1080p] (ex_out_960x1080_nopar :: [])).caps = outs1 :: [] ∧
      gst_structure_get_value outs1 "width" = some (.int 960) ∧
      gst_structure_get_value outs1 "height" = some (.int 1080) :=
  fixate_size_keeps_fixed_dimensions example_get_info no_pick uninit_zero .GST_PAD_SRC
    [ex_in_1080p] ex_out_960x1080_nopar [] 960 1080 rfl rfl (by decide) (by decide)

/-! ## Allocator: header fields and call log -/

/-- A write through a block pointer touches only the header heap. -/
theorem update_block_frame (w : PhysMemState) (p : Nat) (f : GstImxPhysMemory → GstImxPhysMemory) :
    (update_block w p f).calls = w.calls ∧ (update_block w p f).regions = w.regions ∧
    (update_block w p f).alloc_oracle = w.alloc_oracle ∧
    (update_block w p f).faulted = w.faulted := by
  unfold update_block
  split <;> exact ⟨rfl, rfl, rfl, rfl⟩

/-- A `map_phys_mem` call appends one event to the call log. -/
theorem map_phys_mem_calls (w : PhysMemState) (p : Option Nat) (maxsize flags : Nat) :
    (map_phys_mem w p maxsize flags).1.calls =
      w.calls ++ [Event.map_phys_mem p maxsize flags] := by
  unfold map_phys_mem
  cases p with
  | none => rfl
  | some q =>
    simp only
    cases block_at w q with
    | none => rfl
    | some b => simp only [(update_block_frame _ _ _).1]; rfl

/-- An `unmap_phys_mem` call appends one event to the call log. -/
theorem unmap_phys_mem_calls (w : PhysMemState) (p : Option Nat) :
    (unmap_phys_mem w p).calls = w.calls ++ [Event.unmap_phys_mem p] := by
  unfold unmap_phys_mem
  cases p with
  | none => rfl
  | some q =>
    simp only
    cases block_at w q with
    | none => rfl
    | some b => simp only [(update_block_frame _ _ _).1]; rfl

/-- A `memcpy` appends one event to the call log and leaves the header heap alone. -/
theorem memcpy_regions_frame (w : PhysMemState) (d s : Option Nat) (n : Nat) :
    (memcpy_regions w d s n).calls = w.calls ++ [Event.memcpy d s n] ∧
    (memcpy_regions w d s n).blocks = w.blocks := by
  unfold memcpy_regions
  cases d with
  | none => exact ⟨rfl, rfl⟩
  | some a =>
    cases s with
    | none => exact ⟨rfl, rfl⟩
    | some b =>
      simp only
      cases w.regions[a]? with
      | none => exact ⟨rfl, rfl⟩
      | some ra =>
        cases w.regions[b]? with
        | none => exact ⟨rfl, rfl⟩
        | some rb =>
          simp only
          split_ifs <;> exact ⟨rfl, rfl⟩

/-- A `memset` appends one event to the call log and leaves the header heap alone. -/
theorem memset_zero_frame (w : PhysMemState) (p : Option Nat) (n : Nat) :
    (memset_zero w p n).calls = w.calls ++ [Event.memset p n] ∧
    (memset_zero w p n).blocks = w.blocks := by
  unfold memset_zero
  cases p with
  | none => exact ⟨rfl, rfl⟩
  | some a =>
    simp only
    cases w.regions[a]? with
    | none => exact ⟨rfl, rfl⟩
    | some ra =>
      simp only
      split_ifs <;> exact ⟨rfl, rfl⟩

/-- The call log of a successful `alloc_internal` without flags. -/
theorem alloc_internal_ok_calls (w : PhysMemState) (parent : Option Nat)
    (maxsize align offset size : Nat) (g : AllocGrant) (rest : List (Option AllocGrant))
    (ho : w.alloc_oracle = some g :: rest) :
    (gst_imx_phys_mem_allocator_alloc_internal w parent maxsize 0 align offset size).1.calls =
      w.calls ++ [Event.alloc_phys_mem w.blocks.length maxsize] := by
  have hz : ¬ (offset > 0 ∧ 0 &&& GST_MEMORY_FLAG_ZERO_PREFIXED ≠ 0) := by
    simp [GST_MEMORY_FLAG_ZERO_PREFIXED]
  unfold gst_imx_phys_mem_allocator_alloc_internal
  have hal : (alloc_phys_mem
      (gst_imx_phys_mem_new_internal w parent maxsize 0 align offset size).1
      (gst_imx_phys_mem_new_internal w parent maxsize 0 align offset size).2 maxsize).2 = true ∧
      (alloc_phys_mem
      (gst_imx_phys_mem_new_internal w parent maxsize 0 align offset size).1
      (gst_imx_phys_mem_new_internal w parent maxsize 0 align offset size).2 maxsize).1.calls =
      w.calls ++ [Event.alloc_phys_mem w.blocks.length maxsize] := by
    simp only [alloc_phys_mem, gst_imx_phys_mem_new_internal, ho, List.head?_cons]
    exact ⟨trivial, by simp only [(update_block_frame _ _ _).1]; rfl⟩
  simp only [hal.1, Bool.not_true, Bool.false_eq_true, if_false, hz, hal.2]

/-- The header that `copy` returns, the call log of the copy, and the source header after
it. -/
theorem copy_header (w : PhysMemState) (mem : Nat) (b : GstImxPhysMemory)
    (offset size : Int) (g : AllocGrant) (rest : List (Option AllocGrant))
    (hb : block_at w mem = some b)
    (ho : w.alloc_oracle = some g :: rest) :
    (gst_imx_phys_mem_allocator_copy w mem offset size).2 = some w.blocks.length ∧
    block_at (gst_imx_phys_mem_allocator_copy w mem offset size).1 w.blocks.length =
      some { flags := 0 ||| GST_MINI_OBJECT_FLAG_LOCKABLE, parent := none, maxsize := b.maxsize,
             align := b.align, offset := to_gsize ((b.offset : Int) + offset),
             size := resolve_size b.size offset size, mapped_virt_addr := none,
             phys_addr := w.regions.length + 1, cpu_addr := g.cpu_addr } ∧
    block_at (gst_imx_phys_mem_allocator_copy w mem offset size).1 mem =
      some { b with mapped_virt_addr := none } ∧
    ∃ destptr srcptr,
      (gst_imx_phys_mem_allocator_copy w mem offset size).1.calls =
        w.calls ++ [Event.alloc_phys_mem w.blocks.length b.maxsize,
          Event.map_phys_mem (some mem) b.maxsize GST_MAP_READ,
          Event.map_phys_mem (some w.blocks.length) b.maxsize GST_MAP_WRITE,
          Event.memcpy destptr srcptr b.maxsize,
          Event.unmap_phys_mem (some w.blocks.length),
          Event.unmap_phys_mem (some mem)] := by
  have hmemlt := block_at_lt w mem b hb
  obtain ⟨a2, a3, a4, a5⟩ := alloc_internal_ok w none b.maxsize b.align
    (to_gsize ((b.offset : Int) + offset)) (resolve_size b.size offset size) g rest ho
  have a6 := alloc_internal_ok_calls w none b.maxsize b.align
    (to_gsize ((b.offset : Int) + offset)) (resolve_size b.size offset size) g rest ho
  simp only [gst_imx_phys_mem_allocator_copy, hb]
  generalize gst_imx_phys_mem_allocator_alloc_internal w none b.maxsize 0 b.align
    (to_gsize ((b.offset : Int) + offset)) (resolve_size b.size offset size) = r1
    at a2 a3 a4 a5 a6
  rw [a2]
  have hb1 : block_at r1.1 mem = some b := by rw [a5, if_neg (ne_of_lt hmemlt)]; exact hb
  obtain ⟨m2, m3, m4, m5⟩ := map_phys_mem_live r1.1 mem b b.maxsize GST_MAP_READ hb1
  have m6 := map_phys_mem_calls r1.1 (some mem) b.maxsize GST_MAP_READ
  generalize map_phys_mem r1.1 (some mem) b.maxsize GST_MAP_READ = r2 at m2 m3 m4 m5 m6
  have hc2 := m5 w.blocks.length
  rw [if_neg (Ne.symm (ne_of_lt hmemlt)), a5, if_pos rfl] at hc2
  obtain ⟨n2, n3, n4, n5⟩ := map_phys_mem_live r2.1 w.blocks.length _ b.maxsize GST_MAP_WRITE hc2
  have n6 := map_phys_mem_calls r2.1 (some w.blocks.length) b.maxsize GST_MAP_WRITE
  generalize map_phys_mem r2.1 (some w.blocks.length) b.maxsize GST_MAP_WRITE = r3
    at n2 n3 n4 n5 n6
  obtain ⟨c1, c2⟩ := memcpy_regions_frame r3.1 r3.2 r2.2 b.maxsize
  have c5 : ∀ q, block_at (memcpy_regions r3.1 r3.2 r2.2 b.maxsize) q = block_at r3.1 q := by
    intro q; unfold block_at; rw [c2]
  generalize memcpy_regions r3.1 r3.2 r2.2 b.maxsize = w4 at c1 c5
  have hc4 := c5 w.blocks.length
  rw [n5, if_pos rfl] at hc4
  obtain ⟨u2, u3, u4⟩ := unmap_phys_mem_live w4 w.blocks.length _ hc4
  have u6 := unmap_phys_mem_calls w4 (some w.blocks.length)
  generalize unmap_phys_mem w4 (some w.blocks.length) = w5 at u2 u3 u4 u6
  have hm5 : block_at w5 mem = some { b with mapped_virt_addr := r2.2 } := by
    rw [u4, if_neg (ne_of_lt hmemlt), c5, n5, if_neg (ne_of_lt hmemlt), m5, if_pos rfl, m2]
  obtain ⟨v2, v3, v4⟩ := unmap_phys_mem_live w5 mem _ hm5
  have v6 := unmap_phys_mem_calls w5 (some mem)
  generalize unmap_phys_mem w5 (some mem) = w6 at v2 v3 v4 v6
  refine ⟨rfl, ?_, ?_, r3.2, r2.2, ?_⟩
  · rw [v4, if_neg (Ne.symm (ne_of_lt hmemlt)), u4, if_pos rfl]
  · rw [v4, if_pos rfl]
  · rw [v6, u6, c1, n6, m6, a6]
    simp

/-- The default-size rule in integers: with a block size that fits `gssize` and an offset in the
range of `gssize`, the size -1 resolves to `max(0, s - offset)`, and an explicit non-negative
size to itself. -/
theorem resolve_size_spec (s : Nat) (offset size : Int) (hs : s < 2147483648)
    (ho1 : -2147483648 ≤ offset) (ho2 : offset < 2147483648)
    (hsz : size = -1 ∨ (0 ≤ size ∧ size < 2147483648)) :
    (resolve_size s offset size : Int) = if size = -1 then max 0 ((s : Int) - offset) else size := by
  unfold resolve_size to_gssize to_gsize
  have e1 : s % 4294967296 = s := Nat.mod_eq_of_lt (by omega)
  rw [e1, if_pos hs]
  rcases hsz with h | ⟨h1, h2⟩
  · subst h
    simp only [if_true]
    by_cases hc : (s : Int) > offset
    · rw [if_pos hc, max_eq_right (by omega)]
      rw [Int.emod_eq_of_lt (by omega) (by omega), Int.toNat_of_nonneg (by omega)]
    · rw [if_neg hc, max_eq_left (by omega)]
      rfl
  · have hne : size ≠ -1 := by omega
    rw [if_neg hne, if_neg hne, Int.emod_eq_of_lt h1 (by omega), Int.toNat_of_nonneg h1]

/-- C22: for `share` and for `copy` (the backend granting the allocation), with a block size,
an offset and a size argument that fit `gssize`: the size of the resulting block is
`max(0, s - offset)` when the size argument is -1, and the size argument itself when it is given
(non-negative). -/
theorem copy_share_default_size (w : PhysMemState) (mem : Nat) (m pb : GstImxPhysMemory)
    (offset size : Int) (g : AllocGrant) (rest : List (Option AllocGrant))
    (hm : block_at w mem = some m)
    (hp : block_at w (m.parent.getD mem) = some pb)
    (ho : w.alloc_oracle = some g :: rest)
    (hs : m.size < 2147483648)
    (ho1 : -2147483648 ≤ offset) (ho2 : offset < 2147483648)
    (hsz : size = -1 ∨ (0 ≤ size ∧ size < 2147483648)) :
    ∃ sub cp,
      (gst_imx_phys_mem_allocator_share w mem offset size).2 = some w.blocks.length ∧
      block_at (gst_imx_phys_mem_allocator_share w mem offset size).1 w.blocks.length =
        some sub ∧
      (sub.size : Int) = (if size = -1 then max 0 ((m.size : Int) - offset) else size) ∧
      (gst_imx_phys_mem_allocator_copy w mem offset size).2 = some w.blocks.length ∧
      block_at (gst_imx_phys_mem_allocator_copy w mem offset size).1 w.blocks.length =
        some cp ∧
      (cp.size : Int) = (if size = -1 then max 0 ((m.size : Int) - offset) else size) := by
  obtain ⟨c1, c2, _, _⟩ := copy_header w mem m offset size g rest hm ho
  rcases share_blocks w mem offset size with ⟨h1, _⟩ | ⟨m1, pb1, e1, e2, e3, e4⟩
  · exfalso
    simp [gst_imx_phys_mem_allocator_share, hm, hp] at h1
  · rw [hm] at e1
    cases e1
    have e5 := e4 w.blocks.length
    rw [if_pos rfl] at e5
    exact ⟨_, _, e3, e5, resolve_size_spec m.size offset size hs ho1 ho2 hsz, c1, c2,
      resolve_size_spec m.size offset size hs ho1 ho2 hsz⟩

theorem copy_share_default_size_witness :
    ∃ sub cp,
      (gst_imx_phys_mem_allocator_share ex_state 0 1 (-1)).2 = some ex_state.blocks.length ∧
      block_at (gst_imx_phys_mem_allocator_share ex_state 0 1 (-1)).1 ex_state.blocks.length =
        some sub ∧
      (sub.size : Int) = (if (-1 : Int) = -1 then max 0 ((ex_block.size : Int) - 1) else -1) ∧
      (gst_imx_phys_mem_allocator_copy ex_state 0 1 (-1)).2 = some ex_state.blocks.length ∧
      block_at (gst_imx_phys_mem_allocator_copy ex_state 0 1 (-1)).1 ex_state.blocks.length =
        some cp ∧
      (cp.size : Int) = (if (-1 : Int) = -1 then max 0 ((ex_block.size : Int) - 1) else -1) :=
  copy_share_default_size ex_state 0 ex_block ex_block 1 (-1) ⟨8192, [7, 7]⟩ [] (by rfl) (by rfl)
    (by rfl) (by decide) (by decide) (by decide) (Or.inl rfl)

/-- The read-only bit is set in every flag word that `share` builds. -/
theorem readonly_bit_set (x : Nat) :
    ((x ||| GST_MINI_OBJECT_FLAG_LOCK_READONLY) ||| GST_MINI_OBJECT_FLAG_LOCKABLE) &&&
      GST_MINI_OBJECT_FLAG_LOCK_READONLY ≠ 0 := by
  intro h
  have h1 : (((x ||| GST_MINI_OBJECT_FLAG_LOCK_READONLY) ||| GST_MINI_OBJECT_FLAG_LOCKABLE) &&&
      GST_MINI_OBJECT_FLAG_LOCK_READONLY).testBit 1 = false := by
    rw [h]; simp
  have t2 : Nat.testBit GST_MINI_OBJECT_FLAG_LOCK_READONLY 1 = true := by decide
  rw [Nat.testBit_and, Nat.testBit_or, Nat.testBit_or, t2] at h1
  simp at h1

/-- C24: `share(m, offset, size)` on a live block `m` (with a live parent, if it has one)
returns a new block with offset `m.offset + offset` (in `gsize` arithmetic), the resolved size,
`maxsize = m.maxsize`, `align = m.align`, a non-null parent, the flag
`GST_MINI_OBJECT_FLAG_LOCK_READONLY` set and the addresses of `m`; it makes no call into the
backend or to `memcpy` / `memset`, changes no region, and leaves `m` and every other block as
they were. -/
theorem share_creates_view (w : PhysMemState) (mem : Nat) (m pb : GstImxPhysMemory)
    (offset size : Int)
    (hm : block_at w mem = some m)
    (hp : block_at w (m.parent.getD mem) = some pb) :
    (gst_imx_phys_mem_allocator_share w mem offset size).2 = some w.blocks.length ∧
    (∃ sub parent,
      block_at (gst_imx_phys_mem_allocator_share w mem offset size).1 w.blocks.length =
        some sub ∧
      sub.offset = to_gsize ((m.offset : Int) + offset) ∧
      (0 ≤ (m.offset : Int) + offset → (m.offset : Int) + offset < 4294967296 →
        (sub.offset : Int) = (m.offset : Int) + offset) ∧
      sub.size = resolve_size m.size offset size ∧
      sub.maxsize = m.maxsize ∧ sub.align = m.align ∧
      sub.parent = some parent ∧
      sub.flags &&& GST_MINI_OBJECT_FLAG_LOCK_READONLY ≠ 0 ∧
      sub.phys_addr = m.phys_addr ∧ sub.cpu_addr = m.cpu_addr) ∧
    (gst_imx_phys_mem_allocator_share w mem offset size).1.calls = w.calls ∧
    (gst_imx_phys_mem_allocator_share w mem offset size).1.regions = w.regions ∧
    (gst_imx_phys_mem_allocator_share w mem offset size).1.alloc_oracle = w.alloc_oracle ∧
    (gst_imx_phys_mem_allocator_share w mem offset size).1.faulted = w.faulted ∧
    block_at (gst_imx_phys_mem_allocator_share w mem offset size).1 mem = some m ∧
    ∀ q, q ≠ w.blocks.length →
      block_at (gst_imx_phys_mem_allocator_share w mem offset size).1 q = block_at w q := by
  have hmemlt := block_at_lt w mem m hm
  rcases share_blocks w mem offset size with ⟨h1, _⟩ | ⟨m1, pb1, e1, e2, e3, e4⟩
  · exfalso
    simp [gst_imx_phys_mem_allocator_share, hm, hp] at h1
  · rw [hm] at e1
    cases e1
    rw [hp] at e2
    cases e2
    have e5 := e4 w.blocks.length
    rw [if_pos rfl] at e5
    have hframe : (gst_imx_phys_mem_allocator_share w mem offset size).1.calls = w.calls ∧
        (gst_imx_phys_mem_allocator_share w mem offset size).1.regions = w.regions ∧
        (gst_imx_phys_mem_allocator_share w mem offset size).1.alloc_oracle = w.alloc_oracle ∧
        (gst_imx_phys_mem_allocator_share w mem offset size).1.faulted = w.faulted := by
      simp only [gst_imx_phys_mem_allocator_share, hm, hp]
      exact update_block_frame _ _ _
    refine ⟨e3, ⟨_, _, e5, rfl, ?_, rfl, rfl, rfl, rfl, readonly_bit_set _, rfl, rfl⟩,
      hframe.1, hframe.2.1, hframe.2.2.1, hframe.2.2.2, ?_, ?_⟩
    · intro h0 h1
      show ((to_gsize ((m.offset : Int) + offset) : Nat) : Int) = (m.offset : Int) + offset
      unfold to_gsize
      rw [Int.emod_eq_of_lt h0 h1, Int.toNat_of_nonneg h0]
    · rw [e4, if_neg (ne_of_lt hmemlt)]; exact hm
    · intro q hq
      rw [e4, if_neg hq]

theorem share_creates_view_witness :
    (gst_imx_phys_mem_allocator_share ex_state 0 1 2).2 = some ex_state.blocks.length ∧
    (∃ sub parent,
      block_at (gst_imx_phys_mem_allocator_share ex_state 0 1 2).1 ex_state.blocks.length =
        some sub ∧
      sub.offset = to_gsize ((ex_block.offset : Int) + 1) ∧
      (0 ≤ (ex_block.offset : Int) + 1 → (ex_block.offset : Int) + 1 < 4294967296 →
        (sub.offset : Int) = (ex_block.offset : Int) + 1) ∧
      sub.size = resolve_size ex_block.size 1 2 ∧
      sub.maxsize = ex_block.maxsize ∧ sub.align = ex_block.align ∧
      sub.parent = some parent ∧
      sub.flags &&& GST_MINI_OBJECT_FLAG_LOCK_READONLY ≠ 0 ∧
      sub.phys_addr = ex_block.phys_addr ∧ sub.cpu_addr = ex_block.cpu_addr) ∧
    (gst_imx_phys_mem_allocator_share ex_state 0 1 2).1.calls = ex_state.calls ∧
    (gst_imx_phys_mem_allocator_share ex_state 0 1 2).1.regions = ex_state.regions ∧
    (gst_imx_phys_mem_allocator_share ex_state 0 1 2).1.alloc_oracle = ex_state.alloc_oracle ∧
    (gst_imx_phys_mem_allocator_share ex_state 0 1 2).1.faulted = ex_state.faulted ∧
    block_at (gst_imx_phys_mem_allocator_share ex_state 0 1 2).1 0 = some ex_block ∧
    ∀ q, q ≠ ex_state.blocks.length →
      block_at (gst_imx_phys_mem_allocator_share ex_state 0 1 2).1 q = block_at ex_state q :=
  share_creates_view ex_state 0 ex_block ex_block 1 2 (by rfl) (by rfl)

/-- C25: when the backend grants the allocation, `copy(m, offset, size)` requests exactly
`m.maxsize` bytes (one `alloc_phys_mem` call) and returns a new block without parent, with
`maxsize = m.maxsize`, `align = m.align`, offset `m.offset + offset` (in `gsize` arithmetic), the
resolved size, and only the flag `GST_MINI_OBJECT_FLAG_LOCKABLE` that every block gets: no flag of
`m` is carried over, the copy is not read-only, and no `memset` is called. -/
theorem copy_creates_parentless_block (w : PhysMemState) (mem : Nat) (m : GstImxPhysMemory)
    (offset size : Int) (g : AllocGrant) (rest : List (Option AllocGrant))
    (hm : block_at w mem = some m)
    (ho : w.alloc_oracle = some g :: rest) :
    (gst_imx_phys_mem_allocator_copy w mem offset size).2 = some w.blocks.length ∧
    (∃ cp,
      block_at (gst_imx_phys_mem_allocator_copy w mem offset size).1 w.blocks.length =
        some cp ∧
      cp.parent = none ∧ cp.maxsize = m.maxsize ∧ cp.align = m.align ∧
      cp.offset = to_gsize ((m.offset : Int) + offset) ∧
      (0 ≤ (m.offset : Int) + offset → (m.offset : Int) + offset < 4294967296 →
        (cp.offset : Int) = (m.offset : Int) + offset) ∧
      cp.size = resolve_size m.size offset size ∧
      cp.flags = GST_MINI_OBJECT_FLAG_LOCKABLE ∧
      cp.flags &&& GST_MINI_OBJECT_FLAG_LOCK_READONLY = 0 ∧
      cp.flags &&& GST_MEMORY_FLAG_ZERO_PREFIXED = 0) ∧
    ∃ destptr srcptr,
      (gst_imx_phys_mem_allocator_copy w mem offset size).1.calls =
        w.calls ++ [Event.alloc_phys_mem w.blocks.length m.maxsize,
          Event.map_phys_mem (some mem) m.maxsize GST_MAP_READ,
          Event.map_phys_mem (some w.blocks.length) m.maxsize GST_MAP_WRITE,
          Event.memcpy destptr srcptr m.maxsize,
          Event.unmap_phys_mem (some w.blocks.length),
          Event.unmap_phys_mem (some mem)] := by
  obtain ⟨c1, c2, _, c4⟩ := copy_header w mem m offset size g rest hm ho
  have f1 : 0 ||| GST_MINI_OBJECT_FLAG_LOCKABLE = GST_MINI_OBJECT_FLAG_LOCKABLE := by decide
  have f2 : (0 ||| GST_MINI_OBJECT_FLAG_LOCKABLE) &&& GST_MINI_OBJECT_FLAG_LOCK_READONLY = 0 := by
    decide
  have f3 : (0 ||| GST_MINI_OBJECT_FLAG_LOCKABLE) &&& GST_MEMORY_FLAG_ZERO_PREFIXED = 0 := by
    decide
  refine ⟨c1, ⟨_, c2, rfl, rfl, rfl, rfl, ?_, rfl, f1, f2, f3⟩, c4⟩
  intro h0 h1
  show ((to_gsize ((m.offset : Int) + offset) : Nat) : Int) = (m.offset : Int) + offset
  unfold to_gsize
  rw [Int.emod_eq_of_lt h0 h1, Int.toNat_of_nonneg h0]

theorem copy_creates_parentless_block_witness :
    (gst_imx_phys_mem_allocator_copy ex_state 0 1 (-1)).2 = some ex_state.blocks.length ∧
    (∃ cp,
      block_at (gst_imx_phys_mem_allocator_copy ex_state 0 1 (-1)).1 ex_state.blocks.length =
        some cp ∧
      cp.parent = none ∧ cp.maxsize = ex_block.maxsize ∧ cp.align = ex_block.align ∧
      cp.offset = to_gsize ((ex_block.offset : Int) + 1) ∧
      (0 ≤ (ex_block.offset : Int) + 1 → (ex_block.offset : Int) + 1 < 4294967296 →
        (cp.offset : Int) = (ex_block.offset : Int) + 1) ∧
      cp.size = resolve_size ex_block.size 1 (-1) ∧
      cp.flags = GST_MINI_OBJECT_FLAG_LOCKABLE ∧
      cp.flags &&& GST_MINI_OBJECT_FLAG_LOCK_READONLY = 0 ∧
      cp.flags &&& GST_MEMORY_FLAG_ZERO_PREFIXED = 0) ∧
    ∃ destptr srcptr,
      (gst_imx_phys_mem_allocator_copy ex_state 0 1 (-1)).1.calls =
        ex_state.calls ++ [Event.alloc_phys_mem ex_state.blocks.length ex_block.maxsize,
          Event.map_phys_mem (some 0) ex_block.maxsize GST_MAP_READ,
          Event.map_phys_mem (some ex_state.blocks.length) ex_block.maxsize GST_MAP_WRITE,
          Event.memcpy destptr srcptr ex_block.maxsize,
          Event.unmap_phys_mem (some ex_state.blocks.length),
          Event.unmap_phys_mem (some 0)] :=
  copy_creates_parentless_block ex_state 0 ex_block 1 (-1) ⟨8192, [7, 7]⟩ [] (by rfl) (by rfl)

/-- A successful `alloc_phys_mem` on a fresh header: the state after it. -/
theorem alloc_phys_mem_ok (w : PhysMemState) (parent : Option Nat)
    (maxsize flags align offset size : Nat) (g : AllocGrant) (rest : List (Option AllocGrant))
    (ho : w.alloc_oracle = some g :: rest) :
    alloc_phys_mem (gst_imx_phys_mem_new_internal w parent maxsize flags align offset size).1
      (gst_imx_phys_mem_new_internal w parent maxsize flags align offset size).2 maxsize =
      ({ blocks := w.blocks ++ [some
            { flags := flags ||| GST_MINI_OBJECT_FLAG_LOCKABLE, parent := parent,
              maxsize := maxsize, align := align, offset := offset, size := size,
              mapped_virt_addr := none, phys_addr := w.regions.length + 1,
              cpu_addr := g.cpu_addr }],
         regions := w.regions ++ [(g.contents ++ List.replicate maxsize 0).take maxsize],
         alloc_oracle := rest,
         calls := w.calls ++ [Event.alloc_phys_mem w.blocks.length maxsize],
         faulted := w.faulted }, true) := by
  simp only [alloc_phys_mem, gst_imx_phys_mem_new_internal, ho, List.head?_cons, List.tail_cons,
    log_call, update_block, block_at]
  simp


/-- C23: a successful `alloc_internal` maps the new block for write, sets the first `offset`
bytes to zero (`memset`) and unmaps it, in this order, if and only if `offset > 0` and the flags
contain `GST_MEMORY_FLAG_ZERO_PREFIXED`; the bytes from `offset` on are then as the backend handed
them out (for `offset ≤ maxsize`).  In every other case the only call is `alloc_phys_mem`: no
map, `memset` or unmap, and the region is as the backend handed it out. -/
theorem alloc_zero_fill_iff_requested (w : PhysMemState) (parent : Option Nat)
    (maxsize flags align offset size : Nat) (g : AllocGrant) (rest : List (Option AllocGrant))
    (ho : w.alloc_oracle = some g :: rest) :
    (gst_imx_phys_mem_allocator_alloc_internal w parent maxsize flags align offset size).2 =
      some w.blocks.length ∧
    ((offset > 0 ∧ flags &&& GST_MEMORY_FLAG_ZERO_PREFIXED ≠ 0) →
      (gst_imx_phys_mem_allocator_alloc_internal w parent maxsize flags align offset size).1.calls
        = w.calls ++ [Event.alloc_phys_mem w.blocks.length maxsize,
            Event.map_phys_mem (some w.blocks.length) maxsize GST_MAP_WRITE,
            Event.memset (some w.regions.length) offset,
            Event.unmap_phys_mem (some w.blocks.length)] ∧
      (offset ≤ maxsize →
        (gst_imx_phys_mem_allocator_alloc_internal w parent maxsize flags align offset
          size).1.regions =
          w.regions ++ [List.replicate offset 0 ++
            ((g.contents ++ List.replicate maxsize 0).take maxsize).drop offset] ∧
        (gst_imx_phys_mem_allocator_alloc_internal w parent maxsize flags align offset
          size).1.faulted = w.faulted)) ∧
    (¬ (offset > 0 ∧ flags &&& GST_MEMORY_FLAG_ZERO_PREFIXED ≠ 0) →
      (gst_imx_phys_mem_allocator_alloc_internal w parent maxsize flags align offset size).1.calls
        = w.calls ++ [Event.alloc_phys_mem w.blocks.length maxsize] ∧
      (gst_imx_phys_mem_allocator_alloc_internal w parent maxsize flags align offset
        size).1.regions =
        w.regions ++ [(g.contents ++ List.replicate maxsize 0).take maxsize] ∧
      (gst_imx_phys_mem_allocator_alloc_internal w parent maxsize flags align offset
        size).1.faulted = w.faulted) := by
  have hex : ∃ w1,
      alloc_phys_mem (gst_imx_phys_mem_new_internal w parent maxsize flags align offset size).1
        w.blocks.length maxsize = (w1, true) ∧
      block_at w1 w.blocks.length =
        some { flags := flags ||| GST_MINI_OBJECT_FLAG_LOCKABLE, parent := parent,
               maxsize := maxsize, align := align, offset := offset, size := size,
               mapped_virt_addr := none, phys_addr := w.regions.length + 1,
               cpu_addr := g.cpu_addr } ∧
      w1.regions = w.regions ++ [(g.contents ++ List.replicate maxsize 0).take maxsize] ∧
      w1.calls = w.calls ++ [Event.alloc_phys_mem w.blocks.length maxsize] ∧
      w1.faulted = w.faulted :=
    ⟨_, alloc_phys_mem_ok w parent maxsize flags align offset size g rest ho,
      by simp [block_at], rfl, rfl, rfl⟩
  obtain ⟨w1, hw1, hblk, hreg1, hcalls1, hfault1⟩ := hex
  have e2 : (gst_imx_phys_mem_new_internal w parent maxsize flags align offset size).2 =
      w.blocks.length := rfl
  unfold gst_imx_phys_mem_allocator_alloc_internal
  simp only [e2, hw1, Bool.not_true, Bool.false_eq_true, if_false]
  by_cases hz : offset > 0 ∧ flags &&& GST_MEMORY_FLAG_ZERO_PREFIXED ≠ 0
  · rw [if_pos hz]
    refine ⟨rfl, fun _ => ?_, fun h => absurd hz h⟩
    obtain ⟨m2, m3, m4, m5⟩ := map_phys_mem_live w1 w.blocks.length _ maxsize GST_MAP_WRITE hblk
    have m6 := map_phys_mem_calls w1 (some w.blocks.length) maxsize GST_MAP_WRITE
    have hv : virt_of_phys w1 (w.regions.length + 1) = some w.regions.length := by
      unfold virt_of_phys
      rw [hreg1]
      simp
    simp only [hv] at m2 m5
    generalize map_phys_mem w1 (some w.blocks.length) maxsize GST_MAP_WRITE = r3
      at m2 m3 m4 m5 m6
    rw [m2]
    obtain ⟨s1, s2⟩ := memset_zero_frame r3.1 (some w.regions.length) offset
    have hb4 : block_at (memset_zero r3.1 (some w.regions.length) offset) w.blocks.length =
        block_at r3.1 w.blocks.length := by
      unfold block_at; rw [s2]
    rw [m5, if_pos rfl] at hb4
    obtain ⟨u2, u3, _⟩ := unmap_phys_mem_live _ w.blocks.length _ hb4
    refine ⟨?_, fun hle => ?_⟩
    · rw [unmap_phys_mem_calls, s1, m6, hcalls1]
      simp
    · have hreg : r3.1.regions[w.regions.length]? =
          some ((g.contents ++ List.replicate maxsize 0).take maxsize) := by
        rw [m3, hreg1]; simp
      have hlen : ((g.contents ++ List.replicate maxsize 0).take maxsize).length = maxsize := by
        simp
      have hms : (memset_zero r3.1 (some w.regions.length) offset).regions =
            r3.1.regions.set w.regions.length (List.replicate offset 0 ++
              ((g.contents ++ List.replicate maxsize 0).take maxsize).drop offset) ∧
          (memset_zero r3.1 (some w.regions.length) offset).faulted = r3.1.faulted := by
        simp only [memset_zero, hreg, hlen, hle, if_true]
        exact ⟨trivial, rfl⟩
      rw [u2, u3, hms.1, hms.2, m3, m4, hreg1, hfault1]
      simp
  · rw [if_neg hz]
    exact ⟨rfl, fun h => absurd h hz, fun _ => ⟨hcalls1, hreg1, hfault1⟩⟩

theorem alloc_zero_fill_iff_requested_witness :
    (gst_imx_phys_mem_allocator_alloc_internal ex_state none 4 32 0 1 2).1.calls =
      [Event.alloc_phys_mem 1 4, Event.map_phys_mem (some 1) 4 GST_MAP_WRITE,
        Event.memset (some 1) 1, Event.unmap_phys_mem (some 1)] ∧
    (gst_imx_phys_mem_allocator_alloc_internal ex_state none 4 32 0 1 2).1.regions =
      [[10, 20, 30, 40], [0, 7, 0, 0]] ∧
    (gst_imx_phys_mem_allocator_alloc_internal ex_state none 4 0 0 1 2).1.calls =
      [Event.alloc_phys_mem 1 4] :=
  ⟨((alloc_zero_fill_iff_requested ex_state none 4 32 0 1 2 ⟨8192, [7, 7]⟩ [] rfl).2.1
      ⟨by decide, by decide⟩).1,
    (((alloc_zero_fill_iff_requested ex_state none 4 32 0 1 2 ⟨8192, [7, 7]⟩ [] rfl).2.1
      ⟨by decide, by decide⟩).2 (by decide)).1,
    ((alloc_zero_fill_iff_requested ex_state none 4 0 0 1 2 ⟨8192, [7, 7]⟩ [] rfl).2.2
      (by decide)).1⟩

/-! ## transform_frame and the passthrough default -/

/-- C26: `transform_frame` calls `set_input_buffer`, `set_output_buffer` and `blit` in this
order, each only when the calls before it succeeded; it returns `GST_FLOW_OK` if and only if all
three succeed and `GST_FLOW_ERROR` otherwise. -/
theorem transform_frame_sequence {σ : Type} (ops : BlitterOps σ) (blitter : σ)
    (in_frame out_frame : GstVideoFrame) :
    ((gst_imx_ipu_video_transform_transform_frame ops blitter in_frame out_frame).ret =
        .GST_FLOW_OK ↔
      (ops.gst_imx_ipu_blitter_set_input_buffer blitter in_frame.buffer).2 = true ∧
      (ops.gst_imx_ipu_blitter_set_output_buffer
        (ops.gst_imx_ipu_blitter_set_input_buffer blitter in_frame.buffer).1
        out_frame.buffer).2 = true ∧
      (ops.gst_imx_ipu_blitter_blit
        (ops.gst_imx_ipu_blitter_set_output_buffer
          (ops.gst_imx_ipu_blitter_set_input_buffer blitter in_frame.buffer).1
          out_frame.buffer).1).2 = true) ∧
    ((gst_imx_ipu_video_transform_transform_frame ops blitter in_frame out_frame).ret ≠
        .GST_FLOW_OK →
      (gst_imx_ipu_video_transform_transform_frame ops blitter in_frame out_frame).ret =
        .GST_FLOW_ERROR) ∧
    (gst_imx_ipu_video_transform_transform_frame ops blitter in_frame out_frame).calls =
      if (ops.gst_imx_ipu_blitter_set_input_buffer blitter in_frame.buffer).2 = true then
        if (ops.gst_imx_ipu_blitter_set_output_buffer
            (ops.gst_imx_ipu_blitter_set_input_buffer blitter in_frame.buffer).1
            out_frame.buffer).2 = true then
          [.set_input_buffer in_frame.buffer, .set_output_buffer out_frame.buffer, .blit]
        else [.set_input_buffer in_frame.buffer, .set_output_buffer out_frame.buffer]
      else [.set_input_buffer in_frame.buffer] := by
  unfold gst_imx_ipu_video_transform_transform_frame and_then_call
  cases h1 : (ops.gst_imx_ipu_blitter_set_input_buffer blitter in_frame.buffer).2 <;>
    cases h2 : (ops.gst_imx_ipu_blitter_set_output_buffer
        (ops.gst_imx_ipu_blitter_set_input_buffer blitter in_frame.buffer).1
        out_frame.buffer).2 <;>
    cases h3 : (ops.gst_imx_ipu_blitter_blit
        (ops.gst_imx_ipu_blitter_set_output_buffer
          (ops.gst_imx_ipu_blitter_set_input_buffer blitter in_frame.buffer).1
          out_frame.buffer).1).2 <;>
    simp [h1, h2, h3]


/-- C27: when no input frame is present or the input and output descriptions are not equal,
`prepare_output_buffer` sets passthrough to false, for every configuration; hence passthrough
true implies equal descriptions and a frame. -/
theorem passthrough_needs_equal_caps_and_frame (t : GstImxIpuVideoTransform)
    (input : Option GstBuffer) :
    ((input = none ∨ t.inout_caps_equal = false) →
      gst_imx_ipu_video_transform_prepare_output_buffer t input =
        some { t with passthrough := false }) ∧
    (∀ t1, gst_imx_ipu_video_transform_prepare_output_buffer t input = some t1 →
      t1.passthrough = true → t.inout_caps_equal = true ∧ input.isSome = true) := by
  have h1 : (input = none ∨ t.inout_caps_equal = false) →
      gst_imx_ipu_video_transform_prepare_output_buffer t input =
        some { t with passthrough := false } := by
    intro h
    unfold gst_imx_ipu_video_transform_prepare_output_buffer decide_passthrough
    rcases h with h | h
    · subst h
      cases t.priv.blitter <;> simp
    · cases t.priv.blitter <;> cases input <;> simp [h]
  refine ⟨h1, ?_⟩
  intro t1 ht hp
  by_contra hc
  have h2 : input = none ∨ t.inout_caps_equal = false := by
    cases input with
    | none => exact Or.inl rfl
    | some b =>
      right
      cases he : t.inout_caps_equal with
      | false => rfl
      | true => exact absurd ⟨he, rfl⟩ hc
  rw [h1 h2] at ht
  cases ht
  cases hp


/-! ## transform_caps -/

/-- C30: when no structure of `othercaps` carries a `format` field, or the first structure of
the input caps has no `format` string, format fixation returns `othercaps` unchanged. -/
theorem fixate_format_without_format (get_info : String → Option GstVideoFormatInfo)
    (caps othercaps : GstCaps)
    (h : (∀ s, s ∈ othercaps → gst_structure_get_value s "format" = none) ∨
      (caps.head?.bind (fun ins => gst_structure_get_string ins "format")) = none) :
    gst_imx_ipu_video_transform_fixate_format_caps get_info caps othercaps = othercaps := by
  unfold gst_imx_ipu_video_transform_fixate_format_caps
  rcases h with h | h
  · cases hi : input_format_info get_info caps with
    | none => rfl
    | some in_info =>
      have hs : ∀ (cs : GstCaps) (st : ScoreState),
          (∀ s, s ∈ cs → gst_structure_get_value s "format" = none) →
          score_caps get_info in_info cs st = st := by
        intro cs
        induction cs with
        | nil => intro st _; rfl
        | cons c rest ih =>
          intro st hc
          have h0 := hc c (List.mem_cons_self _ _)
          simp only [score_caps, score_structure, h0]
          exact ih st (fun s hs => hc s (List.mem_cons_of_mem _ hs))
      simp only [hs othercaps _ h]
  · have hi : input_format_info get_info caps = none := by
      unfold input_format_info
      cases hc : caps.head? with
      | none => rfl
      | some ins =>
        rw [hc] at h
        simp only [Option.some_bind] at h
        simp only [h]
    simp only [hi]

theorem fixate_format_without_format_witness :
    gst_imx_ipu_video_transform_fixate_format_caps example_get_info [ex_in_1080p]
        [ex_out_720p_rgba] = [ex_out_720p_rgba] ∧
    gst_imx_ipu_video_transform_fixate_format_caps example_get_info [ex_in_1080p_y444]
        [ex_out_all_free] = [ex_out_all_free] :=
  ⟨fixate_format_without_format example_get_info [ex_in_1080p] [ex_out_720p_rgba]
      (Or.inr (by rfl)),
    fixate_format_without_format example_get_info [ex_in_1080p_y444] [ex_out_all_free]
      (Or.inl (by simp [ex_out_all_free, gst_structure_get_value, lookup_field]))⟩

/-! ## The instance mutex -/

/-- Reads of the blitter handle in front of a sequence. -/
theorem unprotected_append_reads (held : Bool) (n : List SyncAct) (rest : List SyncAct)
    (hn : ∀ a, a ∈ n → a = SyncAct.read .blitter) :
    unprotected_accesses held (n ++ rest) =
      (if held then [] else n) ++ unprotected_accesses held rest := by
  induction n with
  | nil => cases held <;> simp
  | cons a n ih =>
    have ha := hn a (List.mem_cons_self _ _)
    subst ha
    have ih1 := ih (fun b hb => hn b (List.mem_cons_of_mem _ hb))
    cases held
    · simp only [Bool.false_eq_true, if_false] at ih1 ⊢
      show SyncAct.read ConfigField.blitter :: ([] ++ unprotected_accesses false (n ++ rest)) =
        SyncAct.read ConfigField.blitter :: (n ++ unprotected_accesses false rest)
      rw [List.nil_append, ih1]
    · simp only [if_true, List.nil_append] at ih1 ⊢
      exact ih1

/-- The actions of a thread in a schedule that starts with an action of thread `j`. -/
theorem thread_acts_cons (i j : Bool) (a : SyncAct) (rest : List (Bool × SyncAct)) :
    thread_acts i ((j, a) :: rest) =
      if j = i then a :: thread_acts i rest else thread_acts i rest := by
  unfold thread_acts
  rw [List.filterMap_cons]
  by_cases h : j = i
  · simp [h]
  · simp [h]

/-- One step of the schedule that is a read or a write. -/
theorem schedule_protected_step (i : Bool) (a : SyncAct) (rest : List (Bool × SyncAct))
    (holder : Option Bool)
    (hu : ∀ held r, unprotected_accesses held (a :: r) =
      (if held then [] else [a]) ++ unprotected_accesses held r)
    (hs : schedule_unprotected holder ((i, a) :: rest) =
      (if holder = some i then [] else [(i, a)]) ++ schedule_unprotected holder rest)
    (ih : unprotected_accesses (decide (holder = some true)) (thread_acts true rest) = [] →
      unprotected_accesses (decide (holder = some false)) (thread_acts false rest) = [] →
      schedule_unprotected holder rest = [])
    (h1 : unprotected_accesses (decide (holder = some true))
      (thread_acts true ((i, a) :: rest)) = [])
    (h2 : unprotected_accesses (decide (holder = some false))
      (thread_acts false ((i, a) :: rest)) = []) :
    schedule_unprotected holder ((i, a) :: rest) = [] := by
  rw [hs]
  rw [thread_acts_cons] at h1 h2
  cases i
  · rw [if_neg (by decide)] at h1
    rw [if_pos rfl, hu, List.append_eq_nil] at h2
    have hh : holder = some false := by
      by_contra hc
      simp [hc] at h2
    rw [if_pos hh, List.nil_append]
    exact ih h1 h2.2
  · rw [if_neg (by decide)] at h2
    rw [if_pos rfl, hu, List.append_eq_nil] at h1
    have hh : holder = some true := by
      by_contra hc
      simp [hc] at h1
    rw [if_pos hh, List.nil_append]
    exact ih h1.2 h2

/-- Mutual exclusion: in a schedule of two threads that obeys the mutex, when each thread by
itself makes its accesses only between its own lock and unlock, every access of the schedule is
made by the thread that holds the mutex. -/
theorem schedule_protected (schedule : List (Bool × SyncAct)) :
    ∀ holder : Option Bool, schedule_obeys_mutex holder schedule →
      unprotected_accesses (decide (holder = some true)) (thread_acts true schedule) = [] →
      unprotected_accesses (decide (holder = some false)) (thread_acts false schedule) = [] →
      schedule_unprotected holder schedule = [] := by
  induction schedule with
  | nil => intro _ _ _ _; rfl
  | cons x rest ih =>
    intro holder hv h1 h2
    obtain ⟨i, a⟩ := x
    cases a with
    | lock =>
      simp only [schedule_obeys_mutex] at hv
      obtain ⟨hh, hv⟩ := hv
      subst hh
      simp only [schedule_unprotected]
      rw [thread_acts_cons] at h1 h2
      apply ih (some i) hv
      · cases i
        · rw [if_neg (by decide)] at h1; exact h1
        · rw [if_pos rfl] at h1; exact h1
      · cases i
        · rw [if_pos rfl] at h2; exact h2
        · rw [if_neg (by decide)] at h2; exact h2
    | unlock =>
      simp only [schedule_obeys_mutex] at hv
      obtain ⟨hh, hv⟩ := hv
      subst hh
      simp only [schedule_unprotected]
      rw [thread_acts_cons] at h1 h2
      apply ih none hv
      · cases i
        · rw [if_neg (by decide)] at h1; exact h1
        · rw [if_pos rfl] at h1; exact h1
      · cases i
        · rw [if_pos rfl] at h2; exact h2
        · rw [if_neg (by decide)] at h2; exact h2
    | read f =>
      exact schedule_protected_step i (.read f) rest holder (fun _ _ => rfl) rfl
        (ih holder hv) h1 h2
    | write f =>
      exact schedule_protected_step i (.write f) rest holder (fun _ _ => rfl) rfl
        (ih holder hv) h1 h2

/-- The function `set_property` makes its accesses between its lock and unlock. -/
theorem set_property_protected (call : PropertyWrite) (has_blitter : Bool) :
    unprotected_accesses false (set_property_acts call has_blitter) = [] := by
  cases call <;> cases has_blitter <;> rfl

/-- The function `get_property` makes its accesses between its lock and unlock. -/
theorem get_property_protected (prop_id : Nat) :
    unprotected_accesses false (get_property_acts prop_id) = [] := by
  unfold get_property_acts
  split_ifs <;> rfl

/-- The function `prepare_output_buffer` makes its accesses between its lock and unlock. -/
theorem prepare_output_buffer_protected (t : GstImxIpuVideoTransform)
    (input : Option GstBuffer) :
    unprotected_accesses false (prepare_output_buffer_acts t input) = [] := by
  unfold prepare_output_buffer_acts
  split <;> (try split) <;> (try split) <;> (try split) <;> (try split) <;> rfl

/-- The function `transform_frame` makes its accesses between its lock and unlock. -/
theorem transform_frame_protected (calls : List BlitterCall) :
    unprotected_accesses false (transform_frame_acts calls) = [] := by
  unfold transform_frame_acts
  rw [List.append_assoc]
  show unprotected_accesses true (calls.map (fun _ => SyncAct.read .blitter) ++
    [SyncAct.unlock]) = []
  rw [unprotected_append_reads true _ _ (by
    intro a ha
    simp only [List.mem_map] at ha
    obtain ⟨_, _, h⟩ := ha
    exact h.symm)]
  rfl

/-- The function `change_state` calls `init_device` and `uninit_device` between its lock and
unlock. -/
theorem change_state_protected (transition : GstStateChange) (parent_failed has_blitter : Bool) :
    unprotected_accesses false (change_state_acts transition parent_failed has_blitter) = [] := by
  cases transition <;> cases parent_failed <;> cases has_blitter <;> rfl

/-- C31: the accesses to the shared configuration and the instance mutex.  `set_property`,
`get_property`, `change_state` (which runs `init_device` and `uninit_device`),
`prepare_output_buffer` and `transform_frame` make every read and write of the rotation, the crop
flag, the deinterlace mode and the blitter handle while they hold the mutex; hence in every
schedule of a `set_property` thread and a `get_property` thread that obeys the mutex, each access
is made by the thread that holds the mutex at that moment, and a read cannot fall between the
steps of a write.  But `set_info` (line 1115) and `decide_allocation` (line 1067) read the
blitter handle, and `finalize` (line 274, through `uninit_device`) reads and clears it, without
taking the mutex: in the schedule `ex_schedule_set_info`, which obeys the mutex, `set_info`
reads the handle while the `set_property` thread holds the mutex. -/
theorem mutex_discipline :
    (∀ call has_blitter, unprotected_accesses false (set_property_acts call has_blitter) = []) ∧
    (∀ prop_id, unprotected_accesses false (get_property_acts prop_id) = []) ∧
    (∀ transition parent_failed has_blitter,
      unprotected_accesses false (change_state_acts transition parent_failed has_blitter) = []) ∧
    (∀ t input, unprotected_accesses false (prepare_output_buffer_acts t input) = []) ∧
    (∀ calls, unprotected_accesses false (transform_frame_acts calls) = []) ∧
    (∀ schedule call has_blitter prop_id, schedule_obeys_mutex none schedule →
      thread_acts true schedule = set_property_acts call has_blitter →
      thread_acts false schedule = get_property_acts prop_id →
      schedule_unprotected none schedule = []) ∧
    unprotected_accesses false set_info_acts = [.read .blitter] ∧
    unprotected_accesses false (decide_allocation_acts true) = [.read .blitter] ∧
    unprotected_accesses false (finalize_acts true) =
      [.read .blitter, .read .blitter, .write .blitter] ∧
    unprotected_accesses false (finalize_acts false) = [.read .blitter, .write .blitter] ∧
    schedule_obeys_mutex none ex_schedule_set_info ∧
    thread_acts true ex_schedule_set_info =
      set_property_acts (.PROP_OUTPUT_ROTATION .GST_IMX_IPU_BLITTER_ROTATION_90CW) true ∧
    thread_acts false ex_schedule_set_info = set_info_acts ∧
    schedule_unprotected none ex_schedule_set_info = [(false, .read .blitter)] := by
  refine ⟨set_property_protected, get_property_protected, change_state_protected,
    prepare_output_buffer_protected, transform_frame_protected, ?_, rfl, rfl, rfl, rfl,
    ⟨rfl, rfl, trivial⟩, rfl, rfl, rfl⟩
  intro schedule call has_blitter prop_id hv h1 h2
  apply schedule_protected schedule none hv
  · rw [h1]; exact set_property_protected call has_blitter
  · rw [h2]; exact get_property_protected prop_id

theorem mutex_discipline_witness :
    schedule_obeys_mutex none ex_schedule_properties ∧
    thread_acts true ex_schedule_properties = set_property_acts (.PROP_INPUT_CROP true) true ∧
    thread_acts false ex_schedule_properties = get_property_acts PROP_INPUT_CROP ∧
    schedule_unprotected none ex_schedule_properties = [] :=
  ⟨⟨rfl, rfl, rfl, rfl, trivial⟩, rfl, rfl,
    mutex_discipline.2.2.2.2.2.1 ex_schedule_properties (.PROP_INPUT_CROP true) true
      PROP_INPUT_CROP ⟨rfl, rfl, rfl, rfl, trivial⟩ rfl rfl⟩

/-! ## The blitter follows the stored configuration -/

/-- C36: an existing blitter holds the rotation, crop flag and deinterlace mode stored in the
element.  `init_device` establishes this from the stored values, which it leaves as they are, for
whatever blitter `g_object_new` returns, so a property set before activation takes effect;
`set_property` stores the value it is given and preserves the invariant, as do `uninit_device`
and `set_info`. -/
theorem blitter_in_sync (t : GstImxIpuVideoTransform) (new_blitter : GstImxIpuBlitter)
    (call : PropertyWrite) (in_info out_info : GstVideoInfo) :
    BlitterInSync (gst_imx_ipu_video_transform_init_device t new_blitter) ∧
    (∃ b, (gst_imx_ipu_video_transform_init_device t new_blitter).priv.blitter = some b ∧
      gst_imx_ipu_blitter_get_output_rotation_mode b = t.priv.output_rotation ∧
      gst_imx_ipu_blitter_is_crop_enabled b = t.priv.input_crop ∧
      gst_imx_ipu_blitter_get_deinterlace_mode b = t.priv.deinterlace_mode) ∧
    (gst_imx_ipu_video_transform_init_device t new_blitter).priv.output_rotation =
      t.priv.output_rotation ∧
    (gst_imx_ipu_video_transform_init_device t new_blitter).priv.input_crop =
      t.priv.input_crop ∧
    (gst_imx_ipu_video_transform_init_device t new_blitter).priv.deinterlace_mode =
      t.priv.deinterlace_mode ∧
    (BlitterInSync t → BlitterInSync (gst_imx_ipu_video_transform_set_property t call)) ∧
    (∀ v, call = .PROP_OUTPUT_ROTATION v →
      (gst_imx_ipu_video_transform_set_property t call).priv.output_rotation = v) ∧
    (∀ v, call = .PROP_INPUT_CROP v →
      (gst_imx_ipu_video_transform_set_property t call).priv.input_crop = v) ∧
    (∀ v, call = .PROP_DEINTERLACE_MODE v →
      (gst_imx_ipu_video_transform_set_property t call).priv.deinterlace_mode = v) ∧
    BlitterInSync (gst_imx_ipu_video_transform_init_device
      (gst_imx_ipu_video_transform_set_property t call) new_blitter) ∧
    BlitterInSync (gst_imx_ipu_video_transform_uninit_device t) ∧
    (BlitterInSync t →
      BlitterInSync (gst_imx_ipu_video_transform_set_info t in_info out_info)) := by
  have hinit : ∀ (t1 : GstImxIpuVideoTransform),
      BlitterInSync (gst_imx_ipu_video_transform_init_device t1 new_blitter) := by
    intro t1 b hb
    simp only [gst_imx_ipu_video_transform_init_device, Option.some.injEq] at hb
    subst hb
    exact ⟨rfl, rfl, rfl⟩
  refine ⟨hinit t, ⟨_, rfl, rfl, rfl, rfl⟩, rfl, rfl, rfl, ?_, ?_, ?_, ?_, hinit _, ?_, ?_⟩
  · intro hs
    cases call with
    | PROP_OUTPUT_ROTATION v =>
      intro b hb
      cases hbl : t.priv.blitter with
      | none =>
        simp only [gst_imx_ipu_video_transform_set_property, hbl] at hb
        cases hb
      | some b0 =>
        obtain ⟨_, h2, h3⟩ := hs b0 hbl
        simp only [gst_imx_ipu_video_transform_set_property, hbl, Option.some.injEq] at hb
        subst hb
        simp only [gst_imx_ipu_video_transform_set_property, hbl]
        exact ⟨rfl, h2, h3⟩
    | PROP_INPUT_CROP v =>
      intro b hb
      cases hbl : t.priv.blitter with
      | none =>
        simp only [gst_imx_ipu_video_transform_set_property, hbl] at hb
        cases hb
      | some b0 =>
        obtain ⟨h1, _, h3⟩ := hs b0 hbl
        simp only [gst_imx_ipu_video_transform_set_property, hbl, Option.some.injEq] at hb
        subst hb
        simp only [gst_imx_ipu_video_transform_set_property, hbl]
        exact ⟨h1, rfl, h3⟩
    | PROP_DEINTERLACE_MODE v =>
      intro b hb
      cases hbl : t.priv.blitter with
      | none =>
        simp only [gst_imx_ipu_video_transform_set_property, hbl] at hb
        cases hb
      | some b0 =>
        obtain ⟨h1, h2, _⟩ := hs b0 hbl
        simp only [gst_imx_ipu_video_transform_set_property, hbl, Option.some.injEq] at hb
        subst hb
        simp only [gst_imx_ipu_video_transform_set_property, hbl]
        exact ⟨h1, h2, rfl⟩
    | other id => exact hs
  · intro v hc
    subst hc
    simp only [gst_imx_ipu_video_transform_set_property]
    cases t.priv.blitter <;> rfl
  · intro v hc
    subst hc
    simp only [gst_imx_ipu_video_transform_set_property]
    cases t.priv.blitter <;> rfl
  · intro v hc
    subst hc
    simp only [gst_imx_ipu_video_transform_set_property]
    cases t.priv.blitter <;> rfl
  · intro b hb
    cases hb
  · intro hs b hb
    cases hbl : t.priv.blitter with
    | none =>
      simp only [gst_imx_ipu_video_transform_set_info, hbl, Option.map_none'] at hb
      cases hb
    | some b0 =>
      simp only [gst_imx_ipu_video_transform_set_info, hbl, Option.map_some',
        Option.some.injEq] at hb
      subst hb
      exact hs b0 hbl

theorem blitter_in_sync_witness :
    BlitterInSync (ex_element ex_blitter) ∧
    gst_imx_ipu_video_transform_set_property (ex_element ex_blitter) (.PROP_INPUT_CROP true) =
      ex_element ex_blitter_crop ∧
    BlitterInSync (gst_imx_ipu_video_transform_set_property (ex_element ex_blitter)
      (.PROP_INPUT_CROP true)) ∧
    gst_imx_ipu_video_transform_init_device
      (gst_imx_ipu_video_transform_set_property ex_element_idle
        (.PROP_OUTPUT_ROTATION .GST_IMX_IPU_BLITTER_ROTATION_90CW)) ex_blitter =
      { ex_element ex_blitter_rot90 with inout_caps_equal := false } :=
  have h0 : BlitterInSync (ex_element ex_blitter) := by
    intro b hb
    cases hb
    exact ⟨rfl, rfl, rfl⟩
  ⟨h0, rfl,
    (blitter_in_sync (ex_element ex_blitter) ex_blitter (.PROP_INPUT_CROP true) ex_info_720p
      ex_info_720p).2.2.2.2.2.1 h0, rfl⟩

/-! ## Copy when the allocation fails -/

/-- When the backend refuses the allocation, `alloc_internal` logs the one `alloc_phys_mem` call,
releases the header it created and returns `NULL`. -/
theorem alloc_internal_fail (w : PhysMemState) (parent : Option Nat)
    (maxsize flags align offset size : Nat)
    (hfail : ∀ g, w.alloc_oracle.head? ≠ some (some g)) :
    (gst_imx_phys_mem_allocator_alloc_internal w parent maxsize flags align offset size).2 =
      none ∧
    (gst_imx_phys_mem_allocator_alloc_internal w parent maxsize flags align offset size).1.calls =
      w.calls ++ [Event.alloc_phys_mem w.blocks.length maxsize] ∧
    (gst_imx_phys_mem_allocator_alloc_internal w parent maxsize flags align offset size).1.regions =
      w.regions ∧
    (∀ q, q ≠ w.blocks.length →
      block_at (gst_imx_phys_mem_allocator_alloc_internal w parent maxsize flags align offset
        size).1 q = block_at w q) := by
  have h1 : alloc_phys_mem
      (gst_imx_phys_mem_new_internal w parent maxsize flags align offset size).1
      w.blocks.length maxsize =
      (log_call { (gst_imx_phys_mem_new_internal w parent maxsize flags align offset size).1 with
          alloc_oracle := w.alloc_oracle.tail }
        (Event.alloc_phys_mem w.blocks.length maxsize), false) := by
    unfold alloc_phys_mem
    have ho : (gst_imx_phys_mem_new_internal w parent maxsize flags align offset
        size).1.alloc_oracle = w.alloc_oracle := rfl
    rw [ho]
    cases h : w.alloc_oracle.head? with
    | none => rfl
    | some x =>
      cases x with
      | none => rfl
      | some g => exact absurd h (hfail g)
  have h2 : gst_imx_phys_mem_allocator_alloc_internal w parent maxsize flags align offset size =
      ({ (log_call { (gst_imx_phys_mem_new_internal w parent maxsize flags align offset
            size).1 with alloc_oracle := w.alloc_oracle.tail }
          (Event.alloc_phys_mem w.blocks.length maxsize)) with
          blocks := (gst_imx_phys_mem_new_internal w parent maxsize flags align offset
            size).1.blocks.set w.blocks.length none }, none) := by
    unfold gst_imx_phys_mem_allocator_alloc_internal
    have e2 : (gst_imx_phys_mem_new_internal w parent maxsize flags align offset size).2 =
        w.blocks.length := rfl
    simp only [e2, h1, Bool.not_false, if_true]
    rfl
  rw [h2]
  refine ⟨rfl, rfl, rfl, ?_⟩
  intro q hq
  simp only [block_at, gst_imx_phys_mem_new_internal]
  rw [List.getElem?_set_ne (Ne.symm hq)]
  rcases Nat.lt_or_gt_of_ne hq with h | h
  · rw [List.getElem?_append_left h]
  · rw [List.getElem?_eq_none (by simp; omega), List.getElem?_eq_none (by omega)]

/-- An `unmap_phys_mem` call does not clear a recorded fault. -/
theorem unmap_phys_mem_keeps_fault (w : PhysMemState) (p : Option Nat)
    (h : w.faulted = true) : (unmap_phys_mem w p).faulted = true := by
  unfold unmap_phys_mem
  cases p with
  | none => rfl
  | some q =>
    simp only
    cases block_at w q with
    | none => rfl
    | some b =>
      simp only [(update_block_frame _ _ _).2.2.2]
      exact h

/-- C33: for every live block `mem` and all arguments `offset` and `size`, when the backend
refuses the allocation `copy` returns `NULL`, but it has no check of the pointer that
`alloc_internal` returns (lines 189-203): after the one `alloc_phys_mem` call it maps the source,
calls `map_phys_mem` on the missing copy, calls `memcpy` with the destination pointer this
returned, and calls `unmap_phys_mem` on the missing copy and on the source.  In the embedding the
use of the `NULL` block is recorded as a fault. -/
theorem copy_ignores_failed_allocation (w : PhysMemState) (mem : Nat) (m : GstImxPhysMemory)
    (offset size : Int) (hm : block_at w mem = some m)
    (hfail : ∀ g, w.alloc_oracle.head? ≠ some (some g)) :
    (gst_imx_phys_mem_allocator_copy w mem offset size).2 = none ∧
    (gst_imx_phys_mem_allocator_copy w mem offset size).1.calls =
      w.calls ++ [Event.alloc_phys_mem w.blocks.length m.maxsize,
        Event.map_phys_mem (some mem) m.maxsize GST_MAP_READ,
        Event.map_phys_mem none m.maxsize GST_MAP_WRITE,
        Event.memcpy none (virt_of_phys w m.phys_addr) m.maxsize,
        Event.unmap_phys_mem none,
        Event.unmap_phys_mem (some mem)] ∧
    (gst_imx_phys_mem_allocator_copy w mem offset size).1.faulted = true := by
  obtain ⟨a1, a2, a3, a4⟩ := alloc_internal_fail w none m.maxsize 0 m.align
    (to_gsize ((m.offset : Int) + offset)) (resolve_size m.size offset size) hfail
  have hlt := block_at_lt w mem m hm
  have hb1 := a4 mem (by omega)
  rw [hm] at hb1
  unfold gst_imx_phys_mem_allocator_copy
  simp only [hm]
  generalize gst_imx_phys_mem_allocator_alloc_internal w none m.maxsize 0 m.align
    (to_gsize ((m.offset : Int) + offset)) (resolve_size m.size offset size) = r1 at *
  obtain ⟨w1, p1⟩ := r1
  simp only at a1 a2 a3 hb1
  subst a1
  have hv : (map_phys_mem w1 (some mem) m.maxsize GST_MAP_READ).2 =
      virt_of_phys w m.phys_addr := by
    rw [(map_phys_mem_live w1 mem m m.maxsize GST_MAP_READ hb1).1]
    unfold virt_of_phys
    rw [a3]
  refine ⟨rfl, ?_, ?_⟩
  · simp only [unmap_phys_mem_calls, (memcpy_regions_frame _ _ _ _).1, map_phys_mem_calls, a2,
      hv, List.append_assoc, List.cons_append, List.nil_append]
    rfl
  · apply unmap_phys_mem_keeps_fault
    apply unmap_phys_mem_keeps_fault
    rfl

theorem copy_ignores_failed_allocation_witness :
    (gst_imx_phys_mem_allocator_copy ex_state_fail 0 1 (-1)).2 = none ∧
    (gst_imx_phys_mem_allocator_copy ex_state_fail 0 1 (-1)).1.calls =
      [Event.alloc_phys_mem 1 4, Event.map_phys_mem (some 0) 4 GST_MAP_READ,
        Event.map_phys_mem none 4 GST_MAP_WRITE, Event.memcpy none (some 0) 4,
        Event.unmap_phys_mem none, Event.unmap_phys_mem (some 0)] ∧
    (gst_imx_phys_mem_allocator_copy ex_state_fail 0 1 (-1)).1.faulted = true :=
  copy_ignores_failed_allocation ex_state_fail 0 ex_block 1 (-1) (by rfl) ex_state_fail_refuses

/-! ## Format fixation writes the name of a candidate descriptor -/

/-- A candidate descriptor of a format list is the descriptor of a string of the list. -/
theorem list_candidates_offered (get_info : String → Option GstVideoFormatInfo)
    (t : GstVideoFormatInfo) :
    ∀ vs : List GValue, t ∈ list_candidates get_info vs →
      ∃ fname, GValue.string fname ∈ vs ∧ get_info fname = some t := by
  intro vs
  induction vs with
  | nil => intro h; simp [list_candidates] at h
  | cons v vs ih =>
    intro h
    have hrest : t ∈ list_candidates get_info vs →
        ∃ fname, GValue.string fname ∈ v :: vs ∧ get_info fname = some t := by
      intro h1
      obtain ⟨fname, h2, h3⟩ := ih h1
      exact ⟨fname, List.mem_cons_of_mem _ h2, h3⟩
    cases v with
    | string s =>
      simp only [list_candidates, List.mem_append] at h
      rcases h with h | h
      · refine ⟨s, List.mem_cons_self _ _, ?_⟩
        cases hg : get_info s with
        | none => rw [hg] at h; simp at h
        | some x =>
          rw [hg] at h
          simp only [Option.toList_some, List.mem_singleton] at h
          rw [h]
      · exact hrest h
    | int _ => exact hrest h
    | intRange _ _ => exact hrest h
    | fraction _ _ => exact hrest h
    | fractionRange _ _ _ _ => exact hrest h
    | list _ => exact hrest h
    | other _ => exact hrest h

/-- A candidate descriptor of the caps is the descriptor of a string that a structure offers. -/
theorem caps_candidates_offered (get_info : String → Option GstVideoFormatInfo)
    (t : GstVideoFormatInfo) :
    ∀ caps : GstCaps, t ∈ caps_candidates get_info caps →
      ∃ fname, (∃ tests ∈ caps, structure_offers tests fname) ∧ get_info fname = some t := by
  intro caps
  induction caps with
  | nil => intro h; simp [caps_candidates] at h
  | cons s rest ih =>
    intro h
    simp only [caps_candidates, List.mem_append] at h
    rcases h with h | h
    · unfold structure_candidates at h
      cases hv : gst_structure_get_value s "format" with
      | none => rw [hv] at h; simp at h
      | some v =>
        rw [hv] at h
        cases v with
        | string fname =>
          simp only at h
          cases hg : get_info fname with
          | none => rw [hg] at h; simp at h
          | some x =>
            rw [hg] at h
            simp only [Option.toList_some, List.mem_singleton] at h
            exact ⟨fname, ⟨s, List.mem_cons_self _ _, Or.inl hv⟩, by rw [hg, h]⟩
        | list vs =>
          simp only at h
          obtain ⟨fname, h2, h3⟩ := list_candidates_offered get_info t vs h
          exact ⟨fname, ⟨s, List.mem_cons_self _ _, Or.inr ⟨vs, hv, h2⟩⟩, h3⟩
        | int _ => simp at h
        | intRange _ _ => simp at h
        | fraction _ _ => simp at h
        | fractionRange _ _ _ _ => simp at h
        | other _ => simp at h
    · obtain ⟨fname, ⟨tests, h2, h3⟩, h4⟩ := ih h
      exact ⟨fname, ⟨tests, List.mem_cons_of_mem _ h2, h3⟩, h4⟩

/-- Format fixation leaves the caps as they are or writes the name of the descriptor that the
lookup returns for one of the offered strings. -/
theorem fixate_format_writes_descriptor_name (get_info : String → Option GstVideoFormatInfo)
    (caps : GstCaps) (outs : GstStructure) (rest : GstCaps) :
    gst_imx_ipu_video_transform_fixate_format_caps get_info caps (outs :: rest) = outs :: rest ∨
    ∃ fname t, (∃ tests ∈ outs :: rest, structure_offers tests fname) ∧
      get_info fname = some t ∧
      gst_imx_ipu_video_transform_fixate_format_caps get_info caps (outs :: rest) =
        gst_structure_set_string outs "format" t.name :: rest := by
  unfold gst_imx_ipu_video_transform_fixate_format_caps
  cases hin : input_format_info get_info caps with
  | none => exact Or.inl rfl
  | some in_info =>
    by_cases hne : caps_candidates get_info (outs :: rest) = []
    · left
      have hscan : score_caps get_info in_info (outs :: rest) (G_MAXINT, none) =
          (G_MAXINT, none) := by
        rw [score_caps_fold get_info in_info _ _ (score_init_good in_info), hne]
        rfl
      simp only [hscan]
    · right
      obtain ⟨t, a, b, hcs, _, _, hfold⟩ := score_fold_first_min in_info _ hne
      have hscan : score_caps get_info in_info (outs :: rest) (G_MAXINT, none) =
          (candidate_loss in_info t, some t) := by
        rw [score_caps_fold get_info in_info _ _ (score_init_good in_info)]; exact hfold
      have hmem : t ∈ caps_candidates get_info (outs :: rest) := by
        rw [hcs]; simp
      obtain ⟨fname, hoff, hget⟩ := caps_candidates_offered get_info t _ hmem
      exact ⟨fname, t, hoff, hget, by simp only [hscan]⟩

/-- C37: format fixation writes the name of the descriptor that the library lookup returns for
an offered string, never that string itself.  When the lookup is faithful on the offered strings
(a descriptor found for a string carries the string as its name) the format written is an offered
string.  The lookup of the library is not: a string that names no format resolves to the
descriptor of `GST_VIDEO_FORMAT_UNKNOWN`, not to `NULL`, so the test `if (!t_info) return` at
line 903 never fires, and for the single candidate "FOO" the code writes the format "UNKNOWN",
which no structure offers. -/
theorem fixate_format_writes_unknown :
    (∀ (get_info : String → Option GstVideoFormatInfo) (caps : GstCaps) (outs : GstStructure)
        (rest : GstCaps),
      (∀ fname, (∃ tests ∈ outs :: rest, structure_offers tests fname) →
        NameFaithful get_info fname) →
      gst_imx_ipu_video_transform_fixate_format_caps get_info caps (outs :: rest) =
        outs :: rest ∨
      ∃ fname, (∃ tests ∈ outs :: rest, structure_offers tests fname) ∧
        gst_imx_ipu_video_transform_fixate_format_caps get_info caps (outs :: rest) =
          gst_structure_set_string outs "format" fname :: rest) ∧
    library_get_info "FOO" = some fmt_UNKNOWN ∧
    ¬ NameFaithful library_get_info "FOO" ∧
    gst_imx_ipu_video_transform_fixate_format_caps library_get_info [ex_in_1080p_y444]
      [⟨[("format", .string "FOO")]⟩] = [⟨[("format", .string "UNKNOWN")]⟩] ∧
    ¬ structure_offers ⟨[("format", .string "FOO")]⟩ "UNKNOWN" := by
  refine ⟨?_, rfl, ?_, by rfl, ?_⟩
  · intro get_info caps outs rest hf
    rcases fixate_format_writes_descriptor_name get_info caps outs rest with h | h
    · exact Or.inl h
    · obtain ⟨fname, t, hoff, hget, hres⟩ := h
      right
      refine ⟨fname, hoff, ?_⟩
      rw [hres, hf fname hoff t hget]
  · intro h
    have h1 := h fmt_UNKNOWN rfl
    exact absurd h1 (by decide)
  · rintro (h | ⟨vs, h, _⟩)
    · have h2 : gst_structure_get_value ⟨[("format", .string "FOO")]⟩ "format" =
          some (.string "FOO") := rfl
      rw [h2] at h
      injection h with h3
      injection h3 with h4
      exact absurd h4 (by decide)
    · have h2 : gst_structure_get_value ⟨[("format", .string "FOO")]⟩ "format" =
          some (.string "FOO") := rfl
      rw [h2] at h
      injection h with h3
      cases h3

theorem fixate_format_writes_unknown_witness :
    gst_imx_ipu_video_transform_fixate_format_caps example_get_info [ex_in_1080p_y444]
        [⟨[("format", .list [.string "FOO", .string "RGBA"])]⟩] =
      [⟨[("format", .list [.string "FOO", .string "RGBA"])]⟩] ∨
    ∃ fname, (∃ tests ∈ [(⟨[("format", .list [.string "FOO", .string "RGBA"])]⟩ : GstStructure)],
        structure_offers tests fname) ∧
      gst_imx_ipu_video_transform_fixate_format_caps example_get_info [ex_in_1080p_y444]
        [⟨[("format", .list [.string "FOO", .string "RGBA"])]⟩] =
        [gst_structure_set_string ⟨[("format", .list [.string "FOO", .string "RGBA"])]⟩
          "format" fname] :=
  fixate_format_writes_unknown.1 example_get_info [ex_in_1080p_y444]
    ⟨[("format", .list [.string "FOO", .string "RGBA"])]⟩ []
    (by
      intro fname _ t ht
      unfold example_get_info at ht
      split_ifs at ht with h1 h2 h3
      · cases ht; exact h1.symm
      · cases ht; exact h2.symm
      · cases ht; exact h3.symm)

/-! ## Narrowing of a derived dimension -/

/-- The cast to `guint`, read as a `gint`, is below 2^31. -/
theorem guint64_to_gint_lt (x : Nat) : guint64_to_gint x < 2147483648 := by
  unfold guint64_to_gint
  simp only
  have h := Nat.mod_lt x (by decide : 4294967296 > 0)
  split_ifs with hc
  · exact_mod_cast hc
  · have : ((x % 4294967296 : Nat) : Int) < 4294967296 := by exact_mod_cast h
    omega

/-- C34: a derived dimension `(guint) gst_util_uint64_scale_int(v, num, den)`, for a dimension
`0 ≤ v ≤ G_MAXINT` and a scale factor with `0 ≤ num`, `0 < den`, equals the exact quotient
`floor(v*num/den)` if and only if that quotient is below 2^31; the narrowing wraps every larger
quotient.  For the input 1920x1080 with PAR 1:1 and an output with height fixed at 1500000000,
PAR fixed at 1:1 and width range `[64, G_MAXINT]`, both fraction multiplications succeed with
16/9, the exact quotient is 2666666666, the narrowed value is -1628300630, and size fixation
commits the width 64 without raising an error.  A quotient of 2^34 is narrowed to 0. -/
theorem derived_dimension_narrowing_wraps :
    (∀ v num den : Int, 0 ≤ v → v ≤ G_MAXINT → 0 ≤ num → 0 < den →
      (scale_gint v num den = v * num / den ↔ v * num / den < 2147483648)) ∧
    gst_util_fraction_multiply 1920 1080 1 1 = some (16, 9) ∧
    gst_util_fraction_multiply 16 9 1 1 = some (16, 9) ∧
    (1500000000 * 16 / 9 : Int) = 2666666666 ∧
    scale_gint 1500000000 16 9 = -1628300630 ∧
    gst_imx_ipu_video_transform_fixate_size_caps example_get_info no_pick uninit_zero
        .GST_PAD_SINK [ex_in_1080p] [ex_out_h_huge] =
      ⟨[⟨[("width", .int 64), ("height", .int 1500000000),
          ("pixel-aspect-ratio", .fraction 1 1)]⟩], false⟩ ∧
    (1073741824 * 16 / 1 : Int) = 17179869184 ∧
    scale_gint 1073741824 16 1 = 0 := by
  refine ⟨?_, by decide, by decide, by decide, by rfl, by rfl, by decide, by rfl⟩
  intro v num den hv hv2 hnum hden
  constructor
  · intro h
    rw [← h]
    exact guint64_to_gint_lt _
  · intro h
    exact scale_gint_eq hv hv2 hnum hden h

theorem derived_dimension_narrowing_wraps_witness :
    (scale_gint 540 16 9 = 540 * 16 / 9 ↔ (540 * 16 / 9 : Int) < 2147483648) ∧
    (scale_gint 1500000000 16 9 = 1500000000 * 16 / 9 ↔
      (1500000000 * 16 / 9 : Int) < 2147483648) :=
  ⟨derived_dimension_narrowing_wraps.1 540 16 9 (by decide) (by decide) (by decide) (by decide),
    derived_dimension_narrowing_wraps.1 1500000000 16 9 (by decide) (by decide) (by decide)
      (by decide)⟩

/-! ## Size fixation: height fixed, PAR free; nothing fixed, PAR not achievable -/

/-- A successful multiplication of positive fractions yields components that fit a `gint`. -/
theorem fraction_multiply_bound {a_n a_d b_n b_d n d : Int} (h1 : 0 < a_n) (h2 : 0 < a_d)
    (h3 : 0 < b_n) (h4 : 0 < b_d)
    (h : gst_util_fraction_multiply a_n a_d b_n b_d = some (n, d)) :
    n ≤ G_MAXINT ∧ d ≤ G_MAXINT := by
  unfold gst_util_fraction_multiply at h
  rw [if_neg (by omega), if_neg (by omega)] at h
  simp only [gst_util_greatest_common_divisor] at h
  obtain ⟨p1, e1⟩ := exact_tdiv h1 (gcd_pos_left a_d h1) (Int.gcd_dvd_left)
  obtain ⟨p2, e2⟩ := exact_tdiv h2 (gcd_pos_left a_d h1) (Int.gcd_dvd_right)
  obtain ⟨p3, e3⟩ := exact_tdiv h3 (gcd_pos_left b_d h3) (Int.gcd_dvd_left)
  obtain ⟨p4, e4⟩ := exact_tdiv h4 (gcd_pos_left b_d h3) (Int.gcd_dvd_right)
  generalize (Int.gcd a_n a_d : Int) = g1 at *
  generalize (Int.gcd b_n b_d : Int) = g2 at *
  generalize Int.tdiv a_n g1 = an1 at *
  generalize Int.tdiv a_d g1 = ad1 at *
  generalize Int.tdiv b_n g2 = bn1 at *
  generalize Int.tdiv b_d g2 = bd1 at *
  obtain ⟨p5, e5⟩ := exact_tdiv p1 (gcd_pos_left bd1 p1) (Int.gcd_dvd_left)
  obtain ⟨p6, e6⟩ := exact_tdiv p4 (gcd_pos_left bd1 p1) (Int.gcd_dvd_right)
  obtain ⟨p7, e7⟩ := exact_tdiv p2 (gcd_pos_left bn1 p2) (Int.gcd_dvd_left)
  obtain ⟨p8, e8⟩ := exact_tdiv p3 (gcd_pos_left bn1 p2) (Int.gcd_dvd_right)
  generalize (Int.gcd an1 bd1 : Int) = g3 at *
  generalize (Int.gcd ad1 bn1 : Int) = g4 at *
  generalize Int.tdiv an1 g3 = an2 at *
  generalize Int.tdiv bd1 g3 = bd2 at *
  generalize Int.tdiv ad1 g4 = ad2 at *
  generalize Int.tdiv bn1 g4 = bn2 at *
  split_ifs at h with c1 c2
  simp only [Option.some.injEq, Prod.mk.injEq] at h
  obtain ⟨hn, hd⟩ := h
  have pn : 0 < an2 * bn2 := Int.mul_pos p5 p8
  have pd : 0 < ad2 * bd2 := Int.mul_pos p7 p6
  obtain ⟨q1, f1⟩ := exact_tdiv pn (gcd_pos_left (ad2 * bd2) pn) (Int.gcd_dvd_left)
  obtain ⟨q2, f2⟩ := exact_tdiv pd (gcd_pos_left (ad2 * bd2) pn) (Int.gcd_dvd_right)
  have hg5 := gcd_pos_left (ad2 * bd2) pn
  generalize (Int.gcd (an2 * bn2) (ad2 * bd2) : Int) = g5 at *
  rw [hn] at q1 f1
  rw [hd] at q2 f2
  have gm : (0 : Int) ≤ G_MAXINT := by decide
  have b1 : an2 * bn2 ≤ G_MAXINT := by
    have c : ¬ (Int.tdiv G_MAXINT |an2| < |bn2|) := fun hc => c1 ⟨ne_of_gt p5, hc⟩
    rw [abs_of_pos p5, abs_of_pos p8, Int.tdiv_eq_ediv gm (le_of_lt p5)] at c
    have c3 : bn2 ≤ G_MAXINT / an2 := not_lt.mp c
    have := (Int.le_ediv_iff_mul_le p5).mp c3
    linarith [mul_comm an2 bn2]
  have b2 : ad2 * bd2 ≤ G_MAXINT := by
    rw [abs_of_pos p7, abs_of_pos p6, Int.tdiv_eq_ediv gm (le_of_lt p7)] at c2
    have c3 : bd2 ≤ G_MAXINT / ad2 := not_lt.mp c2
    have := (Int.le_ediv_iff_mul_le p7).mp c3
    linarith [mul_comm ad2 bd2]
  have g1le : (1 : Int) ≤ g5 := hg5
  constructor
  · have : n ≤ n * g5 := by nlinarith
    omega
  · have : d ≤ d * g5 := by nlinarith
    omega

/-- The clamp of `gst_structure_fixate_field_nearest_int` on a range, as a minimum of a
maximum. -/
theorem clamp_eq (lo hi t : Int) :
    (if (if t < lo then lo else t) > hi then hi else (if t < lo then lo else t)) =
      min hi (max lo t) := by
  simp only [min_def, max_def]
  split_ifs <;> omega

/-- Fixating an integer range nearest to a target writes the target clamped into the range. -/
theorem nearest_int_clamp (s : GstStructure) (f : String) (lo hi t : Int)
    (h : gst_structure_get_value s f = some (.intRange lo hi)) :
    gst_structure_fixate_field_nearest_int s f t =
      gst_structure_set_int s f (min hi (max lo t)) := by
  rw [nearest_int_range s f lo hi t h, clamp_eq]

/-- The clamp into a non-empty range lies in the range, is nearest to the target, and is the
target itself exactly when the target lies in the range. -/
theorem clamp_spec (lo hi t : Int) (h : lo ≤ hi) :
    lo ≤ min hi (max lo t) ∧ min hi (max lo t) ≤ hi ∧
    (∀ x, lo ≤ x → x ≤ hi → |t - min hi (max lo t)| ≤ |t - x|) ∧
    (min hi (max lo t) = t ↔ lo ≤ t ∧ t ≤ hi) := by
  refine ⟨?_, ?_, ?_, ?_⟩
  · simp only [min_def, max_def]; split_ifs <;> omega
  · simp only [min_def, max_def]; split_ifs <;> omega
  · intro x h1 h2
    simp only [min_def, max_def]
    split_ifs <;> (rw [abs_le]; constructor <;> (rcases abs_cases (t - x) with hx | hx <;> omega))
  · simp only [min_def, max_def]
    split_ifs <;> constructor <;> intro hx <;> omega

/-- C32 (amended): only the output height `h` is fixed, the output width is a non-empty range
of positive integers and the output carries the unconstrained PAR range; the input DAR
`dn/dd` and its product `n/d` with `h/set_w` are computed without overflow, where `set_w` is the
input width clamped into the width range.  Then size fixation sets the width to `set_w` - which
lies in the range, is at least as near to the input width as every other value of the range, and
is the input width itself when the range contains it - leaves the height at `h`, and sets the
PAR to `n/d`, which is in lowest terms and satisfies
`set_w * n * from_h * from_par_d = h * d * from_w * from_par_n`; no error is raised and the width
is not rescaled. -/
theorem fixate_size_height_fixed_par_free
    (get_info : String → Option GstVideoFormatInfo)
    (pick : List GValue → Int → Int → Option GValue) (u : Uninit) (direction : GstPadDirection)
    (ins outs : GstStructure) (crest rest : GstCaps)
    (from_w from_h fpn fpd h lo hi set_w dn dd n d : Int)
    (hiw : gst_structure_get_value ins "width" = some (.int from_w))
    (hih : gst_structure_get_value ins "height" = some (.int from_h))
    (hip : gst_structure_get_value ins "pixel-aspect-ratio" = some (.fraction fpn fpd))
    (pw : 0 < from_w) (ph : 0 < from_h) (pn : 0 < fpn) (pd : 0 < fpd)
    (how : gst_structure_get_value outs "width" = some (.intRange lo hi))
    (plo : 0 < lo) (hlh : lo ≤ hi)
    (hoh : gst_structure_get_value outs "height" = some (.int h)) (phh : 0 < h)
    (hop : gst_structure_get_value outs "pixel-aspect-ratio" =
      some (.fractionRange 1 G_MAXINT G_MAXINT 1))
    (hsw : set_w = min hi (max lo from_w))
    (hm1 : gst_util_fraction_multiply from_w from_h fpn fpd = some (dn, dd))
    (hm2 : gst_util_fraction_multiply dn dd h set_w = some (n, d)) :
    lo ≤ set_w ∧ set_w ≤ hi ∧
    (∀ x, lo ≤ x → x ≤ hi → |from_w - set_w| ≤ |from_w - x|) ∧
    (lo ≤ from_w → from_w ≤ hi → set_w = from_w) ∧
    0 < n ∧ 0 < d ∧ Int.gcd n d = 1 ∧
    set_w * n * from_h * fpd = h * d * from_w * fpn ∧
    ∃ outs1,
      gst_imx_ipu_video_transform_fixate_size_caps get_info pick u direction (ins :: crest)
        (outs :: rest) = ⟨outs1 :: rest, false⟩ ∧
      gst_structure_get_value outs1 "width" = some (.int set_w) ∧
      gst_structure_get_value outs1 "height" = some (.int h) ∧
      gst_structure_get_value outs1 "pixel-aspect-ratio" = some (.fraction n d) := by
  obtain ⟨c1, c2, c3, c4⟩ := clamp_spec lo hi from_w hlh
  rw [← hsw] at c1 c2 c3 c4
  have psw : 0 < set_w := lt_of_lt_of_le plo c1
  obtain ⟨pdn, pdd, hdar, _⟩ := fraction_multiply_spec pw ph pn pd hm1
  obtain ⟨pnn, pnd, hpar, hcop⟩ := fraction_multiply_spec pdn pdd phh psw hm2
  obtain ⟨bn, bd⟩ := fraction_multiply_bound pdn pdd phh psw hm2
  have hcross : set_w * n * from_h * fpd = h * d * from_w * fpn := by
    have e3 : set_w * n * from_h * fpd * dd = h * d * from_w * fpn * dd := by
      have t1 : set_w * n * from_h * fpd * dd = (n * (dd * set_w)) * (from_h * fpd) := by ring
      have t2 : h * d * from_w * fpn * dd = d * h * (dd * (from_w * fpn)) := by ring
      rw [t1, t2, hpar, ← hdar]; ring
    exact Int.eq_of_mul_eq_mul_right (ne_of_gt pdd) e3
  have htp : to_par_value direction outs = .fractionRange 1 G_MAXINT G_MAXINT 1 :=
    to_par_value_some direction outs _ hop
  have hod := outs_with_default_par_some direction outs _ hop
  have htmp : gst_structure_fixate_field_nearest_int outs "width" from_w =
      gst_structure_set_int outs "width" set_w := by
    rw [nearest_int_clamp outs "width" lo hi from_w how, hsw]
  have hp1 : gst_structure_get_value (gst_structure_set_int outs "width" set_w)
      "pixel-aspect-ratio" = some (.fractionRange 1 G_MAXINT G_MAXINT 1) := by
    rw [gst_structure_set_int, get_set_value, if_neg (by decide), hop]
  have htw : tmp_with_par pick (gst_structure_set_int outs "width" set_w)
      (.fractionRange 1 G_MAXINT G_MAXINT 1) n d =
      gst_structure_set_value (gst_structure_set_int outs "width" set_w)
        "pixel-aspect-ratio" (.fraction n d) := by
    unfold tmp_with_par
    simp only [gst_structure_has_field, hp1, Option.isSome_some, Bool.not_true,
      Bool.false_eq_true, if_false]
    exact nearest_fraction_unconstrained pick _ _ n d pnn pnd bn bd hcop hp1
  have hhf : gst_structure_has_field outs "pixel-aspect-ratio" = true := by
    simp [gst_structure_has_field, hop]
  have hb : fixate_height_fixed pick u from_w dn dd h
      (.fractionRange 1 G_MAXINT G_MAXINT 1) outs =
      (gst_structure_set_value (gst_structure_set_int outs "width" set_w)
        "pixel-aspect-ratio" (.fraction n d), false) := by
    unfold fixate_height_fixed
    simp only [gst_value_is_fixed, Bool.false_eq_true, if_false, htmp, get_int_set_int,
      if_true, Option.getD_some, hm2, htw]
    simp [gst_structure_get_fraction, get_set_value, hhf,
      set_fraction_reduced _ _ n d pnd hcop]
  have hs : fixate_size_structure pick u direction ins outs =
      ⟨gst_structure_set_value (gst_structure_set_int outs "width" set_w)
        "pixel-aspect-ratio" (.fraction n d), false, true⟩ := by
    unfold fixate_size_structure
    rw [hip, htp, hod, get_int_of_range outs "width" lo hi how,
      get_int_of_int outs "height" h hoh, get_int_of_int ins "width" from_w hiw,
      get_int_of_int ins "height" from_h hih]
    simp only [Option.getD_some, Option.getD_none, gst_value_is_fixed,
      gst_value_get_fraction_numerator, gst_value_get_fraction_denominator,
      Bool.not_true, Bool.false_eq_true, if_false]
    unfold fixate_size_dims
    simp only [ne_eq, not_true_eq_false, false_and, if_false, hm1, hb, ne_of_gt phh,
      not_false_eq_true, if_true]
  obtain ⟨outs1, h1, h2⟩ := fixate_format_frame get_info (ins :: crest)
    (gst_structure_set_value (gst_structure_set_int outs "width" set_w) "pixel-aspect-ratio"
      (.fraction n d)) rest
  refine ⟨c1, c2, c3, fun a b => c4.mpr ⟨a, b⟩, pnn, pnd, hcop, hcross, outs1, ?_, ?_, ?_, ?_⟩
  · simp [gst_imx_ipu_video_transform_fixate_size_caps, hs, h1]
  · rw [h2 "width" (by decide), get_set_value, if_neg (by decide), gst_structure_set_int,
      get_set_value, if_pos rfl]
  · rw [h2 "height" (by decide), get_set_value, if_neg (by decide), gst_structure_set_int,
      get_set_value, if_neg (by decide), hoh]
  · rw [h2 "pixel-aspect-ratio" (by decide), get_set_value, if_pos rfl]

theorem fixate_size_height_fixed_par_free_witness :
    (64 : Int) ≤ 1280 ∧ (1280 : Int) ≤ 1280 ∧
    (∀ x : Int, 64 ≤ x → x ≤ 1280 → |(1920 : Int) - 1280| ≤ |1920 - x|) ∧
    ((64 : Int) ≤ 1920 → (1920 : Int) ≤ 1280 → (1280 : Int) = 1920) ∧
    (0 : Int) < 3 ∧ (0 : Int) < 4 ∧ Int.gcd 3 4 = 1 ∧
    (1280 : Int) * 3 * 1080 * 1 = 540 * 4 * 1920 * 1 ∧
    ∃ outs1,
      gst_imx_ipu_video_transform_fixate_size_caps example_get_info no_pick uninit_zero
        .GST_PAD_SINK (ex_in_1080p :: []) (ex_out_h540_narrow :: []) = ⟨outs1 :: [], false⟩ ∧
      gst_structure_get_value outs1 "width" = some (.int 1280) ∧
      gst_structure_get_value outs1 "height" = some (.int 540) ∧
      gst_structure_get_value outs1 "pixel-aspect-ratio" = some (.fraction 3 4) :=
  fixate_size_height_fixed_par_free example_get_info no_pick uninit_zero .GST_PAD_SINK
    ex_in_1080p ex_out_h540_narrow [] [] 1920 1080 1 1 540 64 1280 1280 16 9 3 4
    rfl rfl rfl (by decide) (by decide) (by decide) (by decide) rfl (by decide) (by decide)
    rfl (by decide) rfl (by decide) (by decide) (by decide)

/-- C32 (as stated) fails: for input 1920x1080 with PAR 268435456:1 and an output with height
fixed at 540, width range `[64, G_MAXINT]` (which contains 1920) and the unconstrained PAR range,
the input DAR overflows; size fixation raises the negotiation error and leaves the width a range
and the PAR a range. -/
theorem fixate_size_height_fixed_overflow_counterexample :
    gst_util_fraction_multiply 1920 1080 268435456 1 = none ∧
    gst_imx_ipu_video_transform_fixate_size_caps example_get_info no_pick uninit_zero
        .GST_PAD_SINK [ex_in_1080p_wide_par] [ex_out_h540] = ⟨[ex_out_h540], true⟩ ∧
    gst_structure_get_value ex_out_h540 "width" = some (.intRange 64 2147483647) ∧
    gst_structure_get_value ex_out_h540 "pixel-aspect-ratio" =
      some (.fractionRange 1 2147483647 2147483647 1) :=
  ⟨by rfl, by rfl, rfl, rfl⟩

/-- The three outcomes of C35 on input 1920x1080 with PAR 1:1 and output PAR range `[2/1, 4/1]`
(required PAR 1:1, nearest 2:1, scale factor 8/9): with free ranges the width is adjusted to
960 although the height 2160 would also be in range; with width range `[1000, 2000]` the height
is adjusted to 2160; with both ranges `[1000, 2000]` the pair 1920x1080 is kept. -/
theorem fixate_size_nothing_fixed_three_outcomes :
    gst_imx_ipu_video_transform_fixate_size_caps example_get_info no_pick uninit_zero
        .GST_PAD_SINK [ex_in_1080p] [ex_out_par_2_to_4] =
      ⟨[⟨[("width", .int 960), ("height", .int 1080), ("pixel-aspect-ratio", .fraction 2 1)]⟩],
        false⟩ ∧
    gst_imx_ipu_video_transform_fixate_size_caps example_get_info no_pick uninit_zero
        .GST_PAD_SINK [ex_in_1080p] [ex_out_w1000_par_2_to_4] =
      ⟨[⟨[("width", .int 1920), ("height", .int 2160), ("pixel-aspect-ratio", .fraction 2 1)]⟩],
        false⟩ ∧
    gst_imx_ipu_video_transform_fixate_size_caps example_get_info no_pick uninit_zero
        .GST_PAD_SINK [ex_in_1080p] [ex_out_wh1000_par_2_to_4] =
      ⟨[⟨[("width", .int 1920), ("height", .int 1080), ("pixel-aspect-ratio", .fraction 2 1)]⟩],
        false⟩ :=
  ⟨by rfl, by rfl, by rfl⟩

end GstImx
